import Mathlib

/-!
# Travel-planner backend: identity, session and trip store

A shallow embedding of `src/backend/server.js` (and of `togglePackingItem` of
`src/frontend/src/App.jsx`): the Express handlers become
functions from an explicit document store (and the request inputs) to a
response, the third-party libraries the handlers call (bcryptjs, jsonwebtoken,
the ODM's ObjectId cast) are fields of an environment record `Env`, and the
store is a record of document lists with a counter for fresh ObjectIds.

Conventions of the embedding:
* a body field or query parameter is `Option String`: `none` is a missing field,
  `some ""` the empty string; the JavaScript test `!x` is `falsy x`; the login handler
  is also embedded for a `password` member that is any JSON value (`loginJson`), since
  bcryptjs throws on a value that is not a string;
* the body of a trip creation or update is a record of the schema's fields at the
  schema's types (a value the schema cannot cast is outside the embedding);
* the answers of the weather and routing providers are records of the fields the
  handlers read, and JavaScript runtime functions (dates, number formats, lower case,
  regular expressions) are fields of `WeatherEnv` and `JsRuntime`;
* `now` is `Date.now()` (milliseconds), `salt` the entropy bcrypt draws;
* store calls succeed unless a schema validator or the unique index rejects the
  write; a failing store is modelled only for the best-effort history write of the
  weather lookups, through the flag `writeOk`;
* numbers of the weather provider are rationals, `Math.round` is `mathRound`;
* the ODM's bookkeeping keys (`__v`, ids of array sub-documents) are not part of
  the serialised documents.
-/

namespace WeatherApp

/-! ## Values and responses -/

/-- MongoDB ObjectId, kept abstract as a natural number. -/
abbrev ObjectId := Nat

/-- The value handed to `res.json`. The leaves `oid` and `date` are the ObjectId and
Date objects that Express serialises as a hex string and an ISO-8601 string; `num` is an
integer and `dec` a number that need not be one. -/
inductive Json where
  | null : Json
  | bool (b : Bool) : Json
  | num (n : Int) : Json
  | dec (q : ℚ) : Json
  | str (s : String) : Json
  | oid (id : ObjectId) : Json
  | date (ms : Int) : Json
  | arr (xs : List Json) : Json
  | obj (kvs : List (String × Json)) : Json

/-- The keys of a JSON object, in order; no keys for a value that is not an object. -/
def Json.keys : Json → List String
  | .obj kvs => kvs.map Prod.fst
  | _ => []

/-- Member access `j[k]` on a JSON object: the first entry under key `k`. -/
def Json.get? : Json → String → Option Json
  | .obj kvs, k => (kvs.find? (fun kv => kv.1 == k)).map Prod.snd
  | _, _ => none

/-- An HTTP response: `res.status(code).json(body)`; `res.json(body)` alone is status 200. -/
structure Response where
  status : Nat
  body : Json

/-- The body of every failure response of the server: the object with the one key `error`. -/
def errorBody (msg : String) : Json := .obj [("error", .str msg)]

/-- JavaScript falsiness of a body field that is missing or a string: `!x`. -/
def falsy : Option String → Bool
  | none => true
  | some s => s == ""

/-! ## Strings: `startsWith` and `split` -/

/-- JavaScript `s.split(sep)` for a one-character separator, on character lists. -/
def splitChars (sep : Char) : List Char → List (List Char)
  | [] => [[]]
  | c :: cs =>
    if c = sep then [] :: splitChars sep cs
    else
      match splitChars sep cs with
      | [] => [[c]]
      | w :: ws => (c :: w) :: ws

/-- JavaScript `s.split(' ')`. -/
def jsSplit (sep : Char) (s : String) : List String :=
  (splitChars sep s.data).map String.mk

/-- JavaScript `s.startsWith(p)`. -/
def jsStartsWith (s p : String) : Bool :=
  p.data.isPrefixOf s.data

/-! ## Third-party libraries -/

/-- The decoded payload of a session token: what the server signs (`userId`) plus the two
registered claims jsonwebtoken adds, issue time and expiry, in seconds. -/
structure Claims where
  userId : ObjectId
  iat : Nat
  exp : Nat
deriving DecidableEq

/-- The environment of the server: configuration and the library primitives it calls. -/
structure Env where
  /-- `process.env.JWT_SECRET || 'your-secret-key-change-in-production'` -/
  JWT_SECRET : String
  /-- `bcrypt.hash(password, rounds)` with the salt entropy it draws -/
  bcryptHash : String → Nat → Nat → String
  /-- `bcrypt.compare(password, hash)` -/
  bcryptCompare : String → String → Bool
  /-- the compact serialisation of signed claims under a secret -/
  jwtEncode : String → Claims → String
  /-- signature check and decoding of a compact token under a secret -/
  jwtDecode : String → String → Option Claims
  /-- the cast of a route parameter to an ObjectId; `none` is a CastError -/
  castObjectId : String → Option ObjectId

/-- Decimal numeral on a character list. -/
def parseDigits : List Char → Option Nat
  | [] => none
  | cs => cs.foldl
      (fun acc c => acc.bind (fun n => if c.isDigit then some (n * 10 + (c.toNat - 48)) else none))
      (some 0)

/-- The time span a string such as `'30d'` denotes, in seconds (units s, m, h, d). -/
def spanSeconds (s : String) : Option Nat :=
  match s.data.reverse with
  | [] => none
  | u :: rest =>
    (parseDigits rest.reverse).bind (fun n =>
      if u = 'd' then some (n * 86400)
      else if u = 'h' then some (n * 3600)
      else if u = 'm' then some (n * 60)
      else if u = 's' then some n
      else none)

/-- `jwt.sign({ userId }, secret, { expiresIn })` at clock `now` (ms): the claims carry the
given user id, `iat = floor(now/1000)` and `exp = iat + span`; `none` is a thrown error. -/
def jwtSign (E : Env) (userId : ObjectId) (secret : String) (expiresIn : String) (now : Nat) :
    Option String :=
  (spanSeconds expiresIn).map (fun span =>
    E.jwtEncode secret { userId := userId, iat := now / 1000, exp := now / 1000 + span })

/-- `jwt.verify(token, secret)` at clock `now` (ms): the decoded claims when the signature
checks and the expiry has not been reached; `none` is a thrown error. -/
def jwtVerify (E : Env) (token : String) (secret : String) (now : Nat) : Option Claims :=
  match E.jwtDecode secret token with
  | none => none
  | some c => if c.exp ≤ now / 1000 then none else some c

/-! ## Auth middleware -/

/-- What a middleware does with a request: answer it, or pass it on with `req.userId` set. -/
inductive AuthResult where
  | respond (res : Response) : AuthResult
  | next (userId : ObjectId) : AuthResult

/-- The token `authMiddleware` extracts from the Authorization header. -/
def extractToken (authorization : Option String) : Option String :=
  let authHeader := if falsy authorization then "" else authorization.getD ""
  if jsStartsWith authHeader "Bearer " then (jsSplit ' ' authHeader)[1]? else some authHeader

/-- Embedding of `authMiddleware`. -/
def authMiddleware (E : Env) (now : Nat) (authorization : Option String) : AuthResult :=
  let token := extractToken authorization
  if falsy token then .respond ⟨401, errorBody "No token provided"⟩
  else
    match jwtVerify E (token.getD "") E.JWT_SECRET now with
    | none => .respond ⟨401, errorBody "Invalid token"⟩
    | some decoded => .next decoded.userId

/-! ## Users -/

/-- A document of the `User` collection. -/
structure User where
  _id : ObjectId
  name : String
  email : String
  password : String
  createdAt : Nat

/-- An entry of `activities` in a day of the itinerary. -/
structure Activity where
  time : Option String
  activity : Option String
  location : Option String
  notes : Option String

/-- An entry of `itinerary`. -/
structure DayPlan where
  day : Option Int
  date : Option String
  activities : List Activity

/-- An entry of `packingList`. -/
structure PackingItem where
  item : Option String
  packed : Option Bool

/-- The nested `accommodation` record. -/
structure Accommodation where
  name : Option String
  address : Option String
  checkIn : Option String
  checkOut : Option String

/-- An entry of `restaurants`. -/
structure Restaurant where
  name : Option String
  cuisine : Option String
  location : Option String

/-- An entry of `events`. -/
structure TripEvent where
  name : Option String
  date : Option String
  location : Option String

/-- A document of the `Trip` collection (`TripSchema`); dates are milliseconds. -/
structure Trip where
  _id : ObjectId
  userId : ObjectId
  destination : String
  startDate : Int
  endDate : Int
  itinerary : List DayPlan
  packingList : List PackingItem
  accommodation : Option Accommodation
  restaurants : List Restaurant
  events : List TripEvent
  createdAt : Int

/-- A document of the `WeatherHistory` collection; `date` is in milliseconds. -/
structure WeatherHistory where
  _id : ObjectId
  location : String
  date : Int
  temperature : ℚ
  conditions : String
  precipitation : ℚ

/-- The document store: the collections and the next fresh ObjectId. -/
structure Store where
  users : List User
  trips : List Trip
  nextId : ObjectId
  history : List WeatherHistory := []

/-! ## Serialisation -/

/-- An optional string member: present only when the field is set. -/
def optStr (k : String) : Option String → List (String × Json)
  | none => []
  | some v => [(k, .str v)]

/-- Serialised activity. -/
def Activity.toJson (a : Activity) : Json :=
  .obj (optStr "time" a.time ++ optStr "activity" a.activity ++
    optStr "location" a.location ++ optStr "notes" a.notes)

/-- Serialised itinerary day. -/
def DayPlan.toJson (d : DayPlan) : Json :=
  .obj ((match d.day with | none => [] | some n => [("day", .num n)]) ++
    optStr "date" d.date ++ [("activities", .arr (d.activities.map Activity.toJson))])

/-- Serialised packing-list entry. -/
def PackingItem.toJson (p : PackingItem) : Json :=
  .obj (optStr "item" p.item ++
    (match p.packed with | none => [] | some b => [("packed", .bool b)]))

/-- Serialised accommodation record. -/
def Accommodation.toJson (a : Accommodation) : Json :=
  .obj (optStr "name" a.name ++ optStr "address" a.address ++
    optStr "checkIn" a.checkIn ++ optStr "checkOut" a.checkOut)

/-- Serialised restaurant entry. -/
def Restaurant.toJson (r : Restaurant) : Json :=
  .obj (optStr "name" r.name ++ optStr "cuisine" r.cuisine ++ optStr "location" r.location)

/-- Serialised event entry. -/
def TripEvent.toJson (e : TripEvent) : Json :=
  .obj (optStr "name" e.name ++ optStr "date" e.date ++ optStr "location" e.location)

/-- A trip document as `res.json` sends it. -/
def Trip.toJson (t : Trip) : Json :=
  .obj ([("_id", .oid t._id), ("userId", .oid t.userId), ("destination", .str t.destination),
      ("startDate", .date t.startDate), ("endDate", .date t.endDate),
      ("itinerary", .arr (t.itinerary.map DayPlan.toJson)),
      ("packingList", .arr (t.packingList.map PackingItem.toJson))] ++
    (match t.accommodation with | none => [] | some a => [("accommodation", a.toJson)]) ++
    [("restaurants", .arr (t.restaurants.map Restaurant.toJson)),
      ("events", .arr (t.events.map TripEvent.toJson)),
      ("createdAt", .date t.createdAt)])

/-- The public user view of signup and login: `{ id, name, email }`. -/
def userView (u : User) : Json :=
  .obj [("id", .oid u._id), ("name", .str u.name), ("email", .str u.email)]

/-- A user document after `.select('-password')`. -/
def User.selectMinusPassword (u : User) : Json :=
  .obj [("_id", .oid u._id), ("name", .str u.name), ("email", .str u.email),
    ("createdAt", .date u.createdAt)]

/-! ## Store queries -/

/-- `User.findOne({ email })`: the first user document with that email. -/
def User.findOne (s : Store) (email : String) : Option User :=
  s.users.find? (fun u => u.email == email)

/-- `User.findById(id)`. -/
def User.findById (s : Store) (id : ObjectId) : Option User :=
  s.users.find? (fun u => u._id == id)

/-- The store after one more user document is written; the fresh ObjectId is consumed. -/
def Store.insertUser (s : Store) (u : User) : Store :=
  { s with users := s.users ++ [u], nextId := s.nextId + 1 }

/-- `user.save()` for a new document: the schema's `required` validators (a required
string may not be empty) and the unique index on `email`; an error is a thrown exception. -/
def User.save (s : Store) (u : User) : Except String Store :=
  if u.name == "" || u.email == "" || u.password == "" then .error "ValidationError"
  else if s.users.any (fun v => v.email == u.email) then .error "E11000 duplicate key"
  else .ok (s.insertUser u)

/-- `Trip.findOne({ _id, userId })`: the first trip matching both fields. -/
def Trip.findOne (s : Store) (id userId : ObjectId) : Option Trip :=
  s.trips.find? (fun t => t._id == id && t.userId == userId)

/-! ## Auth routes -/

/-- Embedding of `POST /api/auth/signup`; the arguments after the clock and the salt are
the three destructured body fields. -/
def signup (E : Env) (s : Store) (now salt : Nat) (name email password : Option String) :
    Store × Response :=
  if falsy name || falsy email || falsy password then
    (s, ⟨400, errorBody "All fields required"⟩)
  else
    match User.findOne s (email.getD "") with
    | some _ => (s, ⟨400, errorBody "Email already registered"⟩)
    | none =>
      let hashedPassword := E.bcryptHash (password.getD "") 10 salt
      let user : User :=
        { _id := s.nextId, name := name.getD "", email := email.getD "",
          password := hashedPassword, createdAt := now }
      match User.save s user with
      | .error _ => (s, ⟨500, errorBody "Signup failed"⟩)
      | .ok s' =>
        match jwtSign E user._id E.JWT_SECRET "30d" now with
        | none => (s', ⟨500, errorBody "Signup failed"⟩)
        | some token => (s', ⟨200, .obj [("token", .str token), ("user", userView user)]⟩)

/-- Embedding of `POST /api/auth/login`; it only reads the store. -/
def login (E : Env) (s : Store) (now : Nat) (email password : Option String) : Response :=
  if falsy email || falsy password then ⟨400, errorBody "Email and password required"⟩
  else
    match User.findOne s (email.getD "") with
    | none => ⟨400, errorBody "Invalid credentials"⟩
    | some user =>
      if !E.bcryptCompare (password.getD "") user.password then
        ⟨400, errorBody "Invalid credentials"⟩
      else
        match jwtSign E user._id E.JWT_SECRET "30d" now with
        | none => ⟨500, errorBody "Login failed"⟩
        | some token => ⟨200, .obj [("token", .str token), ("user", userView user)]⟩

/-- JavaScript truthiness of a member of a parsed JSON body; `none` is a member the body
does not have. -/
def truthyJson : Option Json → Bool
  | none => false
  | some .null => false
  | some (.bool b) => b
  | some (.num n) => n != 0
  | some (.dec q) => q != 0
  | some (.str x) => x != ""
  | some _ => true

/-- The call `await bcrypt.compare(password, hash)` on a body member: bcryptjs checks
`typeof password !== "string"` first and rejects with `Illegal arguments`, so the `await`
throws; on a string it is the comparison of the environment. -/
def bcryptCompareValue (E : Env) (password : Json) (hash : String) : Except String Bool :=
  match password with
  | .str p => .ok (E.bcryptCompare p hash)
  | _ => .error "Illegal arguments"

/-- Embedding of `POST /api/auth/login` for a body whose `password` member is any JSON
value: the handler does not check its type, so a truthy value that is not a string reaches
`bcrypt.compare`, and the error it throws is caught by the handler's `catch`. On a string
or missing password this is `login`. -/
def loginJson (E : Env) (s : Store) (now : Nat) (email : Option String)
    (password : Option Json) : Response :=
  if falsy email || !truthyJson password then
    ⟨400, errorBody "Email and password required"⟩
  else
    match User.findOne s (email.getD "") with
    | none => ⟨400, errorBody "Invalid credentials"⟩
    | some user =>
      match bcryptCompareValue E (password.getD .null) user.password with
      | .error _ => ⟨500, errorBody "Login failed"⟩
      | .ok validPassword =>
        if !validPassword then ⟨400, errorBody "Invalid credentials"⟩
        else
          match jwtSign E user._id E.JWT_SECRET "30d" now with
          | none => ⟨500, errorBody "Login failed"⟩
          | some token => ⟨200, .obj [("token", .str token), ("user", userView user)]⟩

/-- The handler of `GET /api/auth/me`, after the middleware set `req.userId`. -/
def meHandler (s : Store) (userId : ObjectId) : Response :=
  match User.findById s userId with
  | none => ⟨404, errorBody "User not found"⟩
  | some user => ⟨200, .obj [("user", user.selectMinusPassword)]⟩

/-- Embedding of the route `GET /api/auth/me`: `authMiddleware`, then the handler. -/
def me (E : Env) (s : Store) (now : Nat) (authorization : Option String) : Response :=
  match authMiddleware E now authorization with
  | .respond res => res
  | .next userId => meHandler s userId

/-! ## Trip routes -/

/-- The body of `POST /api/trips` and of `PUT /api/trips/:id` at the schema's types: the
fields it names. -/
structure TripPatch where
  userId : Option ObjectId
  destination : Option String
  startDate : Option Int
  endDate : Option Int
  itinerary : Option (List DayPlan)
  packingList : Option (List PackingItem)
  accommodation : Option Accommodation
  restaurants : Option (List Restaurant)
  events : Option (List TripEvent)
  createdAt : Option Int

/-- The update `findOneAndUpdate` applies: every field the body names is set. -/
def Trip.applyPatch (t : Trip) (p : TripPatch) : Trip :=
  { t with
    userId := p.userId.getD t.userId
    destination := p.destination.getD t.destination
    startDate := p.startDate.getD t.startDate
    endDate := p.endDate.getD t.endDate
    itinerary := p.itinerary.getD t.itinerary
    packingList := p.packingList.getD t.packingList
    accommodation := match p.accommodation with | none => t.accommodation | some a => some a
    restaurants := p.restaurants.getD t.restaurants
    events := p.events.getD t.events
    createdAt := p.createdAt.getD t.createdAt }

/-- Replace the first document that satisfies the filter. -/
def replaceFirst (f : Trip → Bool) (g : Trip → Trip) : List Trip → List Trip
  | [] => []
  | t :: ts => if f t then g t :: ts else t :: replaceFirst f g ts

/-- Remove the first document that satisfies the filter. -/
def removeFirst (f : Trip → Bool) : List Trip → List Trip
  | [] => []
  | t :: ts => if f t then ts else t :: removeFirst f ts

/-- The handler of `GET /api/trips/:id`, after the middleware set `req.userId`. -/
def getTrip (E : Env) (s : Store) (userId : ObjectId) (id : String) : Response :=
  match E.castObjectId id with
  | none => ⟨500, errorBody "Failed to fetch trip"⟩
  | some oid =>
    match Trip.findOne s oid userId with
    | none => ⟨404, errorBody "Trip not found"⟩
    | some trip => ⟨200, .obj [("trip", trip.toJson)]⟩

/-- The handler of `PUT /api/trips/:id`: `findOneAndUpdate` with `new: true`. -/
def updateTrip (E : Env) (s : Store) (userId : ObjectId) (id : String) (body : TripPatch) :
    Store × Response :=
  match E.castObjectId id with
  | none => (s, ⟨500, errorBody "Failed to update trip"⟩)
  | some oid =>
    match Trip.findOne s oid userId with
    | none => (s, ⟨404, errorBody "Trip not found"⟩)
    | some trip =>
      let trips := replaceFirst (fun t => t._id == oid && t.userId == userId)
        (fun t => t.applyPatch body) s.trips
      ({ s with trips := trips }, ⟨200, .obj [("trip", (trip.applyPatch body).toJson)]⟩)

/-- The handler of `DELETE /api/trips/:id`: `findOneAndDelete`. -/
def deleteTrip (E : Env) (s : Store) (userId : ObjectId) (id : String) : Store × Response :=
  match E.castObjectId id with
  | none => (s, ⟨500, errorBody "Failed to delete trip"⟩)
  | some oid =>
    match Trip.findOne s oid userId with
    | none => (s, ⟨404, errorBody "Trip not found"⟩)
    | some _ =>
      let trips := removeFirst (fun t => t._id == oid && t.userId == userId) s.trips
      ({ s with trips := trips }, ⟨200, .obj [("message", .str "Trip deleted")]⟩)

/-- A route with the middleware in front, as Express composes them. -/
def withAuth {α : Type} (E : Env) (now : Nat) (authorization : Option String)
    (reject : Response → α) (handler : ObjectId → α) : α :=
  match authMiddleware E now authorization with
  | .respond res => reject res
  | .next userId => handler userId

/-- The store after one more trip document is written; the fresh ObjectId is consumed. -/
def Store.insertTrip (s : Store) (t : Trip) : Store :=
  { s with trips := s.trips ++ [t], nextId := s.nextId + 1 }

/-- The document `new Trip(tripData)` builds and `save()` validates: `userId`, `destination`,
`startDate` and `endDate` are required (a required string may not be empty), arrays that
the data does not name are empty and `createdAt` defaults to the clock; an error is the
thrown ValidationError. -/
def newTrip (id : ObjectId) (now : Nat) (tripData : TripPatch) : Except String Trip :=
  match tripData.userId, tripData.destination, tripData.startDate, tripData.endDate with
  | some userId, some destination, some startDate, some endDate =>
    if destination == "" then .error "ValidationError"
    else
      .ok { _id := id, userId := userId, destination := destination, startDate := startDate,
            endDate := endDate, itinerary := tripData.itinerary.getD [],
            packingList := tripData.packingList.getD [],
            accommodation := tripData.accommodation,
            restaurants := tripData.restaurants.getD [], events := tripData.events.getD [],
            createdAt := tripData.createdAt.getD now }
  | _, _, _, _ => .error "ValidationError"

/-- `trip.save()` for a new document: the validators of `newTrip` and the primary key. -/
def Trip.save (s : Store) (now : Nat) (tripData : TripPatch) : Except String (Store × Trip) :=
  match newTrip s.nextId now tripData with
  | .error e => .error e
  | .ok trip =>
    if s.trips.any (fun t => t._id == trip._id) then .error "E11000 duplicate key"
    else .ok (s.insertTrip trip, trip)

/-- The handler of `POST /api/trips`, after the middleware set `req.userId`; the body is a
record of the schema's fields, as for the update. -/
def createTrip (s : Store) (now : Nat) (userId : ObjectId) (body : TripPatch) :
    Store × Response :=
  let tripData : TripPatch := { body with userId := some userId }
  match Trip.save s now tripData with
  | .error _ => (s, ⟨500, errorBody "Failed to create trip"⟩)
  | .ok (s', trip) => (s', ⟨200, .obj [("trip", trip.toJson)]⟩)

/-- `Trip.find({ userId }).sort({ createdAt: -1 })`. -/
def Trip.find (s : Store) (userId : ObjectId) : List Trip :=
  (s.trips.filter (fun t => t.userId == userId)).insertionSort
    (fun a b => b.createdAt ≤ a.createdAt)

/-- The handler of `GET /api/trips`, after the middleware set `req.userId`. -/
def listTrips (s : Store) (userId : ObjectId) : Response :=
  ⟨200, .obj [("trips", .arr ((Trip.find s userId).map Trip.toJson))]⟩

/-! ## Weather lookups -/

/-- Embedding of `getWeatherIcon`: the icon name for the first two characters of the code. -/
def getWeatherIcon (icon : String) : String :=
  let code := String.mk (icon.data.take 2)
  if code == "01" then "sun"
  else if code == "02" then "cloud-sun"
  else if code == "03" then "cloud"
  else if code == "04" then "cloud"
  else if code == "09" then "cloud-rain"
  else if code == "10" then "cloud-rain"
  else if code == "11" then "cloud-lightning"
  else if code == "13" then "cloud-snow"
  else if code == "50" then "cloud-fog"
  else "cloud"

/-- JavaScript `Math.round` on a rational: the nearest integer, halves upwards. -/
def mathRound (x : ℚ) : Int := ⌊x + 1 / 2⌋

/-- An entry of the provider's `weather` array. -/
structure WeatherCond where
  description : Option String
  icon : Option String

/-- The provider's answer to `/weather`, with the optional chains of the handler flattened:
`main.*`, `wind?.speed`, the `weather` array (empty when absent), `name`, `sys?.country`,
`rain?.['1h']` and `coord`. -/
structure CurrentData where
  temp : ℚ
  feels_like : ℚ
  humidity : ℚ
  pressure : ℚ
  windSpeed : Option ℚ
  weather : List WeatherCond
  name : Option String
  country : Option String
  rain1h : Option ℚ
  lat : ℚ
  lon : ℚ

/-- An entry of `list` in the provider's answer to `/forecast`: `dt` in seconds,
`main.temp`, `main.humidity` and the `weather` array. -/
structure ForecastItem where
  dt : Int
  temp : ℚ
  humidity : ℚ
  weather : List WeatherCond

/-- An entry of `routes` in the answer of the routing provider: `geometry.coordinates`,
`summary.distance` (metres) and `summary.duration` (seconds). -/
structure RouteData where
  coordinates : Json
  distance : ℚ
  duration : ℚ

/-- Configuration and runtime functions of the weather and route handlers. -/
structure WeatherEnv where
  /-- `process.env.WEATHER_API_KEY` -/
  WEATHER_API_KEY : Option String
  /-- `process.env.ROUTE_API_KEY` -/
  ROUTE_API_KEY : Option String
  /-- `new Date(ms).toDateString()` in the server's time zone -/
  toDateString : Int → String
  /-- `new Date(dateKey).toLocaleDateString('en-US', ...)` with weekday, month and day -/
  toLocaleDateString : String → String

/-- The third-party services at the time of a request; `none` is a call that throws. The
argument is the `params` object (or the posted body) of the call. -/
structure Upstream where
  /-- `GET /weather` -/
  getWeather : Json → Option CurrentData
  /-- `GET /forecast`: `data.list` -/
  getForecast : Json → Option (List ForecastItem)
  /-- `GET /air_pollution`: `data?.list?.[0]?.main?.aqi` -/
  getAirPollution : Json → Option (Option Int)
  /-- `POST /v2/directions/driving-car`: `data.routes` -/
  postDirections : Json → Option (List RouteData)

/-- `weather?.[0]?.description || ''`. -/
def firstDescription (weather : List WeatherCond) : String :=
  (weather.head?.bind (fun w => w.description)).getD ""

/-- `getWeatherIcon(weather?.[0]?.icon || '')`. -/
def firstIcon (weather : List WeatherCond) : String :=
  getWeatherIcon ((weather.head?.bind (fun w => w.icon)).getD "")

/-- The `location` string of the `current` object. -/
def currentLocation (data : CurrentData) (fallbackName : String) : String :=
  (if falsy data.name then fallbackName else data.name.getD "") ++ ", " ++ data.country.getD ""

/-- The `current` object of both weather lookups; `fallbackName` is what the handler puts
for a missing name and `air` the answer of the air-quality call (`none` when it threw). -/
def buildCurrent (data : CurrentData) (fallbackName : String) (air : Option (Option Int)) :
    Json :=
  .obj [("temp", .num (mathRound data.temp)),
    ("feels_like", .num (mathRound data.feels_like)),
    ("humidity", .dec data.humidity),
    ("wind_speed", .dec (data.windSpeed.getD 0)),
    ("pressure", .dec data.pressure),
    ("description", .str (firstDescription data.weather)),
    ("icon", .str (firstIcon data.weather)),
    ("location", .str (currentLocation data fallbackName)),
    ("uv_index", .null),
    ("air_quality",
      match air.join with
      | none => .null
      | some aqi => if aqi = 0 then .null else .num aqi)]

/-- The value of one entry of `dailyForecasts`. -/
structure DayData where
  temps : List ℚ
  humidity : List ℚ
  description : String
  icon : String

/-- One round of the `forEach` over the forecast samples: the day of the sample is created
on first sight, at the end, and the sample is pushed onto it. -/
def addSample (W : WeatherEnv) (dailyForecasts : List (String × DayData)) (item : ForecastItem) :
    List (String × DayData) :=
  let dateKey := W.toDateString (item.dt * 1000)
  let withKey :=
    if dailyForecasts.any (fun kv => kv.1 == dateKey) then dailyForecasts
    else dailyForecasts ++ [(dateKey, { temps := [], humidity := [],
                                        description := firstDescription item.weather,
                                        icon := firstIcon item.weather })]
  withKey.map (fun kv =>
    if kv.1 == dateKey then
      (kv.1, { kv.2 with temps := kv.2.temps ++ [item.temp],
                         humidity := kv.2.humidity ++ [item.humidity] })
    else kv)

/-- `Math.max(...xs)`; `none` stands for the `-Infinity` of the empty list. -/
def jsMax : List ℚ → Option ℚ
  | [] => none
  | x :: xs => some (xs.foldl max x)

/-- `Math.min(...xs)`; `none` stands for the `Infinity` of the empty list. -/
def jsMin : List ℚ → Option ℚ
  | [] => none
  | x :: xs => some (xs.foldl min x)

/-- A rounded number as `res.json` writes it: an infinity or NaN is written `null`. -/
def roundedJson : Option ℚ → Json
  | none => .null
  | some x => .num (mathRound x)

/-- One entry of the `forecast` array. -/
def forecastEntry (W : WeatherEnv) (kv : String × DayData) : Json :=
  .obj [("date", .str (W.toLocaleDateString kv.1)),
    ("temp_max", roundedJson (jsMax kv.2.temps)),
    ("temp_min", roundedJson (jsMin kv.2.temps)),
    ("description", .str kv.2.description),
    ("icon", .str kv.2.icon),
    ("humidity", roundedJson
      (if kv.2.humidity.length = 0 then none
       else some (kv.2.humidity.sum / kv.2.humidity.length)))]

/-- The `forecast` array: the samples grouped by day, the first seven days. -/
def buildForecast (W : WeatherEnv) (list : List ForecastItem) : List Json :=
  ((list.foldl (addSample W) []).take 7).map (forecastEntry W)

/-- The store after one more history entry is written. -/
def Store.insertHistory (s : Store) (h : WeatherHistory) : Store :=
  { s with history := s.history ++ [h], nextId := s.nextId + 1 }

/-- The best-effort `WeatherHistory.create` inside its own `try`: the entry is written
when the store accepts it, and a failure is swallowed. -/
def saveHistory (s : Store) (now : Nat) (writeOk : Bool) (location : String)
    (data : CurrentData) : Store :=
  if writeOk then
    s.insertHistory { _id := s.nextId, location := location, date := now,
                      temperature := mathRound data.temp,
                      conditions := firstDescription data.weather,
                      precipitation := data.rain1h.getD 0 }
  else s

/-- Embedding of `GET /api/weather/coords`; `lat` and `lon` are the query parameters. -/
def weatherCoords (W : WeatherEnv) (up : Upstream) (s : Store) (now : Nat) (writeOk : Bool)
    (lat lon : Option String) : Store × Response :=
  if falsy lat || falsy lon then
    (s, ⟨400, errorBody "lat and lon query params are required"⟩)
  else if falsy W.WEATHER_API_KEY then
    (s, ⟨500, errorBody "WEATHER_API_KEY not configured"⟩)
  else
    let key := W.WEATHER_API_KEY.getD ""
    let params : Json := .obj [("lat", .str (lat.getD "")), ("lon", .str (lon.getD "")),
      ("appid", .str key), ("units", .str "metric")]
    match up.getWeather params with
    | none => (s, ⟨500, errorBody "Failed to fetch weather data"⟩)
    | some currentData =>
      match up.getForecast params with
      | none => (s, ⟨500, errorBody "Failed to fetch weather data"⟩)
      | some list =>
        let air := up.getAirPollution (.obj [("lat", .str (lat.getD "")),
          ("lon", .str (lon.getD "")), ("appid", .str key)])
        let current := buildCurrent currentData "Unknown" air
        let forecast := buildForecast W list
        let s' := saveHistory s now writeOk (currentLocation currentData "Unknown") currentData
        (s', ⟨200, .obj [("current", current), ("forecast", .arr forecast),
          ("coords", .obj [("lat", .str (lat.getD "")), ("lon", .str (lon.getD ""))])]⟩)

/-- Embedding of `GET /api/weather/location`; `location` is the query parameter. -/
def weatherLocation (W : WeatherEnv) (up : Upstream) (s : Store) (now : Nat) (writeOk : Bool)
    (location : Option String) : Store × Response :=
  if falsy location then (s, ⟨400, errorBody "location query param is required"⟩)
  else if falsy W.WEATHER_API_KEY then
    (s, ⟨500, errorBody "WEATHER_API_KEY not configured"⟩)
  else
    let key := W.WEATHER_API_KEY.getD ""
    match up.getWeather (.obj [("q", .str (location.getD "")), ("appid", .str key),
        ("units", .str "metric")]) with
    | none => (s, ⟨500, errorBody "Location not found"⟩)
    | some geo =>
      match up.getForecast (.obj [("lat", .dec geo.lat), ("lon", .dec geo.lon),
          ("appid", .str key), ("units", .str "metric")]) with
      | none => (s, ⟨500, errorBody "Location not found"⟩)
      | some list =>
        let air := up.getAirPollution (.obj [("lat", .dec geo.lat), ("lon", .dec geo.lon),
          ("appid", .str key)])
        let current := buildCurrent geo (location.getD "") air
        let forecast := buildForecast W list
        let s' := saveHistory s now writeOk (currentLocation geo (location.getD "")) geo
        (s', ⟨200, .obj [("current", current), ("forecast", .arr forecast),
          ("coords", .obj [("lat", .dec geo.lat), ("lon", .dec geo.lon)])]⟩)

/-! ## Weather history, route, suggestions, chat, places, health -/

/-- The JavaScript runtime functions the remaining handlers call. -/
structure JsRuntime where
  /-- `parseInt(s)`; `none` is NaN -/
  parseInt : String → Option Int
  /-- `parseFloat(s)`; `none` is NaN -/
  parseFloat : String → Option ℚ
  /-- `x.toFixed(2)` -/
  toFixed2 : ℚ → String
  /-- `new Date(s).getTime()`; `none` is an invalid date -/
  parseDate : String → Option Int
  /-- `s.toLowerCase()` -/
  toLowerCase : String → String
  /-- the instant of `d.setDate(d.getDate() - n)` for `d = new Date()` at clock `now`;
  `none` is an invalid date -/
  daysBefore : Nat → Int → Option Int
  /-- `new RegExp(source, flags)` as the test the store applies; `none` is a SyntaxError -/
  regExp : String → String → Option (String → Bool)
  /-- the text a template literal puts for a value; `none` is `undefined` -/
  interpolate : Option Json → String

/-- JavaScript `s.includes(sub)`. -/
def jsIncludes (s sub : String) : Bool :=
  s.data.tails.any (fun t => sub.data.isPrefixOf t)

/-- A history document as `res.json` sends it. -/
def WeatherHistory.toJson (h : WeatherHistory) : Json :=
  .obj [("_id", .oid h._id), ("location", .str h.location), ("date", .date h.date),
    ("temperature", .dec h.temperature), ("conditions", .str h.conditions),
    ("precipitation", .dec h.precipitation)]

/-- Embedding of `GET /api/weather/history`; `location` and `days` are the query
parameters. An invalid regular expression, and a bound that is not a date (which the
filter cannot cast), are thrown errors. -/
def weatherHistory (J : JsRuntime) (s : Store) (now : Nat) (location days : Option String) :
    Response :=
  let location := location.getD ""
  let n : Option Int := match days with
    | none => some 30
    | some d => J.parseInt d
  match n.bind (J.daysBefore now) with
  | none => ⟨500, errorBody "Failed to fetch history"⟩
  | some daysAgo =>
    match J.regExp location "i" with
    | none => ⟨500, errorBody "Failed to fetch history"⟩
    | some test =>
      let found := s.history.filter (fun h => test h.location && decide (daysAgo ≤ h.date))
      let history := (found.insertionSort (fun a b => b.date ≤ a.date)).take 100
      ⟨200, .obj [("history", .arr (history.map WeatherHistory.toJson))]⟩

/-- A number as `res.json` writes it; NaN is written `null`. -/
def numberJson : Option ℚ → Json
  | none => .null
  | some x => .dec x

/-- Embedding of `GET /api/route`; the arguments are the four query parameters. -/
def route (W : WeatherEnv) (J : JsRuntime) (up : Upstream)
    (source destination sourceLat sourceLon : Option String) : Response :=
  if falsy destination then ⟨400, errorBody "destination is required"⟩
  else if falsy W.WEATHER_API_KEY then ⟨500, errorBody "WEATHER_API_KEY not configured"⟩
  else if falsy W.ROUTE_API_KEY then ⟨500, errorBody "ROUTE_API_KEY not configured"⟩
  else
    let key := W.WEATHER_API_KEY.getD ""
    let sourceCoords : Except Response (Json × Json) :=
      if !falsy sourceLat && !falsy sourceLon then
        .ok (numberJson (J.parseFloat (sourceLat.getD "")),
          numberJson (J.parseFloat (sourceLon.getD "")))
      else if !falsy source then
        match up.getWeather (.obj [("q", .str (source.getD "")), ("appid", .str key)]) with
        | none => .error ⟨500, errorBody "Failed to calculate route"⟩
        | some sourceGeo => .ok (.dec sourceGeo.lat, .dec sourceGeo.lon)
      else
        .error ⟨400, errorBody "Either source or sourceLat & sourceLon must be provided"⟩
    match sourceCoords with
    | .error res => res
    | .ok (sourceLatitude, sourceLongitude) =>
      match up.getWeather (.obj [("q", .str (destination.getD "")), ("appid", .str key)]) with
      | none => ⟨500, errorBody "Failed to calculate route"⟩
      | some destGeo =>
        match up.postDirections (.obj [("coordinates",
            .arr [.arr [sourceLongitude, sourceLatitude],
              .arr [.dec destGeo.lon, .dec destGeo.lat]])]) with
        | none => ⟨500, errorBody "Failed to calculate route"⟩
        | some routes =>
          match routes.head? with
          | none => ⟨500, errorBody "Failed to calculate route"⟩
          | some route =>
            ⟨200, .obj [("coordinates", route.coordinates),
              ("distance", .str (J.toFixed2 (route.distance / 1000) ++ " km")),
              ("duration", .str (toString (mathRound (route.duration / 60)) ++ " minutes")),
              ("source", .obj [("lat", sourceLatitude), ("lon", sourceLongitude)]),
              ("destination", .obj [("lat", .dec destGeo.lat), ("lon", .dec destGeo.lon)])]⟩

/-- The `weather` member of the packing-list body. -/
structure PackingWeather where
  temp : Option ℚ
  description : Option String

/-- An entry of the generated packing list. -/
def packingEntry (category item : String) : Json :=
  .obj [("category", .str category), ("item", .str item), ("packed", .bool false)]

/-- The text of a count in a template literal; `none` is NaN. -/
def countText : Option Int → String
  | none => "NaN"
  | some n => toString n

/-- The `days` of the packing list: `Math.max(1, Math.ceil((end - start) / 86400000))`;
`none` is the NaN of an invalid date. -/
def tripDays (J : JsRuntime) (startDate endDate : String) : Option Int :=
  match J.parseDate endDate, J.parseDate startDate with
  | some e, some b => some (max 1 ⌈((e - b : Int) : ℚ) / 86400000⌉)
  | _, _ => none

/-- Embedding of `POST /api/ai/packing-list`; the arguments are the destructured body. -/
def packingList (J : JsRuntime) (destination startDate endDate : Option String)
    (weather : Option PackingWeather) : Response :=
  if falsy destination || falsy startDate || falsy endDate then
    ⟨400, errorBody "destination, startDate and endDate are required"⟩
  else
    let days := tripDays J (startDate.getD "") (endDate.getD "")
    let temp : ℚ := (weather.bind (fun w => w.temp)).getD 25
    let isRainy :=
      jsIncludes (J.toLowerCase ((weather.bind (fun w => w.description)).getD "")) "rain"
    let isCold := decide (temp < 15)
    let isHot := decide (temp > 30)
    let packingList : List Json :=
      [packingEntry "Clothing" (countText (days.map (· + 2)) ++ " Underwear"),
        packingEntry "Clothing" (countText days ++ " Pairs of socks"),
        packingEntry "Clothing"
          (if isCold then "Warm jacket" else if isHot then "Light jacket" else "Medium jacket"),
        packingEntry "Clothing"
          (countText (days.map (fun d => ⌈(d : ℚ) / 2⌉)) ++ " Pants/jeans"),
        packingEntry "Clothing" (countText days ++ " Shirts/tops")] ++
      (if isHot then [packingEntry "Clothing" "Shorts", packingEntry "Clothing" "Sunglasses"]
        else []) ++
      (if isCold then [packingEntry "Clothing" "Gloves", packingEntry "Clothing" "Scarf"]
        else []) ++
      (if isRainy then [packingEntry "Clothing" "Raincoat", packingEntry "Clothing" "Umbrella"]
        else []) ++
      [packingEntry "Toiletries" "Toothbrush & toothpaste",
        packingEntry "Toiletries" "Shampoo & conditioner",
        packingEntry "Toiletries" "Deodorant",
        packingEntry "Toiletries" "Sunscreen (SPF 50+)",
        packingEntry "Toiletries" "Medications",
        packingEntry "Electronics" "Phone charger",
        packingEntry "Electronics" "Power bank",
        packingEntry "Electronics" "Universal adapter",
        packingEntry "Electronics" "Camera",
        packingEntry "Documents" "Passport/ID",
        packingEntry "Documents" "Travel tickets",
        packingEntry "Documents" "Hotel confirmations",
        packingEntry "Documents" "Travel insurance",
        packingEntry "Essentials" "Wallet & cards",
        packingEntry "Essentials" "Cash (local currency)",
        packingEntry "Essentials" "Hand sanitizer",
        packingEntry "Essentials" "Face masks",
        packingEntry "Essentials" "Water bottle"]
    ⟨200, .obj [("packingList", .arr packingList),
      ("weatherInfo", .obj [("temp", .dec temp), ("isRainy", .bool isRainy),
        ("isCold", .bool isCold), ("isHot", .bool isHot)])]⟩

/-- An entry of the suggestion list. -/
def suggestion (title description time weatherSuitability : String) : Json :=
  .obj [("title", .str title), ("description", .str description), ("time", .str time),
    ("weatherSuitability", .str weatherSuitability)]

/-- Embedding of `generateFallbackSuggestions`; a missing argument takes its default. -/
def generateFallbackSuggestions (J : JsRuntime) (destination weather : Option String) :
    List Json :=
  let destination := destination.getD "your destination"
  let weather := weather.getD ""
  let isGoodWeather := !jsIncludes (J.toLowerCase weather) "rain"
  [suggestion (if isGoodWeather then "🏞️ Outdoor Exploration" else "🏛️ Indoor Attractions")
      (if isGoodWeather then
        "Perfect " ++ weather ++ " weather for exploring " ++ destination ++
          "'s natural beauty."
       else "Visit museums and indoor attractions in " ++ destination ++ ".")
      "Morning to Afternoon" "Ideal",
    suggestion "🍽️ Local Cuisine Tour"
      ("Discover authentic restaurants in " ++ destination ++ ".") "Lunch/Dinner" "Perfect",
    suggestion (if isGoodWeather then "📸 Photography Walk" else "☕ Cozy Café Hopping")
      (if isGoodWeather then "Capture stunning photos around " ++ destination ++ "."
       else "Explore local cafés in " ++ destination ++ ".")
      "Flexible" "Excellent",
    suggestion "🛍️ Shopping & Markets" ("Browse local markets in " ++ destination ++ ".")
      "Afternoon" "Good"]

/-- Embedding of `POST /api/ai/suggest`; the body members are strings when present. -/
def suggest (J : JsRuntime) (destination weather : Option String) : Response :=
  ⟨200, .obj [("suggestions", .arr (generateFallbackSuggestions J destination weather))]⟩

/-- The `weather` member of the chat context: the two values the reply interpolates. -/
structure ChatWeather where
  temp : Option Json
  location : Option Json

/-- The optional authentication of the chat route: the user id of a token that
verifies, `null` for a guest, a missing token or a token that does not verify. -/
def chatUserId (E : Env) (now : Nat) (authorization : Option String) : Option ObjectId :=
  let token := extractToken authorization
  if !falsy token && token != some "guest" then
    (jwtVerify E (token.getD "") E.JWT_SECRET now).map (fun decoded => decoded.userId)
  else none

/-- The reply of the chat route for a lower-cased message. -/
def chatReply (J : JsRuntime) (lowerMessage : String) (weather : Option ChatWeather) : String :=
  if jsIncludes lowerMessage "weather" || jsIncludes lowerMessage "temperature" then
    "I can help you check the weather! Go to the Weather tab and enter your destination. " ++
      (match weather with
       | some w => "Currently it's " ++ J.interpolate w.temp ++ "°C in " ++
          J.interpolate w.location ++ "."
       | none => "")
  else if jsIncludes lowerMessage "pack" || jsIncludes lowerMessage "bring" then
    "I can generate a packing list for you! Use the Trip Planner tab and I'll suggest " ++
      "items based on your destination's weather."
  else if jsIncludes lowerMessage "route" || jsIncludes lowerMessage "how to get" then
    "I can help you plan your route! Go to the Maps tab and enter your source and destination."
  else if jsIncludes lowerMessage "activity" || jsIncludes lowerMessage "things to do" ||
      jsIncludes lowerMessage "do" then
    "Looking for things to do? Use the Trip Planner's AI suggest feature to get " ++
      "weather-based activity recommendations!"
  else if jsIncludes lowerMessage "hotel" || jsIncludes lowerMessage "accommodation" then
    "I can help you find accommodations! Check the Itinerary tab where you can search " ++
      "for hotels near your destination."
  else if jsIncludes lowerMessage "hi" || jsIncludes lowerMessage "hello" ||
      jsIncludes lowerMessage "hey" then
    "Hey there! I'm your travel assistant. I can help with weather, routes, packing " ++
      "lists and suggestions. What would you like to do?"
  else
    "I'm your travel assistant! I can help you with:\n- Weather forecasts\n" ++
      "- Route planning\n- Packing lists\n- Activity suggestions\n" ++
      "- Accommodation finding\n\nWhat would you like to know?"

/-- Embedding of `POST /api/ai/chat`; `message` and `weather` (`context?.weather`) come
from the body. -/
def chat (E : Env) (J : JsRuntime) (now : Nat) (authorization : Option String)
    (message : Option String) (weather : Option ChatWeather) : Response :=
  let userId := chatUserId E now authorization
  if falsy message then ⟨400, errorBody "message is required"⟩
  else
    let lowerMessage := J.toLowerCase (message.getD "")
    ⟨200, .obj [("response", .str (chatReply J lowerMessage weather)),
      ("userId", match userId with | none => .null | some id => .oid id)]⟩

/-- An entry of the accommodation list. -/
def accommodationEntry (name address : String) (rating : ℚ) (price : String)
    (amenities : List String) (image : String) : Json :=
  .obj [("name", .str name), ("address", .str address), ("rating", .dec rating),
    ("price", .str price), ("amenities", .arr (amenities.map Json.str)), ("image", .str image)]

/-- Embedding of `GET /api/places/accommodation`; `location` is the query parameter. -/
def placesAccommodation (location : Option String) : Response :=
  let location := location.getD "Unknown"
  ⟨200, .obj [("accommodations", .arr [
    accommodationEntry ("Grand Hotel " ++ location) ("123 Main St, " ++ location) 4.5
      "$120/night" ["WiFi", "Pool", "Breakfast"]
      "https://images.unsplash.com/photo-1566073771259-6a8506099945?w=400",
    accommodationEntry ("Budget Inn " ++ location) ("456 Side St, " ++ location) 3.8
      "$65/night" ["WiFi", "Parking"]
      "https://images.unsplash.com/photo-1551882547-ff40c63fe5fa?w=400",
    accommodationEntry ("Luxury Resort " ++ location) ("789 Beach Rd, " ++ location) 4.9
      "$280/night" ["WiFi", "Pool", "Spa", "Restaurant", "Gym"]
      "https://images.unsplash.com/photo-1582719478250-c89cae4dc85b?w=400"])]⟩

/-- An entry of the restaurant list. -/
def restaurantEntry (name cuisine : String) (rating : ℚ) (priceRange address image : String) :
    Json :=
  .obj [("name", .str name), ("cuisine", .str cuisine), ("rating", .dec rating),
    ("priceRange", .str priceRange), ("address", .str address), ("image", .str image)]

/-- Embedding of `GET /api/places/restaurants`; `location` is the query parameter. -/
def placesRestaurants (location : Option String) : Response :=
  let location := location.getD "Unknown"
  ⟨200, .obj [("restaurants", .arr [
    restaurantEntry "Local Flavors" "Traditional" 4.6 "$$" ("101 Food St, " ++ location)
      "https://images.unsplash.com/photo-1517248135467-4c7edcad34c4?w=400",
    restaurantEntry "Seafood Paradise" "Seafood" 4.8 "$$$" ("202 Harbor View, " ++ location)
      "https://images.unsplash.com/photo-1559339352-11d035aa65de?w=400",
    restaurantEntry "Street Food Corner" "Street Food" 4.3 "$"
      ("303 Market Square, " ++ location)
      "https://images.unsplash.com/photo-1555939594-58d7cb561ad1?w=400"])]⟩

/-- An entry of the event list. -/
def eventEntry (name date time location category price image : String) : Json :=
  .obj [("name", .str name), ("date", .str date), ("time", .str time),
    ("location", .str location), ("category", .str category), ("price", .str price),
    ("image", .str image)]

/-- Embedding of `GET /api/places/events`; `location` is the query parameter. -/
def placesEvents (location : Option String) : Response :=
  let location := location.getD "Unknown"
  ⟨200, .obj [("events", .arr [
    eventEntry (location ++ " Music Festival") "2025-02-15" "18:00"
      ("Central Park, " ++ location) "Music" "$35"
      "https://images.unsplash.com/photo-1470229722913-7c0e2dbbafd3?w=400",
    eventEntry "Food & Wine Expo" "2025-02-20" "12:00" ("Convention Center, " ++ location)
      "Food" "Free" "https://images.unsplash.com/photo-1555244162-803834f70033?w=400",
    eventEntry "Art Gallery Opening" "2025-02-18" "19:00" ("Downtown Gallery, " ++ location)
      "Art" "$15" "https://images.unsplash.com/photo-1460661419201-fd4cecdf8a8b?w=400"])]⟩

/-- Embedding of `GET /api/health`; `readyState` is `mongoose.connection.readyState`. -/
def health (readyState : Nat) : Response :=
  ⟨200, .obj [("status", .str "OK"), ("message", .str "SkyCast Mega API is running"),
    ("mongodb", .str (if readyState = 1 then "Connected" else "Disconnected"))]⟩

/-! ## The server as a whole -/

/-- A request to one of the routes of the server, with the inputs its handler reads: the
clock, the Authorization header, query parameters and body members, and for the weather
lookups whether the store accepts the history write. -/
inductive Request where
  | signup (now salt : Nat) (name email password : Option String) : Request
  | login (now : Nat) (email password : Option String) : Request
  | me (now : Nat) (authorization : Option String) : Request
  | weatherCoords (now : Nat) (writeOk : Bool) (lat lon : Option String) : Request
  | weatherLocation (now : Nat) (writeOk : Bool) (location : Option String) : Request
  | weatherHistory (now : Nat) (location days : Option String) : Request
  | route (source destination sourceLat sourceLon : Option String) : Request
  | packingList (destination startDate endDate : Option String)
      (weather : Option PackingWeather) : Request
  | suggest (destination weather : Option String) : Request
  | chat (now : Nat) (authorization : Option String) (message : Option String)
      (weather : Option ChatWeather) : Request
  | createTrip (now : Nat) (authorization : Option String) (body : TripPatch) : Request
  | listTrips (now : Nat) (authorization : Option String) : Request
  | getTrip (now : Nat) (authorization : Option String) (id : String) : Request
  | updateTrip (now : Nat) (authorization : Option String) (id : String) (body : TripPatch) :
      Request
  | deleteTrip (now : Nat) (authorization : Option String) (id : String) : Request
  | placesAccommodation (location : Option String) : Request
  | placesRestaurants (location : Option String) : Request
  | placesEvents (location : Option String) : Request
  | health (readyState : Nat) : Request

/-- The runtime of the server: configuration, libraries and the third-party services. -/
structure Server where
  env : Env
  weatherEnv : WeatherEnv
  js : JsRuntime
  upstream : Upstream

/-- The server on one request: the route's middleware and handler, on the current store. -/
def handle (S : Server) (s : Store) : Request → Store × Response
  | .signup now salt name email password => signup S.env s now salt name email password
  | .login now email password => (s, login S.env s now email password)
  | .me now authorization => (s, me S.env s now authorization)
  | .weatherCoords now writeOk lat lon =>
    weatherCoords S.weatherEnv S.upstream s now writeOk lat lon
  | .weatherLocation now writeOk location =>
    weatherLocation S.weatherEnv S.upstream s now writeOk location
  | .weatherHistory now location days => (s, weatherHistory S.js s now location days)
  | .route source destination sourceLat sourceLon =>
    (s, route S.weatherEnv S.js S.upstream source destination sourceLat sourceLon)
  | .packingList destination startDate endDate weather =>
    (s, packingList S.js destination startDate endDate weather)
  | .suggest destination weather => (s, suggest S.js destination weather)
  | .chat now authorization message weather =>
    (s, chat S.env S.js now authorization message weather)
  | .createTrip now authorization body =>
    withAuth S.env now authorization (fun res => (s, res))
      (fun userId => createTrip s now userId body)
  | .listTrips now authorization =>
    withAuth S.env now authorization (fun res => (s, res)) (fun userId => (s, listTrips s userId))
  | .getTrip now authorization id =>
    withAuth S.env now authorization (fun res => (s, res))
      (fun userId => (s, getTrip S.env s userId id))
  | .updateTrip now authorization id body =>
    withAuth S.env now authorization (fun res => (s, res))
      (fun userId => updateTrip S.env s userId id body)
  | .deleteTrip now authorization id =>
    withAuth S.env now authorization (fun res => (s, res))
      (fun userId => deleteTrip S.env s userId id)
  | .placesAccommodation location => (s, placesAccommodation location)
  | .placesRestaurants location => (s, placesRestaurants location)
  | .placesEvents location => (s, placesEvents location)
  | .health readyState => (s, health readyState)

/-- The store after a sequence of requests, served one after the other. -/
def run (S : Server) (s : Store) (requests : List Request) : Store :=
  requests.foldl (fun st r => (handle S st r).1) s

/-- The messages of the failure responses of the server, as the source writes them. -/
def errorMessages : List String :=
  ["No token provided", "Invalid token", "All fields required", "Email already registered",
    "Signup failed", "Email and password required", "Invalid credentials", "Login failed",
    "User not found", "Failed to get user", "lat and lon query params are required",
    "WEATHER_API_KEY not configured", "Failed to fetch weather data",
    "location query param is required", "Location not found", "Failed to fetch history",
    "destination is required", "ROUTE_API_KEY not configured",
    "Either source or sourceLat & sourceLon must be provided", "Failed to calculate route",
    "destination, startDate and endDate are required", "Failed to generate packing list",
    "Failed to generate suggestions", "message is required", "Chat failed",
    "Failed to create trip", "Failed to fetch trips", "Trip not found", "Failed to fetch trip",
    "Failed to update trip", "Failed to delete trip", "Failed to fetch accommodations",
    "Failed to fetch restaurants", "Failed to fetch events"]

/-- A failure response in the shape of the wire contract: a status among 400, 401, 404
and 500, and a body that is the object with the single member `error` holding one of the
fixed messages. -/
def Response.isErrorShaped (r : Response) : Prop :=
  r.status ∈ [400, 401, 404, 500] ∧ ∃ msg ∈ errorMessages, r.body = errorBody msg

/-! ## Frontend: the packing checklist -/

/-- An entry of the `packingList` state of the frontend, as the packing-list route
generates it: `category`, `item` and the `packed` flag. -/
structure ChecklistItem where
  category : String
  item : String
  packed : Bool

/-- Embedding of `togglePackingItem` of `App.jsx`: the next `packingList` state. The copy
`[...packingList]` has the same entries, the entry at `index` gets its `packed` flag
negated; `none` is the TypeError of an index without an entry. -/
def togglePackingItem (packingList : List ChecklistItem) (index : Nat) :
    Option (List ChecklistItem) :=
  match packingList[index]? with
  | none => none
  | some entry => some (packingList.set index { entry with packed := !entry.packed })

/-! ## The replies of the chat route, by name -/

/-- The reply to a message about weather or temperature; the second sentence is there
when the context carries a weather. -/
def weatherReply (J : JsRuntime) (weather : Option ChatWeather) : String :=
  "I can help you check the weather! Go to the Weather tab and enter your destination. " ++
    (match weather with
     | some w => "Currently it's " ++ J.interpolate w.temp ++ "°C in " ++
        J.interpolate w.location ++ "."
     | none => "")

/-- The reply to a message about packing. -/
def packReply : String :=
  "I can generate a packing list for you! Use the Trip Planner tab and I'll suggest " ++
    "items based on your destination's weather."

/-- The reply to a message about routes. -/
def routeReply : String :=
  "I can help you plan your route! Go to the Maps tab and enter your source and destination."

/-- The reply to a message about activities. -/
def activityReply : String :=
  "Looking for things to do? Use the Trip Planner's AI suggest feature to get " ++
    "weather-based activity recommendations!"

/-- The reply to a message about hotels or accommodation. -/
def accommodationReply : String :=
  "I can help you find accommodations! Check the Itinerary tab where you can search " ++
    "for hotels near your destination."

/-- The reply to a greeting. -/
def greetingReply : String :=
  "Hey there! I'm your travel assistant. I can help with weather, routes, packing " ++
    "lists and suggestions. What would you like to do?"

/-- The help text, the reply to everything else. -/
def helpReply : String :=
  "I'm your travel assistant! I can help you with:\n- Weather forecasts\n" ++
    "- Route planning\n- Packing lists\n- Activity suggestions\n" ++
    "- Accommodation finding\n\nWhat would you like to know?"

/-! ## The packing list of the route, by name -/

/-- The `temp` of the packing-list route: `weather?.temp ?? 25`. -/
def packingTemp (weather : Option PackingWeather) : ℚ :=
  (weather.bind (fun w => w.temp)).getD 25

/-- The `isRainy` of the packing-list route: the lower-cased description contains `rain`. -/
def packingIsRainy (J : JsRuntime) (weather : Option PackingWeather) : Bool :=
  jsIncludes (J.toLowerCase ((weather.bind (fun w => w.description)).getD "")) "rain"

/-- The list the packing-list route builds from `days` and the three weather flags. -/
def packingItems (days : Option Int) (isHot isCold isRainy : Bool) : List Json :=
  [packingEntry "Clothing" (countText (days.map (· + 2)) ++ " Underwear"),
    packingEntry "Clothing" (countText days ++ " Pairs of socks"),
    packingEntry "Clothing"
      (if isCold then "Warm jacket" else if isHot then "Light jacket" else "Medium jacket"),
    packingEntry "Clothing"
      (countText (days.map (fun d => ⌈(d : ℚ) / 2⌉)) ++ " Pants/jeans"),
    packingEntry "Clothing" (countText days ++ " Shirts/tops")] ++
  (if isHot then [packingEntry "Clothing" "Shorts", packingEntry "Clothing" "Sunglasses"]
    else []) ++
  (if isCold then [packingEntry "Clothing" "Gloves", packingEntry "Clothing" "Scarf"]
    else []) ++
  (if isRainy then [packingEntry "Clothing" "Raincoat", packingEntry "Clothing" "Umbrella"]
    else []) ++
  [packingEntry "Toiletries" "Toothbrush & toothpaste",
    packingEntry "Toiletries" "Shampoo & conditioner",
    packingEntry "Toiletries" "Deodorant",
    packingEntry "Toiletries" "Sunscreen (SPF 50+)",
    packingEntry "Toiletries" "Medications",
    packingEntry "Electronics" "Phone charger",
    packingEntry "Electronics" "Power bank",
    packingEntry "Electronics" "Universal adapter",
    packingEntry "Electronics" "Camera",
    packingEntry "Documents" "Passport/ID",
    packingEntry "Documents" "Travel tickets",
    packingEntry "Documents" "Hotel confirmations",
    packingEntry "Documents" "Travel insurance",
    packingEntry "Essentials" "Wallet & cards",
    packingEntry "Essentials" "Cash (local currency)",
    packingEntry "Essentials" "Hand sanitizer",
    packingEntry "Essentials" "Face masks",
    packingEntry "Essentials" "Water bottle"]

/-! ## The day groups of the forecast, as the specification describes them -/

/-- The calendar date of a forecast sample: the key under which the handler files it. -/
def sampleKey (W : WeatherEnv) (item : ForecastItem) : String :=
  W.toDateString (item.dt * 1000)

/-- The distinct entries of a list in the order of their first appearance. -/
def firstAppearances : List String → List String
  | [] => []
  | k :: ks => k :: (firstAppearances ks).filter (fun x => x != k)

/-- The samples of one calendar date, in the order of the list. -/
def daySamples (W : WeatherEnv) (list : List ForecastItem) (k : String) : List ForecastItem :=
  list.filter (fun item => sampleKey W item == k)

/-- The group of one calendar date as the specification describes it: the temperatures
and humidities of the samples of that date, and the description and icon of its first
sample. -/
def dayGroup (W : WeatherEnv) (list : List ForecastItem) (k : String) : DayData :=
  { temps := (daySamples W list k).map (fun item => item.temp),
    humidity := (daySamples W list k).map (fun item => item.humidity),
    description := firstDescription (((daySamples W list k).head?.map (fun i => i.weather)).getD []),
    icon := firstIcon (((daySamples W list k).head?.map (fun i => i.weather)).getD []) }

/-! ## Store invariant -/

/-- The primary-key guarantee of the store: no two trips share an `_id`. -/
def Store.tripIdsUnique (s : Store) : Prop :=
  (s.trips.map (fun t => t._id)).Nodup

/-- A response that issues session token `tok` for user `uid`: status 200 with `token`
and `user.id` in the body. -/
def Response.issues (r : Response) (tok : String) (uid : ObjectId) : Prop :=
  r.status = 200 ∧ r.body.get? "token" = some (.str tok) ∧
    (r.body.get? "user").bind (fun v => v.get? "id") = some (.oid uid)

/-- The user document signup builds from the request. -/
def signupUser (E : Env) (s : Store) (now salt : Nat) (name email password : Option String) :
    User :=
  { _id := s.nextId, name := name.getD "", email := email.getD "",
    password := E.bcryptHash (password.getD "") 10 salt, createdAt := now }

/-! ## A concrete environment

A small instance of `Env` on which the handlers can be evaluated: tokens are the three claims
in decimal followed by the secret, hashes carry the password after a `$2a$` header. -/

/-- A concrete environment for evaluating the handlers. -/
def demoEnv : Env where
  JWT_SECRET := "your-secret-key-change-in-production"
  bcryptHash := fun password rounds salt =>
    "$2a$" ++ toString rounds ++ "$" ++ toString salt ++ "$" ++ password
  bcryptCompare := fun password hash =>
    match jsSplit '$' hash with
    | [_, _, _, _, p] => p == password
    | _ => false
  jwtEncode := fun secret c =>
    toString c.userId ++ "." ++ toString c.iat ++ "." ++ toString c.exp ++ "." ++ secret
  jwtDecode := fun secret token =>
    match jsSplit '.' token with
    | [u, i, e, sig] =>
      if sig == secret then
        (parseDigits u.data).bind (fun uid => (parseDigits i.data).bind (fun iat =>
          (parseDigits e.data).map (fun exp => { userId := uid, iat := iat, exp := exp })))
      else none
    | _ => none
  castObjectId := fun id => parseDigits id.data

/-- A trip to Paris owned by user 1. -/
def parisTrip : Trip :=
  { _id := 42, userId := 1, destination := "Paris", startDate := 1748736000000,
    endDate := 1749081600000, itinerary := [], packingList := [], accommodation := none,
    restaurants := [], events := [], createdAt := 1700000000000 }

/-- A registered user whose stored credential is the hash of `pw123456`. -/
def ann : User :=
  { _id := 1, name := "Ann", email := "ann@x.com",
    password := demoEnv.bcryptHash "pw123456" 10 7, createdAt := 1700000000000 }

/-- A store with one user and one trip. -/
def demoStore : Store :=
  { users := [ann], trips := [parisTrip], nextId := 43 }

/-- The empty store. -/
def emptyStore : Store :=
  { users := [], trips := [], nextId := 0 }

/-- A patch that names no field. -/
def emptyPatch : TripPatch :=
  { userId := none, destination := none, startDate := none, endDate := none,
    itinerary := none, packingList := none, accommodation := none, restaurants := none,
    events := none, createdAt := none }

/-- The body of the scenario: a trip to Paris from 2025-06-01 to 2025-06-05. -/
def parisBody : TripPatch :=
  { userId := none, destination := some "Paris", startDate := some 1748736000000,
    endDate := some 1749081600000, itinerary := none, packingList := none,
    accommodation := none, restaurants := none, events := none, createdAt := none }

/-- A patch that names only `userId`, with the id of user 2. -/
def transferPatch : TripPatch :=
  { userId := some 2, destination := none, startDate := none, endDate := none,
    itinerary := none, packingList := none, accommodation := none, restaurants := none,
    events := none, createdAt := none }

/-- The Paris body without a destination. -/
def noDestinationBody : TripPatch :=
  { userId := none, destination := none, startDate := some 1748736000000,
    endDate := some 1749081600000, itinerary := none, packingList := none,
    accommodation := none, restaurants := none, events := none, createdAt := none }

/-- A patch that names the destination, the end date and the id of user 1. -/
def romePatch : TripPatch :=
  { userId := some 1, destination := some "Rome", startDate := none,
    endDate := some 1749168000000, itinerary := none, packingList := none,
    accommodation := none, restaurants := none, events := none, createdAt := none }

/-- The Paris body with a `userId` member that names user 2. -/
def otherOwnerBody : TripPatch :=
  { userId := some 2, destination := some "Paris", startDate := some 1748736000000,
    endDate := some 1749081600000, itinerary := none, packingList := none,
    accommodation := none, restaurants := none, events := none, createdAt := none }

/-- A provider answer for the current weather in Paris. -/
def parisWeather : CurrentData :=
  { temp := 21.6, feels_like := 20.4, humidity := 60, pressure := 1012,
    windSpeed := some 3.5, weather := [{ description := some "light rain", icon := some "10d" }],
    name := some "Paris", country := some "FR", rain1h := some 0.3, lat := 48.85, lon := 2.35 }

/-- Two forecast samples of one day. -/
def parisForecast : List ForecastItem :=
  [{ dt := 1748772000, temp := 19.2, humidity := 70,
     weather := [{ description := some "clear sky", icon := some "01d" }] },
   { dt := 1748782800, temp := 23.9, humidity := 55,
     weather := [{ description := some "few clouds", icon := some "02d" }] }]

/-- A weather configuration with both keys set; days are numbered from the epoch. -/
def demoWeatherEnv : WeatherEnv :=
  { WEATHER_API_KEY := some "weather-key", ROUTE_API_KEY := some "route-key",
    toDateString := fun ms => "day " ++ toString (ms / 86400000),
    toLocaleDateString := fun dateKey => dateKey }

/-- Third-party services that answer every call with the Paris data. -/
def demoUpstream : Upstream :=
  { getWeather := fun _ => some parisWeather,
    getForecast := fun _ => some parisForecast,
    getAirPollution := fun _ => none,
    postDirections := fun _ => some [] }

/-- A small runtime: decimal integers, ASCII lower case, days of 86400000 ms, and regular
expressions that test for a substring, ignoring case under the flag `i` only. -/
def demoJs : JsRuntime :=
  { parseInt := fun x => (parseDigits x.data).map Int.ofNat,
    parseFloat := fun x => (parseDigits x.data).map (fun n => (n : ℚ)),
    toFixed2 := fun x => toString (mathRound x),
    parseDate := fun x => (parseDigits x.data).map Int.ofNat,
    toLowerCase := fun x => String.mk (x.data.map Char.toLower),
    daysBefore := fun now n => some ((now : Int) - n * 86400000),
    regExp := fun source flags =>
      if flags = "i" then
        some (fun text => jsIncludes (String.mk (text.data.map Char.toLower))
          (String.mk (source.data.map Char.toLower)))
      else some (fun text => jsIncludes text source),
    interpolate := fun v =>
      match v with
      | some (.str x) => x
      | some (.num n) => toString n
      | _ => "undefined" }

/-- The server on the concrete environment. -/
def demoServer : Server :=
  { env := demoEnv, weatherEnv := demoWeatherEnv, js := demoJs, upstream := demoUpstream }

/-- A checklist of three entries, the second one packed. -/
def demoChecklist : List ChecklistItem :=
  [{ category := "Clothing", item := "3 Underwear", packed := false },
   { category := "Clothing", item := "Medium jacket", packed := true },
   { category := "Documents", item := "Passport/ID", packed := false }]

/-- An observation for Paris dated 1000000000. -/
def parisOld : WeatherHistory :=
  { _id := 50, location := "Paris, FR", date := 1000000000, temperature := 21,
    conditions := "light rain", precipitation := 0.3 }

/-- An observation for Rome dated 2000000000. -/
def romeEntry : WeatherHistory :=
  { _id := 51, location := "Rome, IT", date := 2000000000, temperature := 28,
    conditions := "clear sky", precipitation := 0 }

/-- An observation for Paris dated 3000000000. -/
def parisNew : WeatherHistory :=
  { _id := 52, location := "Paris, FR", date := 3000000000, temperature := 19,
    conditions := "few clouds", precipitation := 0 }

/-- Two observations for Paris and one for Rome, in the order they were stored. -/
def demoHistory : List WeatherHistory :=
  [parisOld, romeEntry, parisNew]

/-- A store that holds the three observations. -/
def historyStore : Store :=
  { users := [ann], trips := [parisTrip], nextId := 53, history := demoHistory }

/-- A hot and rainy weather for the packing list. -/
def hotRain : PackingWeather :=
  { temp := some 32, description := some "Light Rain" }

/-- Samples of three days: two of day 20240, one of day 20241, one more of day 20240 and
one of day 20242. -/
def threeDays : List ForecastItem :=
  [{ dt := 1748772000, temp := 19.2, humidity := 70,
     weather := [{ description := some "clear sky", icon := some "01d" }] },
   { dt := 1748782800, temp := 23.9, humidity := 55,
     weather := [{ description := some "few clouds", icon := some "02d" }] },
   { dt := 1748858400, temp := 17.5, humidity := 80,
     weather := [{ description := some "light rain", icon := some "10d" }] },
   { dt := 1748790000, temp := 21, humidity := 60, weather := [] },
   { dt := 1748944800, temp := 25.1, humidity := 40,
     weather := [{ description := some "clear sky", icon := some "01n" }] }]

/-! ## Lemmas on the store queries -/

theorem spanSeconds_30d : spanSeconds "30d" = some 2592000 := by decide

theorem jwtSign_30d (E : Env) (uid : ObjectId) (now : Nat) :
    jwtSign E uid E.JWT_SECRET "30d" now =
      some (E.jwtEncode E.JWT_SECRET
        { userId := uid, iat := now / 1000, exp := now / 1000 + 2592000 }) := by
  simp [jwtSign, spanSeconds_30d]

theorem Trip.findOne_other_owner (s : Store) (t : Trip) (B : ObjectId)
    (huniq : s.tripIdsUnique) (ht : t ∈ s.trips) (hB : B ≠ t.userId) :
    Trip.findOne s t._id B = none := by
  unfold Trip.findOne
  rw [List.find?_eq_none]
  intro x hx hmatch
  simp only [Bool.and_eq_true, beq_iff_eq] at hmatch
  have hxt : x = t := List.inj_on_of_nodup_map huniq hx ht hmatch.1
  exact hB (by rw [← hmatch.2, hxt])

/-! ## Trip isolation -/

/-- C1: for every trip `t` of the store (trip ids being unique) and every identity `B`
other than the trip's owner, Get, Update and Delete on the trip's id under `B` answer
404 `Trip not found` and leave the store as it was, so the trip is still in it. -/
theorem cross_user_isolation (E : Env) (s : Store) (t : Trip) (B : ObjectId) (id : String)
    (body : TripPatch) (huniq : s.tripIdsUnique) (ht : t ∈ s.trips) (hB : B ≠ t.userId)
    (hid : E.castObjectId id = some t._id) :
    getTrip E s B id = ⟨404, errorBody "Trip not found"⟩ ∧
    updateTrip E s B id body = (s, ⟨404, errorBody "Trip not found"⟩) ∧
    deleteTrip E s B id = (s, ⟨404, errorBody "Trip not found"⟩) ∧
    t ∈ (updateTrip E s B id body).1.trips ∧ t ∈ (deleteTrip E s B id).1.trips := by
  have hnone := Trip.findOne_other_owner s t B huniq ht hB
  have hget : getTrip E s B id = ⟨404, errorBody "Trip not found"⟩ := by
    simp [getTrip, hid, hnone]
  have hupd : updateTrip E s B id body = (s, ⟨404, errorBody "Trip not found"⟩) := by
    simp [updateTrip, hid, hnone]
  have hdel : deleteTrip E s B id = (s, ⟨404, errorBody "Trip not found"⟩) := by
    simp [deleteTrip, hid, hnone]
  refine ⟨hget, hupd, hdel, ?_, ?_⟩
  · rw [hupd]; exact ht
  · rw [hdel]; exact ht

/-- C1 at a concrete store: user 2 cannot read, change or delete the Paris trip of user 1. -/
theorem cross_user_isolation_witness :
    getTrip demoEnv demoStore 2 "42" = ⟨404, errorBody "Trip not found"⟩ ∧
    updateTrip demoEnv demoStore 2 "42" emptyPatch =
      (demoStore, ⟨404, errorBody "Trip not found"⟩) ∧
    deleteTrip demoEnv demoStore 2 "42" = (demoStore, ⟨404, errorBody "Trip not found"⟩) ∧
    parisTrip ∈ (updateTrip demoEnv demoStore 2 "42" emptyPatch).1.trips ∧
    parisTrip ∈ (deleteTrip demoEnv demoStore 2 "42").1.trips :=
  cross_user_isolation demoEnv demoStore parisTrip 2 "42" emptyPatch
    (by simp [Store.tripIdsUnique, demoStore]) (by simp [demoStore])
    (by decide) (by decide)

/-! ## Register and Authenticate -/

theorem falsy_some (x : String) : falsy (some x) = (x == "") := rfl

theorem User.findOne_fresh (s : Store) (email : String)
    (hfresh : ∀ u ∈ s.users, u.email ≠ email) : User.findOne s email = none := by
  unfold User.findOne
  rw [List.find?_eq_none]
  intro u hu
  simpa using hfresh u hu

theorem User.findOne_registered (s : Store) (email : String)
    (hreg : ∃ u ∈ s.users, u.email = email) : ∃ v, User.findOne s email = some v := by
  obtain ⟨u, hu, hue⟩ := hreg
  cases h : User.findOne s email with
  | some v => exact ⟨v, rfl⟩
  | none =>
    unfold User.findOne at h
    rw [List.find?_eq_none] at h
    have := h u hu
    simp [hue] at this

/-- C2: with name, email and password all non-empty and the email not in the store, signup
answers 200 with a token and the view of the new user, and login on the resulting store with
the same email and password answers 200 with a token and the same user id, given that
bcrypt accepts the password against its own hash (a hash that is never the empty string). -/
theorem signup_then_login (E : Env) (s : Store) (now later salt : Nat)
    (name email password : String)
    (hn : name ≠ "") (he : email ≠ "") (hp : password ≠ "")
    (hfresh : ∀ u ∈ s.users, u.email ≠ email)
    (hcmp : E.bcryptCompare password (E.bcryptHash password 10 salt) = true)
    (hhash : E.bcryptHash password 10 salt ≠ "") :
    (signup E s now salt (some name) (some email) (some password)).2 =
      ⟨200, .obj [("token", .str (E.jwtEncode E.JWT_SECRET
          { userId := s.nextId, iat := now / 1000, exp := now / 1000 + 2592000 })),
        ("user", .obj [("id", .oid s.nextId), ("name", .str name), ("email", .str email)])]⟩ ∧
    login E (signup E s now salt (some name) (some email) (some password)).1 later
        (some email) (some password) =
      ⟨200, .obj [("token", .str (E.jwtEncode E.JWT_SECRET
          { userId := s.nextId, iat := later / 1000, exp := later / 1000 + 2592000 })),
        ("user", .obj [("id", .oid s.nextId), ("name", .str name), ("email", .str email)])]⟩ := by
  have hfind := User.findOne_fresh s email hfresh
  have hany : (s.users.any fun v => v.email == email) = false := by
    rw [Bool.eq_false_iff]
    intro h
    obtain ⟨u, hu, hue⟩ := List.any_eq_true.mp h
    exact hfresh u hu (by simpa using hue)
  have hsignup : signup E s now salt (some name) (some email) (some password) =
      (s.insertUser { _id := s.nextId, name := name, email := email,
                      password := E.bcryptHash password 10 salt, createdAt := now },
        ⟨200, .obj [("token", .str (E.jwtEncode E.JWT_SECRET
            { userId := s.nextId, iat := now / 1000, exp := now / 1000 + 2592000 })),
          ("user", .obj [("id", .oid s.nextId), ("name", .str name),
            ("email", .str email)])]⟩) := by
    simp [signup, falsy_some, hn, he, hp, hfind, User.save, hany, hhash, jwtSign_30d, userView]
  rw [hsignup]
  refine ⟨rfl, ?_⟩
  have hfind2 : User.findOne
      (s.insertUser { _id := s.nextId, name := name, email := email,
                      password := E.bcryptHash password 10 salt, createdAt := now }) email =
      some { _id := s.nextId, name := name, email := email,
             password := E.bcryptHash password 10 salt, createdAt := now } := by
    unfold User.findOne at hfind ⊢
    simp [Store.insertUser, List.find?_append, hfind]
  simp [login, falsy_some, he, hp, hfind2, hcmp, jwtSign_30d, userView]

/-- C2 at a concrete input: Ann signs up on the empty store and logs in afterwards. -/
theorem signup_then_login_witness :
    (signup demoEnv emptyStore 5000 7 (some "Ann") (some "ann@x.com") (some "pw123456")).2 =
      ⟨200, .obj [("token", .str (demoEnv.jwtEncode demoEnv.JWT_SECRET
          { userId := emptyStore.nextId, iat := 5000 / 1000, exp := 5000 / 1000 + 2592000 })),
        ("user", .obj [("id", .oid emptyStore.nextId), ("name", .str "Ann"),
          ("email", .str "ann@x.com")])]⟩ ∧
    login demoEnv
        (signup demoEnv emptyStore 5000 7 (some "Ann") (some "ann@x.com") (some "pw123456")).1
        9000 (some "ann@x.com") (some "pw123456") =
      ⟨200, .obj [("token", .str (demoEnv.jwtEncode demoEnv.JWT_SECRET
          { userId := emptyStore.nextId, iat := 9000 / 1000, exp := 9000 / 1000 + 2592000 })),
        ("user", .obj [("id", .oid emptyStore.nextId), ("name", .str "Ann"),
          ("email", .str "ann@x.com")])]⟩ :=
  signup_then_login demoEnv emptyStore 5000 9000 7 "Ann" "ann@x.com" "pw123456"
    (by decide) (by decide) (by decide) (by simp [emptyStore]) (by decide) (by decide)

/-- On string passwords the two failure branches of `login` answer alike: an unknown email
and a registered email whose stored credential the password does not match give the same
response. A password that is not a string is the subject of `loginJson`. -/
theorem login_failures_indistinguishable (E : Env) (s₁ s₂ : Store) (now₁ now₂ : Nat)
    (email password : String) (u : User)
    (hunknown : ∀ v ∈ s₁.users, v.email ≠ email)
    (hknown : User.findOne s₂ email = some u)
    (hmismatch : E.bcryptCompare password u.password = false) :
    login E s₁ now₁ (some email) (some password) =
      login E s₂ now₂ (some email) (some password) := by
  have hfind := User.findOne_fresh s₁ email hunknown
  by_cases h : (falsy (some email) || falsy (some password)) = true
  · simp [login, h]
  · simp [login, h, hfind, hknown, hmismatch]

/-- The string case at a concrete input: an unknown email and a wrong password for Ann. -/
theorem login_failures_indistinguishable_witness :
    login demoEnv emptyStore 0 (some "ann@x.com") (some "wrong") =
      login demoEnv demoStore 1 (some "ann@x.com") (some "wrong") :=
  login_failures_indistinguishable demoEnv emptyStore demoStore 0 1 "ann@x.com" "wrong" ann
    (by simp [emptyStore]) (by rfl) (by decide)

theorem loginJson_str (E : Env) (s : Store) (now : Nat) (email password : Option String) :
    loginJson E s now email (password.map Json.str) = login E s now email password := by
  cases password with
  | none => simp [loginJson, login, truthyJson, falsy]
  | some p =>
    by_cases hp : p = ""
    · simp [loginJson, login, truthyJson, falsy, hp]
    · by_cases he : falsy email = true
      · simp [loginJson, login, he]
      · cases hf : User.findOne s (email.getD "") with
        | none => simp [loginJson, login, truthyJson, falsy, hp, he, hf]
        | some u =>
          simp [loginJson, login, truthyJson, falsy, hp, he, hf, bcryptCompareValue]

theorem loginJson_unknown_email (E : Env) (s : Store) (now : Nat) (email : String)
    (password : Json) (hfind : User.findOne s email = none) :
    loginJson E s now (some email) (some password) =
        ⟨400, errorBody "Email and password required"⟩ ∨
      loginJson E s now (some email) (some password) =
        ⟨400, errorBody "Invalid credentials"⟩ := by
  by_cases h : (falsy (some email) || !truthyJson (some password)) = true
  · left; simp [loginJson, h]
  · right; simp [loginJson, h, hfind]

theorem loginJson_not_string (E : Env) (s : Store) (now : Nat) (email : String)
    (password : Json) (u : User) (hemail : email ≠ "")
    (htruthy : truthyJson (some password) = true)
    (hnot : ∀ p : String, password ≠ .str p)
    (hfind : User.findOne s email = some u) :
    loginJson E s now (some email) (some password) = ⟨500, errorBody "Login failed"⟩ := by
  have hc : bcryptCompareValue E password u.password = .error "Illegal arguments" := by
    cases password with
    | str p => exact absurd rfl (hnot p)
    | _ => rfl
  simp [loginJson, falsy, hemail, htruthy, hfind, hc]

/-- C3 on the code: the body `{ email, password: 12345 }`, whose password is a number.
With the registered email of Ann the password reaches `bcrypt.compare`, which throws, and
the handler answers 500 `Login failed`; with an email no user has, the same store answers
400 `Invalid credentials`. The two responses differ in status and in body, so the response
tells whether the email is registered. -/
theorem login_number_password_tells_registered :
    User.findOne demoStore "ann@x.com" = some ann ∧
    User.findOne demoStore "nobody@x.com" = none ∧
    loginJson demoEnv demoStore 0 (some "ann@x.com") (some (.num 12345)) =
      ⟨500, errorBody "Login failed"⟩ ∧
    loginJson demoEnv demoStore 0 (some "nobody@x.com") (some (.num 12345)) =
      ⟨400, errorBody "Invalid credentials"⟩ ∧
    (loginJson demoEnv demoStore 0 (some "ann@x.com") (some (.num 12345))).status ≠
      (loginJson demoEnv demoStore 0 (some "nobody@x.com") (some (.num 12345))).status :=
  ⟨rfl, rfl, rfl, rfl, by decide⟩

/-- C4 as stated fails: login with an unknown email, and login with a wrong password for a
registered email, do not answer with status 401. -/
theorem login_bad_credentials_not_401 :
    (login demoEnv demoStore 0 (some "nobody@x.com") (some "pw123456")).status ≠ 401 ∧
    (login demoEnv demoStore 0 (some "ann@x.com") (some "wrong")).status ≠ 401 := by
  decide

/-- C4, amended: login with an unknown email or a mismatching password answers with status
400; when email and password are both non-empty the response is 400 `Invalid credentials`. -/
theorem login_bad_credentials_400 (E : Env) (s : Store) (now : Nat) (email password : String)
    (hbad : User.findOne s email = none ∨
      ∃ u, User.findOne s email = some u ∧ E.bcryptCompare password u.password = false) :
    (login E s now (some email) (some password)).status = 400 ∧
    (email ≠ "" → password ≠ "" →
      login E s now (some email) (some password) = ⟨400, errorBody "Invalid credentials"⟩) := by
  constructor
  · by_cases h : (falsy (some email) || falsy (some password)) = true
    · simp [login, h]
    · rcases hbad with hnone | ⟨u, hu, hcmp⟩
      · simp [login, h, hnone]
      · simp [login, h, hu, hcmp]
  · intro he hp
    rcases hbad with hnone | ⟨u, hu, hcmp⟩
    · simp [login, falsy_some, he, hp, hnone]
    · simp [login, falsy_some, he, hp, hu, hcmp]

/-- C4, amended, at a concrete input: a wrong password for Ann. -/
theorem login_bad_credentials_400_witness :
    (login demoEnv demoStore 0 (some "ann@x.com") (some "wrong")).status = 400 ∧
    ("ann@x.com" ≠ "" → "wrong" ≠ "" →
      login demoEnv demoStore 0 (some "ann@x.com") (some "wrong") =
        ⟨400, errorBody "Invalid credentials"⟩) :=
  login_bad_credentials_400 demoEnv demoStore 0 "ann@x.com" "wrong"
    (Or.inr ⟨ann, by rfl, by decide⟩)

/-- C5 as stated fails: signup with the registered email `ann@x.com` and an empty password
does not answer `Email already registered`. -/
theorem signup_registered_empty_password :
    (signup demoEnv demoStore 0 0 (some "Ann") (some "ann@x.com") (some "")).2.body ≠
      errorBody "Email already registered" := by
  simp [signup, falsy, errorBody]

/-- C5, amended: signup with an email that is already registered answers with status 400 and
leaves the store unchanged, whatever the name and password; the response is
400 `Email already registered` whenever name, email and password are all non-empty. -/
theorem signup_registered_email (E : Env) (s : Store) (now salt : Nat)
    (name password : Option String) (email : String)
    (hreg : ∃ u ∈ s.users, u.email = email) :
    (signup E s now salt name (some email) password).1 = s ∧
    (signup E s now salt name (some email) password).2.status = 400 ∧
    (falsy name = false → email ≠ "" → falsy password = false →
      (signup E s now salt name (some email) password).2 =
        ⟨400, errorBody "Email already registered"⟩) := by
  obtain ⟨v, hv⟩ := User.findOne_registered s email hreg
  by_cases h : (falsy name || falsy (some email) || falsy password) = true
  · refine ⟨by simp [signup, h], by simp [signup, h], ?_⟩
    intro h1 h2 h3
    simp [falsy_some, h1, h2, h3] at h
  · simp [signup, h, hv]

/-- C5, amended, at a concrete input: a second signup with Ann's email. -/
theorem signup_registered_email_witness :
    (signup demoEnv demoStore 0 0 (some "Bob") (some "ann@x.com") (some "other")).1 = demoStore ∧
    (signup demoEnv demoStore 0 0 (some "Bob") (some "ann@x.com") (some "other")).2.status
      = 400 ∧
    (falsy (some "Bob") = false → "ann@x.com" ≠ "" → falsy (some "other") = false →
      (signup demoEnv demoStore 0 0 (some "Bob") (some "ann@x.com") (some "other")).2 =
        ⟨400, errorBody "Email already registered"⟩) :=
  signup_registered_email demoEnv demoStore 0 0 (some "Bob") (some "other") "ann@x.com"
    ⟨ann, by simp [demoStore], by rfl⟩

/-- C6: when any of name, email or password is missing or the empty string, signup answers
400 `All fields required`, the store is unchanged (no user is stored) and the body carries
no token. -/
theorem signup_missing_field (E : Env) (s : Store) (now salt : Nat)
    (name email password : Option String)
    (h : name = none ∨ name = some "" ∨ email = none ∨ email = some "" ∨
      password = none ∨ password = some "") :
    signup E s now salt name email password = (s, ⟨400, errorBody "All fields required"⟩) ∧
    (signup E s now salt name email password).1.users = s.users ∧
    (signup E s now salt name email password).2.body.get? "token" = none := by
  have hf : (falsy name || falsy email || falsy password) = true := by
    rcases h with h | h | h | h | h | h <;> subst h <;> simp [falsy]
  have hs : signup E s now salt name email password =
      (s, ⟨400, errorBody "All fields required"⟩) := by
    simp [signup, hf]
  refine ⟨hs, by rw [hs], ?_⟩
  rw [hs]
  simp [errorBody, Json.get?]

/-- C6 at a concrete input: a signup without a password. -/
theorem signup_missing_field_witness :
    signup demoEnv demoStore 0 0 (some "Bob") (some "bob@x.com") none =
      (demoStore, ⟨400, errorBody "All fields required"⟩) ∧
    (signup demoEnv demoStore 0 0 (some "Bob") (some "bob@x.com") none).1.users
      = demoStore.users ∧
    (signup demoEnv demoStore 0 0 (some "Bob") (some "bob@x.com") none).2.body.get? "token"
      = none :=
  signup_missing_field demoEnv demoStore 0 0 (some "Bob") (some "bob@x.com") none
    (Or.inr (Or.inr (Or.inr (Or.inr (Or.inl rfl)))))

/-! ## Case analysis of the two issuing routes -/

theorem signup_cases (E : Env) (s : Store) (now salt : Nat)
    (name email password : Option String) :
    signup E s now salt name email password = (s, ⟨400, errorBody "All fields required"⟩) ∨
    signup E s now salt name email password =
      (s, ⟨400, errorBody "Email already registered"⟩) ∨
    signup E s now salt name email password = (s, ⟨500, errorBody "Signup failed"⟩) ∨
    signup E s now salt name email password =
      (s.insertUser (signupUser E s now salt name email password),
        ⟨200, .obj [("token", .str (E.jwtEncode E.JWT_SECRET
            { userId := s.nextId, iat := now / 1000, exp := now / 1000 + 2592000 })),
          ("user", .obj [("id", .oid s.nextId), ("name", .str (name.getD "")),
            ("email", .str (email.getD ""))])]⟩) := by
  unfold signup
  split
  · exact Or.inl rfl
  · split
    · exact Or.inr (Or.inl rfl)
    · simp only [jwtSign_30d]
      split
      · exact Or.inr (Or.inr (Or.inl rfl))
      · rename_i s' hsave
        have hs' : s' = s.insertUser (signupUser E s now salt name email password) := by
          unfold User.save at hsave
          split at hsave
          · cases hsave
          · split at hsave
            · cases hsave
            · cases hsave; rfl
        subst hs'
        exact Or.inr (Or.inr (Or.inr rfl))

theorem login_cases (E : Env) (s : Store) (now : Nat) (email password : Option String) :
    login E s now email password = ⟨400, errorBody "Email and password required"⟩ ∨
    login E s now email password = ⟨400, errorBody "Invalid credentials"⟩ ∨
    ∃ user, User.findOne s (email.getD "") = some user ∧
      login E s now email password =
        ⟨200, .obj [("token", .str (E.jwtEncode E.JWT_SECRET
            { userId := user._id, iat := now / 1000, exp := now / 1000 + 2592000 })),
          ("user", .obj [("id", .oid user._id), ("name", .str user.name),
            ("email", .str user.email)])]⟩ := by
  unfold login
  split
  · exact Or.inl rfl
  · split
    · exact Or.inr (Or.inl rfl)
    · rename_i user hfind
      split
      · exact Or.inr (Or.inl rfl)
      · simp only [jwtSign_30d]
        exact Or.inr (Or.inr ⟨user, hfind, rfl⟩)

theorem issued_token_eq (E : Env) (s : Store) (t0 salt : Nat)
    (name email password : Option String) (r : Response) (tok : String) (uid : ObjectId)
    (hr : r = (signup E s t0 salt name email password).2 ∨ r = login E s t0 email password)
    (hissued : r.issues tok uid) :
    tok = E.jwtEncode E.JWT_SECRET
      { userId := uid, iat := t0 / 1000, exp := t0 / 1000 + 2592000 } := by
  obtain ⟨hstatus, htok, hid⟩ := hissued
  rcases hr with hr | hr
  · rcases signup_cases E s t0 salt name email password with h | h | h | h <;>
      rw [h] at hr <;> subst hr
    · simp at hstatus
    · simp at hstatus
    · simp at hstatus
    · simp [Json.get?] at htok hid
      rw [← htok, hid]
  · rcases login_cases E s t0 email password with h | h | ⟨user, -, h⟩ <;>
      rw [h] at hr <;> subst hr
    · simp at hstatus
    · simp at hstatus
    · simp [Json.get?] at htok hid
      rw [← htok, hid]

/-! ## Token extraction -/

theorem splitChars_no_sep (sep : Char) (w : List Char) (h : sep ∉ w) :
    splitChars sep w = [w] := by
  induction w with
  | nil => rfl
  | cons c cs ih =>
    have hc : c ≠ sep := fun e => h (by simp [e])
    have hcs : sep ∉ cs := fun e => h (by simp [e])
    simp [splitChars, hc, ih hcs]

theorem extractToken_bearer (tok : String) (hns : ' ' ∉ tok.data) :
    extractToken (some ("Bearer " ++ tok)) = some tok := by
  have hdata : ("Bearer " ++ tok).data = 'B' :: 'e' :: 'a' :: 'r' :: 'e' :: 'r' :: ' ' :: tok.data :=
    rfl
  have hstart : jsStartsWith ("Bearer " ++ tok) "Bearer " = true := by
    have hp : "Bearer ".data = ['B', 'e', 'a', 'r', 'e', 'r', ' '] := rfl
    simp [jsStartsWith, hdata, hp, List.isPrefixOf]
  have hsplit : jsSplit ' ' ("Bearer " ++ tok) = ["Bearer", tok] := by
    simp only [jsSplit, hdata]
    simp [splitChars, splitChars_no_sep ' ' tok.data hns]
  have hfalsy : falsy (some ("Bearer " ++ tok)) = false := by
    simp only [falsy, beq_eq_false_iff_ne, ne_eq]
    intro h
    have := congrArg String.data h
    rw [hdata] at this
    cases this
  simp [extractToken, hfalsy, hstart, hsplit]

theorem authMiddleware_cases (E : Env) (now : Nat) (authorization : Option String) :
    authMiddleware E now authorization = .respond ⟨401, errorBody "No token provided"⟩ ∨
    authMiddleware E now authorization = .respond ⟨401, errorBody "Invalid token"⟩ ∨
    ∃ uid, authMiddleware E now authorization = .next uid := by
  by_cases hf : falsy (extractToken authorization) = true
  · exact Or.inl (by simp [authMiddleware, hf])
  · cases hv : jwtVerify E ((extractToken authorization).getD "") E.JWT_SECRET now with
    | none => exact Or.inr (Or.inl (by simp [authMiddleware, hf, hv]))
    | some c => exact Or.inr (Or.inr ⟨c.userId, by simp [authMiddleware, hf, hv]⟩)

/-! ## Session tokens -/

/-- C7: a token issued by signup or by login at time `t0` for user `uid`, presented as
`Bearer <token>`, makes `authMiddleware` pass the request on with `req.userId = uid` as long
as the clock (in seconds) is before `t0/1000 + 30 days`, and is answered with 401 from that
instant on; the library is assumed to decode the token it made for these claims, and the
token to be non-empty and free of spaces. -/
theorem token_round_trip (E : Env) (s : Store) (t0 salt : Nat)
    (name email password : Option String) (r : Response) (tok : String) (uid : ObjectId)
    (now : Nat)
    (hr : r = (signup E s t0 salt name email password).2 ∨ r = login E s t0 email password)
    (hissued : r.issues tok uid)
    (hne : tok ≠ "") (hns : ' ' ∉ tok.data)
    (hrt : E.jwtDecode E.JWT_SECRET (E.jwtEncode E.JWT_SECRET
        { userId := uid, iat := t0 / 1000, exp := t0 / 1000 + 2592000 }) =
      some { userId := uid, iat := t0 / 1000, exp := t0 / 1000 + 2592000 }) :
    (now / 1000 < t0 / 1000 + 2592000 →
      authMiddleware E now (some ("Bearer " ++ tok)) = .next uid) ∧
    (t0 / 1000 + 2592000 ≤ now / 1000 →
      authMiddleware E now (some ("Bearer " ++ tok)) =
        .respond ⟨401, errorBody "Invalid token"⟩) := by
  have htok := issued_token_eq E s t0 salt name email password r tok uid hr hissued
  rw [← htok] at hrt
  constructor
  · intro hlt
    have hnle : ¬ (t0 / 1000 + 2592000 ≤ now / 1000) := Nat.not_le.mpr hlt
    simp [authMiddleware, extractToken_bearer tok hns, falsy_some, hne, jwtVerify, hrt, hnle]
  · intro hle
    simp [authMiddleware, extractToken_bearer tok hns, falsy_some, hne, jwtVerify, hrt, hle]

/-- C7 at a concrete input: the token Ann receives at signup, presented one second later. -/
theorem token_round_trip_witness :
    (6000 / 1000 < 5000 / 1000 + 2592000 →
      authMiddleware demoEnv 6000
        (some ("Bearer " ++ "0.5.2592005.your-secret-key-change-in-production")) = .next 0) ∧
    (5000 / 1000 + 2592000 ≤ 6000 / 1000 →
      authMiddleware demoEnv 6000
        (some ("Bearer " ++ "0.5.2592005.your-secret-key-change-in-production")) =
        .respond ⟨401, errorBody "Invalid token"⟩) :=
  token_round_trip demoEnv emptyStore 5000 7 (some "Ann") (some "ann@x.com") (some "pw123456")
    (signup demoEnv emptyStore 5000 7 (some "Ann") (some "ann@x.com") (some "pw123456")).2
    "0.5.2592005.your-secret-key-change-in-production" 0 6000
    (Or.inl rfl) ⟨by rfl, by rfl, by rfl⟩ (by decide) (by decide) (by decide)

/-- C8: when the Authorization header is absent, empty or `Bearer ` followed by nothing, or
when the token extracted from it fails verification, `authMiddleware` answers with status
401 and does not pass the request on: a route composed with it returns that answer and its
handler is not run. -/
theorem authMiddleware_rejects (E : Env) (now : Nat) (authorization : Option String)
    (h : authorization = none ∨ authorization = some "" ∨ authorization = some "Bearer " ∨
      jwtVerify E ((extractToken authorization).getD "") E.JWT_SECRET now = none) :
    ∃ res, authMiddleware E now authorization = .respond res ∧ res.status = 401 ∧
      ∀ (handler : ObjectId → Response),
        withAuth E now authorization (fun x => x) handler = res := by
  have key : ∀ res, authMiddleware E now authorization = .respond res → res.status = 401 →
      ∃ res, authMiddleware E now authorization = .respond res ∧ res.status = 401 ∧
        ∀ (handler : ObjectId → Response),
          withAuth E now authorization (fun x => x) handler = res := by
    intro res hres hst
    exact ⟨res, hres, hst, fun handler => by simp [withAuth, hres]⟩
  have hempty : extractToken authorization = some "" →
      authMiddleware E now authorization = .respond ⟨401, errorBody "No token provided"⟩ := by
    intro he
    simp [authMiddleware, he, falsy]
  rcases h with h | h | h | h
  · subst h; exact key _ (hempty (by decide)) rfl
  · subst h; exact key _ (hempty (by decide)) rfl
  · subst h; exact key _ (hempty (by decide)) rfl
  · by_cases hf : falsy (extractToken authorization) = true
    · exact key ⟨401, errorBody "No token provided"⟩ (by simp [authMiddleware, hf]) rfl
    · exact key ⟨401, errorBody "Invalid token"⟩ (by simp [authMiddleware, hf, h]) rfl

/-- C8 at a concrete input: a token that does not decode. -/
theorem authMiddleware_rejects_witness :
    ∃ res, authMiddleware demoEnv 0 (some "Bearer garbage") = .respond res ∧
      res.status = 401 ∧
      ∀ (handler : ObjectId → Response),
        withAuth demoEnv 0 (some "Bearer garbage") (fun x => x) handler = res :=
  authMiddleware_rejects demoEnv 0 (some "Bearer garbage")
    (Or.inr (Or.inr (Or.inr (by decide))))

/-- C9: a successful signup or login response has exactly the members `token` and `user`,
and its user view exactly the members `id`, `name` and `email`; the user document in a
response of `GET /api/auth/me` has the members `_id`, `name`, `email`, `createdAt` and no
`password`; and signup either stores nothing or appends one user whose `password` field is
the bcrypt hash of the submitted password (so not the password itself, when the hash
differs from its input). -/
theorem password_never_exposed (E : Env) (s : Store) (t0 salt : Nat)
    (name email password : Option String) (r : Response)
    (hr : r = (signup E s t0 salt name email password).2 ∨ r = login E s t0 email password)
    (hok : r.status = 200) :
    r.body.keys = ["token", "user"] ∧
    (r.body.get? "user").map Json.keys = some ["id", "name", "email"] ∧
    (∀ (now : Nat) (authorization : Option String) (v : Json),
      (me E s now authorization).body.get? "user" = some v →
        v.keys = ["_id", "name", "email", "createdAt"] ∧ "password" ∉ v.keys) ∧
    ((signup E s t0 salt name email password).1.users = s.users ∨
      ∃ u, (signup E s t0 salt name email password).1.users = s.users ++ [u] ∧
        u.password = E.bcryptHash (password.getD "") 10 salt ∧
        (E.bcryptHash (password.getD "") 10 salt ≠ password.getD "" →
          u.password ≠ password.getD "")) := by
  refine ⟨?_, ?_, ?_, ?_⟩
  · rcases hr with hr | hr
    · rcases signup_cases E s t0 salt name email password with h | h | h | h <;>
        rw [h] at hr <;> subst hr <;> simp [Json.keys] at hok ⊢
    · rcases login_cases E s t0 email password with h | h | ⟨user, -, h⟩ <;>
        rw [h] at hr <;> subst hr <;> simp [Json.keys] at hok ⊢
  · rcases hr with hr | hr
    · rcases signup_cases E s t0 salt name email password with h | h | h | h <;>
        rw [h] at hr <;> subst hr <;> simp [Json.keys, Json.get?] at hok ⊢
    · rcases login_cases E s t0 email password with h | h | ⟨user, -, h⟩ <;>
        rw [h] at hr <;> subst hr <;> simp [Json.keys, Json.get?] at hok ⊢
  · intro now authorization v hv
    unfold me at hv
    split at hv
    · rename_i res hres
      rcases authMiddleware_cases E now authorization with h | h | ⟨uid, h⟩ <;>
        rw [h] at hres <;> cases hres <;> simp [errorBody, Json.get?] at hv
    · unfold meHandler at hv
      split at hv
      · simp [errorBody, Json.get?] at hv
      · simp [Json.get?, User.selectMinusPassword] at hv
        subst hv
        simp [Json.keys]
  · rcases signup_cases E s t0 salt name email password with h | h | h | h
    · exact Or.inl (by rw [h])
    · exact Or.inl (by rw [h])
    · exact Or.inl (by rw [h])
    · refine Or.inr ⟨signupUser E s t0 salt name email password, by rw [h]; rfl, rfl, ?_⟩
      intro hne
      exact hne

/-- C9 at a concrete input: Ann signs up on the empty store. -/
theorem password_never_exposed_witness :
    (signup demoEnv emptyStore 5000 7 (some "Ann") (some "ann@x.com")
        (some "pw123456")).2.body.keys = ["token", "user"] ∧
    ((signup demoEnv emptyStore 5000 7 (some "Ann") (some "ann@x.com")
        (some "pw123456")).2.body.get? "user").map Json.keys = some ["id", "name", "email"] ∧
    (∀ (now : Nat) (authorization : Option String) (v : Json),
      (me demoEnv emptyStore now authorization).body.get? "user" = some v →
        v.keys = ["_id", "name", "email", "createdAt"] ∧ "password" ∉ v.keys) ∧
    ((signup demoEnv emptyStore 5000 7 (some "Ann") (some "ann@x.com")
        (some "pw123456")).1.users = emptyStore.users ∨
      ∃ u, (signup demoEnv emptyStore 5000 7 (some "Ann") (some "ann@x.com")
          (some "pw123456")).1.users = emptyStore.users ++ [u] ∧
        u.password = demoEnv.bcryptHash ((some "pw123456").getD "") 10 7 ∧
        (demoEnv.bcryptHash ((some "pw123456").getD "") 10 7 ≠ (some "pw123456").getD "" →
          u.password ≠ (some "pw123456").getD "")) :=
  password_never_exposed demoEnv emptyStore 5000 7 (some "Ann") (some "ann@x.com")
    (some "pw123456") _ (Or.inl rfl) (by rfl)

/-- C10: every token that signup or login issues at time `t0` for user `uid` is the
signature over the claims made of that user id, the issue time `t0/1000` and the expiry
thirty days (2592000 seconds) later; it is what `jwt.sign` returns for the payload `userId`
with `expiresIn: '30d'`. -/
theorem token_payload_and_window (E : Env) (s : Store) (t0 salt : Nat)
    (name email password : Option String) (r : Response) (tok : String) (uid : ObjectId)
    (hr : r = (signup E s t0 salt name email password).2 ∨ r = login E s t0 email password)
    (hissued : r.issues tok uid) :
    jwtSign E uid E.JWT_SECRET "30d" t0 = some tok ∧
    ∃ c : Claims, tok = E.jwtEncode E.JWT_SECRET c ∧ c.userId = uid ∧ c.iat = t0 / 1000 ∧
      c.exp = c.iat + 30 * 24 * 60 * 60 := by
  have htok := issued_token_eq E s t0 salt name email password r tok uid hr hissued
  refine ⟨by rw [jwtSign_30d, htok], ?_⟩
  exact ⟨{ userId := uid, iat := t0 / 1000, exp := t0 / 1000 + 2592000 }, htok, rfl, rfl, rfl⟩

/-- C10 at a concrete input: the token of Ann's login on the store that holds her. -/
theorem token_payload_and_window_witness :
    jwtSign demoEnv 1 demoEnv.JWT_SECRET "30d" 9000 =
      some "1.9.2592009.your-secret-key-change-in-production" ∧
    ∃ c : Claims, "1.9.2592009.your-secret-key-change-in-production" =
        demoEnv.jwtEncode demoEnv.JWT_SECRET c ∧ c.userId = 1 ∧ c.iat = 9000 / 1000 ∧
      c.exp = c.iat + 30 * 24 * 60 * 60 :=
  token_payload_and_window demoEnv demoStore 9000 0 none (some "ann@x.com") (some "pw123456")
    (login demoEnv demoStore 9000 (some "ann@x.com") (some "pw123456"))
    "1.9.2592009.your-secret-key-change-in-production" 1
    (Or.inr rfl) ⟨by rfl, by rfl, by rfl⟩

/-! ## Create, Get and List -/

theorem Trip.save_cases (s : Store) (now : Nat) (tripData : TripPatch) :
    (∃ e, Trip.save s now tripData = .error e) ∨
    ∃ t : Trip, newTrip s.nextId now tripData = .ok t ∧
      (s.trips.any fun x => x._id == t._id) = false ∧
      Trip.save s now tripData = .ok (s.insertTrip t, t) := by
  unfold Trip.save
  cases h : newTrip s.nextId now tripData with
  | error e => exact Or.inl ⟨e, rfl⟩
  | ok t =>
    by_cases hdup : (s.trips.any fun x => x._id == t._id) = true
    · left
      exact ⟨"E11000 duplicate key", by simp only [hdup]; rfl⟩
    · right
      have hdup' : (s.trips.any fun x => x._id == t._id) = false := by simpa using hdup
      exact ⟨t, rfl, hdup', by simp only [hdup']; rfl⟩

theorem createTrip_cases (s : Store) (now : Nat) (U : ObjectId) (body : TripPatch) :
    createTrip s now U body = (s, ⟨500, errorBody "Failed to create trip"⟩) ∨
    ∃ t : Trip, newTrip s.nextId now { body with userId := some U } = .ok t ∧
      (s.trips.any fun x => x._id == t._id) = false ∧
      createTrip s now U body = (s.insertTrip t, ⟨200, .obj [("trip", t.toJson)]⟩) := by
  simp only [createTrip]
  rcases Trip.save_cases s now { body with userId := some U } with ⟨e, h⟩ | ⟨t, ht, hany, h⟩
  · left; rw [h]
  · right; exact ⟨t, ht, hany, by rw [h]⟩

theorem newTrip_ok (id : ObjectId) (now : Nat) (tripData : TripPatch) (t : Trip)
    (h : newTrip id now tripData = .ok t) :
    t._id = id ∧ tripData.userId = some t.userId ∧
    tripData.destination = some t.destination ∧ t.destination ≠ "" ∧
    tripData.startDate = some t.startDate ∧ tripData.endDate = some t.endDate ∧
    t.itinerary = tripData.itinerary.getD [] ∧
    t.packingList = tripData.packingList.getD [] ∧
    t.accommodation = tripData.accommodation ∧
    t.restaurants = tripData.restaurants.getD [] ∧ t.events = tripData.events.getD [] ∧
    t.createdAt = tripData.createdAt.getD now := by
  unfold newTrip at h
  split at h
  · rename_i userId destination startDate endDate hu hd hs he
    split at h
    · cases h
    · rename_i hne
      cases h
      refine ⟨rfl, hu, hd, ?_, hs, he, rfl, rfl, rfl, rfl, rfl, rfl⟩
      simpa using hne
  · cases h

theorem newTrip_valid (id : ObjectId) (now : Nat) (tripData : TripPatch)
    (U : ObjectId) (d : String) (sd ed : Int)
    (hu : tripData.userId = some U) (hd : tripData.destination = some d) (hne : d ≠ "")
    (hs : tripData.startDate = some sd) (he : tripData.endDate = some ed) :
    ∃ t, newTrip id now tripData = .ok t := by
  unfold newTrip
  rw [hu, hd, hs, he]
  simp [hne]

theorem Trip.findOne_append_new (s : Store) (t : Trip)
    (hfresh : ∀ x ∈ s.trips, x._id ≠ t._id) :
    Trip.findOne (s.insertTrip t) t._id t.userId = some t := by
  unfold Trip.findOne Store.insertTrip
  have hnone : List.find? (fun x => x._id == t._id && x.userId == t.userId) s.trips = none := by
    rw [List.find?_eq_none]
    intro x hx
    have := hfresh x hx
    simp [this]
  simp [List.find?_append, hnone]

/-- C11: for a body with a non-empty destination, a start date and an end date, on a store
where the next ObjectId is not in use, Create answers 200 with a trip `t`, and Get on the
id of `t` under the same caller answers 200 with the same trip; `t` carries the fresh id,
the caller as owner, the fields of the body (an array the body does not name is empty)
and `createdAt`, which is the clock unless the body names it. -/
theorem create_then_get (E : Env) (s : Store) (now : Nat) (U : ObjectId) (body : TripPatch)
    (id : String) (d : String) (sd ed : Int)
    (hd : body.destination = some d) (hne : d ≠ "")
    (hs : body.startDate = some sd) (he : body.endDate = some ed)
    (hfresh : ∀ x ∈ s.trips, x._id ≠ s.nextId)
    (hid : E.castObjectId id = some s.nextId) :
    ∃ t : Trip, (createTrip s now U body).2 = ⟨200, .obj [("trip", t.toJson)]⟩ ∧
      getTrip E (createTrip s now U body).1 U id = ⟨200, .obj [("trip", t.toJson)]⟩ ∧
      t._id = s.nextId ∧ t.userId = U ∧
      t.destination = d ∧ t.startDate = sd ∧ t.endDate = ed ∧
      t.itinerary = body.itinerary.getD [] ∧ t.packingList = body.packingList.getD [] ∧
      t.accommodation = body.accommodation ∧ t.restaurants = body.restaurants.getD [] ∧
      t.events = body.events.getD [] ∧ t.createdAt = body.createdAt.getD now := by
  obtain ⟨t, ht⟩ := newTrip_valid s.nextId now { body with userId := some U } U d sd ed
    rfl hd hne hs he
  obtain ⟨hid', hu, hdest, -, hsd, hed, hit, hpl, hacc, hre, hev, hca⟩ :=
    newTrip_ok s.nextId now _ t ht
  have hfresh' : ∀ x ∈ s.trips, x._id ≠ t._id := by rw [hid']; exact hfresh
  have hany : (s.trips.any fun x => x._id == t._id) = false := by
    rw [Bool.eq_false_iff]
    intro h
    obtain ⟨x, hx, hxe⟩ := List.any_eq_true.mp h
    exact hfresh' x hx (by simpa using hxe)
  have hcreate : createTrip s now U body =
      (s.insertTrip t, ⟨200, .obj [("trip", t.toJson)]⟩) := by
    rcases createTrip_cases s now U body with h | ⟨t', ht', -, h⟩
    · exfalso
      have h500 : createTrip s now U body ≠
          (s, ⟨500, errorBody "Failed to create trip"⟩) := by
        simp only [createTrip, Trip.save, ht, hany]
        intro hc
        have := congrArg (fun r => r.2.status) hc
        simp at this
      exact h500 h
    · rw [ht] at ht'
      cases ht'
      exact h
  have huU : t.userId = U := by
    have : some U = some t.userId := hu
    exact (Option.some.inj this).symm
  have hfind := Trip.findOne_append_new s t hfresh'
  rw [hid', huU] at hfind
  refine ⟨t, by rw [hcreate], ?_, hid', huU, ?_, ?_, ?_, hit, hpl, hacc, hre, hev, hca⟩
  · rw [hcreate]
    simp [getTrip, hid, hfind]
  · have : some d = some t.destination := by rw [← hd]; exact hdest
    exact (Option.some.inj this).symm
  · have : some sd = some t.startDate := by rw [← hs]; exact hsd
    exact (Option.some.inj this).symm
  · have : some ed = some t.endDate := by rw [← he]; exact hed
    exact (Option.some.inj this).symm

/-- C11 at a concrete input: user 1 creates the Paris trip on the store that holds one trip
and reads it back under id 43. -/
theorem create_then_get_witness :
    ∃ t : Trip, (createTrip demoStore 5000 1 parisBody).2 = ⟨200, .obj [("trip", t.toJson)]⟩ ∧
      getTrip demoEnv (createTrip demoStore 5000 1 parisBody).1 1 "43" =
        ⟨200, .obj [("trip", t.toJson)]⟩ ∧
      t._id = demoStore.nextId ∧ t.userId = 1 ∧
      t.destination = "Paris" ∧ t.startDate = 1748736000000 ∧ t.endDate = 1749081600000 ∧
      t.itinerary = parisBody.itinerary.getD [] ∧
      t.packingList = parisBody.packingList.getD [] ∧
      t.accommodation = parisBody.accommodation ∧
      t.restaurants = parisBody.restaurants.getD [] ∧
      t.events = parisBody.events.getD [] ∧ t.createdAt = parisBody.createdAt.getD 5000 :=
  create_then_get demoEnv demoStore 5000 1 parisBody "43" "Paris" 1748736000000 1749081600000
    rfl (by decide) rfl rfl (by simp [demoStore, parisTrip]) (by decide)

theorem createTrip_valid (s : Store) (now : Nat) (U : ObjectId) (body : TripPatch)
    (d : String) (sd ed : Int)
    (hd : body.destination = some d) (hne : d ≠ "")
    (hs : body.startDate = some sd) (he : body.endDate = some ed)
    (hfresh : ∀ x ∈ s.trips, x._id ≠ s.nextId) :
    ∃ t : Trip, newTrip s.nextId now { body with userId := some U } = .ok t ∧
      createTrip s now U body = (s.insertTrip t, ⟨200, .obj [("trip", t.toJson)]⟩) := by
  obtain ⟨t, ht⟩ := newTrip_valid s.nextId now { body with userId := some U } U d sd ed
    rfl hd hne hs he
  obtain ⟨hid, -⟩ := newTrip_ok s.nextId now _ t ht
  have hany : (s.trips.any fun x => x._id == t._id) = false := by
    rw [Bool.eq_false_iff]
    intro h
    obtain ⟨x, hx, hxe⟩ := List.any_eq_true.mp h
    exact hfresh x hx (by rw [← hid]; simpa using hxe)
  refine ⟨t, ht, ?_⟩
  rcases createTrip_cases s now U body with h | ⟨t', ht', -, h⟩
  · exfalso
    have h500 : createTrip s now U body ≠
        (s, ⟨500, errorBody "Failed to create trip"⟩) := by
      simp only [createTrip, Trip.save, ht, hany]
      intro hc
      have := congrArg (fun r => r.2.status) hc
      simp at this
    exact h500 h
  · rw [ht] at ht'
    cases ht'
    exact h

/-- C12: a body with a non-empty destination, a start date and an end date, sent by caller
`U` to a store whose next ObjectId is not in use, makes Create append exactly one trip to
the stored trips, whatever the `userId` member of the body is (absent, the caller, or
another user): the appended trip has `userId = U`, it is the trip of the 200 response, the
store finds it under `U` and under no other user. And for every body at all, Create either
leaves the store as it was or appends one trip whose `userId` is `U`. -/
theorem create_owned_by_caller (s : Store) (now : Nat) (U : ObjectId) (body : TripPatch)
    (d : String) (sd ed : Int)
    (hd : body.destination = some d) (hne : d ≠ "")
    (hs : body.startDate = some sd) (he : body.endDate = some ed)
    (hfresh : ∀ x ∈ s.trips, x._id ≠ s.nextId) :
    (∃ t : Trip, (createTrip s now U body).1.trips = s.trips ++ [t] ∧
      t.userId = U ∧ t._id = s.nextId ∧
      (createTrip s now U body).2 = ⟨200, .obj [("trip", t.toJson)]⟩ ∧
      Trip.findOne (createTrip s now U body).1 s.nextId U = some t ∧
      (∀ V : ObjectId, V ≠ U → Trip.findOne (createTrip s now U body).1 s.nextId V = none)) ∧
    (∀ other : TripPatch, (createTrip s now U other).1 = s ∨
      ∃ t : Trip, (createTrip s now U other).1.trips = s.trips ++ [t] ∧ t.userId = U ∧
        (createTrip s now U other).2 = ⟨200, .obj [("trip", t.toJson)]⟩) := by
  constructor
  · obtain ⟨t, ht, hcreate⟩ := createTrip_valid s now U body d sd ed hd hne hs he hfresh
    obtain ⟨hid, hu, -⟩ := newTrip_ok s.nextId now _ t ht
    have huU : t.userId = U := by
      have : some U = some t.userId := hu
      exact (Option.some.inj this).symm
    have hfresh' : ∀ x ∈ s.trips, x._id ≠ t._id := by rw [hid]; exact hfresh
    have hfind := Trip.findOne_append_new s t hfresh'
    rw [hid, huU] at hfind
    refine ⟨t, by rw [hcreate]; rfl, huU, hid, by rw [hcreate], by rw [hcreate]; exact hfind,
      ?_⟩
    intro V hV
    rw [hcreate]
    unfold Trip.findOne Store.insertTrip
    rw [List.find?_eq_none]
    intro x hx
    rcases List.mem_append.mp hx with hx | hx
    · have := hfresh x hx
      simp [this]
    · have hxt : x = t := by simpa using hx
      subst hxt
      have : x.userId ≠ V := by rw [huU]; exact fun h => hV h.symm
      simp [this]
  · intro other
    rcases createTrip_cases s now U other with h | ⟨t, ht, -, h⟩
    · exact Or.inl (by rw [h])
    · right
      obtain ⟨-, hu, -⟩ := newTrip_ok s.nextId now _ t ht
      have huU : t.userId = U := by
        have : some U = some t.userId := hu
        exact (Option.some.inj this).symm
      exact ⟨t, by rw [h]; rfl, huU, by rw [h]⟩

/-- C12 at a concrete input: user 1 sends the Paris body with `userId` naming user 2; the
one trip the store gains belongs to user 1, and user 2 does not find it. -/
theorem create_owned_by_caller_witness :
    otherOwnerBody.userId = some 2 ∧
    ((∃ t : Trip, (createTrip demoStore 5000 1 otherOwnerBody).1.trips =
        demoStore.trips ++ [t] ∧
      t.userId = 1 ∧ t._id = demoStore.nextId ∧
      (createTrip demoStore 5000 1 otherOwnerBody).2 = ⟨200, .obj [("trip", t.toJson)]⟩ ∧
      Trip.findOne (createTrip demoStore 5000 1 otherOwnerBody).1 demoStore.nextId 1 =
        some t ∧
      (∀ V : ObjectId, V ≠ 1 →
        Trip.findOne (createTrip demoStore 5000 1 otherOwnerBody).1 demoStore.nextId V =
          none)) ∧
    (∀ other : TripPatch, (createTrip demoStore 5000 1 other).1 = demoStore ∨
      ∃ t : Trip, (createTrip demoStore 5000 1 other).1.trips = demoStore.trips ++ [t] ∧
        t.userId = 1 ∧
        (createTrip demoStore 5000 1 other).2 = ⟨200, .obj [("trip", t.toJson)]⟩)) :=
  ⟨rfl, create_owned_by_caller demoStore 5000 1 otherOwnerBody "Paris" 1748736000000
    1749081600000 rfl (by decide) rfl rfl (by simp [demoStore, parisTrip])⟩

theorem Trip.find_perm (s : Store) (U : ObjectId) :
    (Trip.find s U).Perm (s.trips.filter (fun t => t.userId == U)) :=
  List.perm_insertionSort _ _

theorem Trip.find_sorted (s : Store) (U : ObjectId) :
    (Trip.find s U).Sorted (fun a b => b.createdAt ≤ a.createdAt) := by
  haveI : IsTotal Trip (fun a b => b.createdAt ≤ a.createdAt) :=
    ⟨fun a b => le_total b.createdAt a.createdAt⟩
  haveI : IsTrans Trip (fun a b => b.createdAt ≤ a.createdAt) :=
    ⟨fun _ _ _ hab hbc => le_trans hbc hab⟩
  exact List.sorted_insertionSort _ _

theorem Trip.mem_find (s : Store) (U : ObjectId) (t : Trip) :
    t ∈ Trip.find s U ↔ t ∈ s.trips ∧ t.userId = U := by
  rw [(Trip.find_perm s U).mem_iff]
  simp

/-- C13: List answers 200 with the trips of the store whose owner is the caller, each of
them once and no trip of another user, ordered by `createdAt` descending; after one Create
of a Paris trip under `U` on a store without trips, List under `U` returns exactly that
trip and List under any other identity returns the empty list. -/
theorem list_own_trips_newest_first (s s0 : Store) (now : Nat) (U V : ObjectId)
    (body : TripPatch) (sd ed : Int)
    (hs0 : s0.trips = []) (hd : body.destination = some "Paris")
    (hs : body.startDate = some sd) (he : body.endDate = some ed) (hVU : V ≠ U) :
    listTrips s U = ⟨200, .obj [("trips", .arr ((Trip.find s U).map Trip.toJson))]⟩ ∧
    (Trip.find s U).Perm (s.trips.filter (fun t => t.userId == U)) ∧
    (∀ t, t ∈ Trip.find s U ↔ t ∈ s.trips ∧ t.userId = U) ∧
    (Trip.find s U).Sorted (fun a b => b.createdAt ≤ a.createdAt) ∧
    ∃ t : Trip, (createTrip s0 now U body).2 = ⟨200, .obj [("trip", t.toJson)]⟩ ∧
      t.destination = "Paris" ∧
      listTrips (createTrip s0 now U body).1 U = ⟨200, .obj [("trips", .arr [t.toJson])]⟩ ∧
      listTrips (createTrip s0 now U body).1 V = ⟨200, .obj [("trips", .arr [])]⟩ := by
  refine ⟨rfl, Trip.find_perm s U, Trip.mem_find s U, Trip.find_sorted s U, ?_⟩
  obtain ⟨t, ht⟩ := newTrip_valid s0.nextId now { body with userId := some U } U "Paris" sd ed
    rfl hd (by decide) hs he
  obtain ⟨-, hu, hdest, -⟩ := newTrip_ok s0.nextId now _ t ht
  have huU : t.userId = U := by
    have : some U = some t.userId := hu
    exact (Option.some.inj this).symm
  have hdest' : t.destination = "Paris" := by
    have : some "Paris" = some t.destination := by rw [← hd]; exact hdest
    exact (Option.some.inj this).symm
  have hcreate : createTrip s0 now U body =
      (s0.insertTrip t, ⟨200, .obj [("trip", t.toJson)]⟩) := by
    simp only [createTrip, Trip.save, ht, hs0]
    rfl
  refine ⟨t, by rw [hcreate], hdest', ?_, ?_⟩
  · rw [hcreate]
    simp [listTrips, Trip.find, Store.insertTrip, hs0, huU]
  · rw [hcreate]
    have : (V == U) = false := by simpa using hVU
    simp [listTrips, Trip.find, Store.insertTrip, hs0, huU, hVU.symm]

/-- C13 at a concrete input: the Paris scenario on the empty store, and the list of the
store that holds one trip. -/
theorem list_own_trips_newest_first_witness :
    listTrips demoStore 1 =
      ⟨200, .obj [("trips", .arr ((Trip.find demoStore 1).map Trip.toJson))]⟩ ∧
    (Trip.find demoStore 1).Perm (demoStore.trips.filter (fun t => t.userId == 1)) ∧
    (∀ t, t ∈ Trip.find demoStore 1 ↔ t ∈ demoStore.trips ∧ t.userId = 1) ∧
    (Trip.find demoStore 1).Sorted (fun a b => b.createdAt ≤ a.createdAt) ∧
    ∃ t : Trip, (createTrip emptyStore 5000 1 parisBody).2 =
        ⟨200, .obj [("trip", t.toJson)]⟩ ∧
      t.destination = "Paris" ∧
      listTrips (createTrip emptyStore 5000 1 parisBody).1 1 =
        ⟨200, .obj [("trips", .arr [t.toJson])]⟩ ∧
      listTrips (createTrip emptyStore 5000 1 parisBody).1 2 =
        ⟨200, .obj [("trips", .arr [])]⟩ :=
  list_own_trips_newest_first demoStore emptyStore 5000 1 2 parisBody 1748736000000
    1749081600000 rfl rfl rfl rfl (by decide)

/-! ## Get does not leak existence -/

theorem Trip.findOne_some_iff (s : Store) (oid U : ObjectId) :
    (∃ x, Trip.findOne s oid U = some x) ↔ ∃ x ∈ s.trips, x._id = oid ∧ x.userId = U := by
  unfold Trip.findOne
  constructor
  · rintro ⟨x, hx⟩
    have hmem := List.mem_of_find?_eq_some hx
    have hp := List.find?_some hx
    simp only [Bool.and_eq_true, beq_iff_eq] at hp
    exact ⟨x, hmem, hp⟩
  · rintro ⟨x, hx, hxo, hxu⟩
    cases h : List.find? (fun t => t._id == oid && t.userId == U) s.trips with
    | some y => exact ⟨y, rfl⟩
    | none =>
      rw [List.find?_eq_none] at h
      have := h x hx
      simp [hxo, hxu] at this

theorem Trip.findOne_some (s : Store) (oid U : ObjectId) (x : Trip)
    (h : Trip.findOne s oid U = some x) : x ∈ s.trips ∧ x._id = oid ∧ x.userId = U := by
  unfold Trip.findOne at h
  have hp := List.find?_some h
  simp only [Bool.and_eq_true, beq_iff_eq] at hp
  exact ⟨List.mem_of_find?_eq_some h, hp⟩

theorem getTrip_status_200_iff (E : Env) (s : Store) (U : ObjectId) (id : String)
    (oid : ObjectId) (hid : E.castObjectId id = some oid) :
    (getTrip E s U id).status = 200 ↔ ∃ x, Trip.findOne s oid U = some x := by
  cases h : Trip.findOne s oid U with
  | none => simp [getTrip, hid, h]
  | some x => simp [getTrip, hid, h]

/-- C14: for an id that casts to an ObjectId, Get under a caller answers the same
404 `Trip not found` on a store where the trip exists with another owner as on a store
where no trip has that id; and on every store Get answers 200 exactly when a trip with
that id owned by the caller exists, and then with that trip. -/
theorem get_no_existence_leak (E : Env) (s₁ s₂ : Store) (U : ObjectId) (id : String)
    (oid : ObjectId) (t : Trip)
    (hid : E.castObjectId id = some oid)
    (huniq : s₁.tripIdsUnique) (ht : t ∈ s₁.trips) (hto : t._id = oid) (hother : U ≠ t.userId)
    (habsent : ∀ x ∈ s₂.trips, x._id ≠ oid) :
    getTrip E s₁ U id = getTrip E s₂ U id ∧
    getTrip E s₁ U id = ⟨404, errorBody "Trip not found"⟩ ∧
    (∀ s : Store, (getTrip E s U id).status = 200 ↔
      ∃ x ∈ s.trips, x._id = oid ∧ x.userId = U) ∧
    (∀ (s : Store) (x : Trip), Trip.findOne s oid U = some x →
      getTrip E s U id = ⟨200, .obj [("trip", x.toJson)]⟩) := by
  have h1 : Trip.findOne s₁ oid U = none := by
    rw [← hto]; exact Trip.findOne_other_owner s₁ t U huniq ht hother
  have h2 : Trip.findOne s₂ oid U = none := by
    unfold Trip.findOne
    rw [List.find?_eq_none]
    intro x hx
    simp [habsent x hx]
  have hg1 : getTrip E s₁ U id = ⟨404, errorBody "Trip not found"⟩ := by
    simp [getTrip, hid, h1]
  have hg2 : getTrip E s₂ U id = ⟨404, errorBody "Trip not found"⟩ := by
    simp [getTrip, hid, h2]
  refine ⟨by rw [hg1, hg2], hg1, ?_, ?_⟩
  · intro s
    rw [getTrip_status_200_iff E s U id oid hid, Trip.findOne_some_iff]
  · intro s x hx
    simp [getTrip, hid, hx]

/-- C14 at a concrete input: user 2 asks for the Paris trip of user 1, and for the same id
on the empty store. -/
theorem get_no_existence_leak_witness :
    getTrip demoEnv demoStore 2 "42" = getTrip demoEnv emptyStore 2 "42" ∧
    getTrip demoEnv demoStore 2 "42" = ⟨404, errorBody "Trip not found"⟩ ∧
    (∀ s : Store, (getTrip demoEnv s 2 "42").status = 200 ↔
      ∃ x ∈ s.trips, x._id = 42 ∧ x.userId = 2) ∧
    (∀ (s : Store) (x : Trip), Trip.findOne s 42 2 = some x →
      getTrip demoEnv s 2 "42" = ⟨200, .obj [("trip", x.toJson)]⟩) :=
  get_no_existence_leak demoEnv demoStore emptyStore 2 "42" 42 parisTrip (by decide)
    (by simp [Store.tripIdsUnique, demoStore]) (by simp [demoStore]) rfl (by decide)
    (by simp [emptyStore])

/-! ## Update -/

theorem find?_replaceFirst (p : Trip → Bool) (g : Trip → Trip) (l : List Trip) (t : Trip)
    (h : l.find? p = some t) (hg : p (g t) = true) :
    (replaceFirst p g l).find? p = some (g t) := by
  induction l with
  | nil => simp at h
  | cons x xs ih =>
    by_cases hx : p x = true
    · have hxt : x = t := by simpa [List.find?_cons, hx] using h
      subst hxt
      simp [replaceFirst, hx, List.find?_cons, hg]
    · have hx' : p x = false := by simpa using hx
      have hxs : xs.find? p = some t := by simpa [List.find?_cons, hx'] using h
      simp [replaceFirst, hx', List.find?_cons, ih hxs]

/-- C15 as stated fails: user 1 updates the own Paris trip with a patch that names user 2
in `userId`; the update answers 200, and the following Get under user 1 does not return
the representation the update returned (it answers 404). -/
theorem update_transfer_then_get :
    (updateTrip demoEnv demoStore 1 "42" transferPatch).2.status = 200 ∧
    getTrip demoEnv (updateTrip demoEnv demoStore 1 "42" transferPatch).1 1 "42" ≠
      (updateTrip demoEnv demoStore 1 "42" transferPatch).2 ∧
    (getTrip demoEnv (updateTrip demoEnv demoStore 1 "42" transferPatch).1 1 "42").status
      = 404 := by
  refine ⟨by decide, ?_, by decide⟩
  intro h
  have := congrArg Response.status h
  revert this
  decide

/-- C15, amended: for a patch that names no other owner (no `userId`, or the caller), Update
of a trip `t` owned by the caller answers 200 with `t` patched: every field the patch
names has the value of the patch, every other field and the id are those of `t`; the
following Get under the caller answers 200 with the same representation. When the caller
owns no trip with that id, Update answers 404 and the store is unchanged. -/
theorem update_round_trip (E : Env) (s : Store) (U : ObjectId) (id : String) (oid : ObjectId)
    (body : TripPatch)
    (hid : E.castObjectId id = some oid)
    (hown : body.userId = none ∨ body.userId = some U) :
    (∀ t : Trip, Trip.findOne s oid U = some t →
      (updateTrip E s U id body).2 = ⟨200, .obj [("trip", (t.applyPatch body).toJson)]⟩ ∧
      getTrip E (updateTrip E s U id body).1 U id =
        ⟨200, .obj [("trip", (t.applyPatch body).toJson)]⟩ ∧
      (t.applyPatch body)._id = t._id ∧ (t.applyPatch body).userId = U ∧
      (t.applyPatch body).destination = body.destination.getD t.destination ∧
      (t.applyPatch body).startDate = body.startDate.getD t.startDate ∧
      (t.applyPatch body).endDate = body.endDate.getD t.endDate ∧
      (t.applyPatch body).itinerary = body.itinerary.getD t.itinerary ∧
      (t.applyPatch body).packingList = body.packingList.getD t.packingList ∧
      (∀ a, body.accommodation = some a → (t.applyPatch body).accommodation = some a) ∧
      (body.accommodation = none → (t.applyPatch body).accommodation = t.accommodation) ∧
      (t.applyPatch body).restaurants = body.restaurants.getD t.restaurants ∧
      (t.applyPatch body).events = body.events.getD t.events ∧
      (t.applyPatch body).createdAt = body.createdAt.getD t.createdAt) ∧
    (Trip.findOne s oid U = none →
      updateTrip E s U id body = (s, ⟨404, errorBody "Trip not found"⟩)) := by
  constructor
  · intro t ht
    obtain ⟨-, hto, htu⟩ := Trip.findOne_some s oid U t ht
    have huser : (t.applyPatch body).userId = U := by
      rcases hown with h | h <;> simp [Trip.applyPatch, h, htu]
    have hupd2 : (updateTrip E s U id body).2 =
        ⟨200, .obj [("trip", (t.applyPatch body).toJson)]⟩ := by
      simp [updateTrip, hid, ht]
    have hupd1 : (updateTrip E s U id body).1.trips =
        replaceFirst (fun x => x._id == oid && x.userId == U)
          (fun x => x.applyPatch body) s.trips := by
      simp [updateTrip, hid, ht]
    have hmatch : (fun x : Trip => x._id == oid && x.userId == U) (t.applyPatch body)
        = true := by
      have : (t.applyPatch body)._id = oid := hto
      simp [this, huser]
    have hfind : Trip.findOne (updateTrip E s U id body).1 oid U =
        some (t.applyPatch body) := by
      unfold Trip.findOne at ht ⊢
      rw [hupd1]
      exact find?_replaceFirst _ _ s.trips t ht hmatch
    refine ⟨hupd2, ?_, rfl, huser, rfl, rfl, rfl, rfl, rfl, ?_, ?_, rfl, rfl, rfl⟩
    · simp [getTrip, hid, hfind]
    · intro a ha
      simp [Trip.applyPatch, ha]
    · intro ha
      simp [Trip.applyPatch, ha]
  · intro hnone
    simp [updateTrip, hid, hnone]

/-- C15, amended, at a concrete input: user 1 patches the Paris trip, id 42, with a patch
that names Rome as destination, a later end date and the id of user 1; the response and the
following Get carry the patched trip, whose other fields are those of the Paris trip. The
same patch sent for id 99, which no trip has, answers 404 and leaves the store alone. -/
theorem update_round_trip_witness :
    (Trip.findOne demoStore 42 1 = some parisTrip ∧
      (updateTrip demoEnv demoStore 1 "42" romePatch).2 =
        ⟨200, .obj [("trip", (parisTrip.applyPatch romePatch).toJson)]⟩ ∧
      getTrip demoEnv (updateTrip demoEnv demoStore 1 "42" romePatch).1 1 "42" =
        ⟨200, .obj [("trip", (parisTrip.applyPatch romePatch).toJson)]⟩ ∧
      (parisTrip.applyPatch romePatch)._id = 42 ∧
      (parisTrip.applyPatch romePatch).userId = 1 ∧
      (parisTrip.applyPatch romePatch).destination = "Rome" ∧
      (parisTrip.applyPatch romePatch).startDate = parisTrip.startDate ∧
      (parisTrip.applyPatch romePatch).endDate = 1749168000000 ∧
      (parisTrip.applyPatch romePatch).itinerary = parisTrip.itinerary ∧
      (parisTrip.applyPatch romePatch).packingList = parisTrip.packingList ∧
      (∀ a, romePatch.accommodation = some a →
        (parisTrip.applyPatch romePatch).accommodation = some a) ∧
      (romePatch.accommodation = none →
        (parisTrip.applyPatch romePatch).accommodation = parisTrip.accommodation) ∧
      (parisTrip.applyPatch romePatch).restaurants = parisTrip.restaurants ∧
      (parisTrip.applyPatch romePatch).events = parisTrip.events ∧
      (parisTrip.applyPatch romePatch).createdAt = parisTrip.createdAt) ∧
    (Trip.findOne demoStore 99 1 = none ∧
      updateTrip demoEnv demoStore 1 "99" romePatch =
        (demoStore, ⟨404, errorBody "Trip not found"⟩)) :=
  ⟨⟨rfl, (update_round_trip demoEnv demoStore 1 "42" 42 romePatch (by decide)
      (Or.inr rfl)).1 parisTrip rfl⟩,
    ⟨rfl, (update_round_trip demoEnv demoStore 1 "99" 99 romePatch (by decide)
      (Or.inr rfl)).2 rfl⟩⟩

/-! ## Delete -/

theorem removeFirst_eq_filter (oid U : ObjectId) (l : List Trip) (t : Trip)
    (hnodup : (l.map fun x => x._id).Nodup)
    (h : l.find? (fun x => x._id == oid && x.userId == U) = some t) :
    removeFirst (fun x => x._id == oid && x.userId == U) l =
      l.filter (fun x => x._id != oid) := by
  induction l with
  | nil => simp at h
  | cons x xs ih =>
    rw [List.map_cons, List.nodup_cons] at hnodup
    obtain ⟨hx, hxs⟩ := hnodup
    by_cases hp : (x._id == oid && x.userId == U) = true
    · have hxo : x._id = oid := by
        simp only [Bool.and_eq_true, beq_iff_eq] at hp; exact hp.1
      have hxu : x.userId = U := by
        simp only [Bool.and_eq_true, beq_iff_eq] at hp; exact hp.2
      have hall : ∀ y ∈ xs, (y._id != oid) = true := by
        intro y hy
        simp only [bne_iff_ne, ne_eq]
        intro hyo
        exact hx (List.mem_map.mpr ⟨y, hy, by rw [hyo, hxo]⟩)
      simp [removeFirst, List.filter_cons, hxo, hxu, List.filter_eq_self.mpr hall]
    · have hp' : (x._id == oid && x.userId == U) = false := by simpa using hp
      have hfind : xs.find? (fun x => x._id == oid && x.userId == U) = some t := by
        simpa [List.find?_cons, hp'] using h
      have htm := List.mem_of_find?_eq_some hfind
      have hto : t._id = oid := by
        have := List.find?_some hfind
        simp only [Bool.and_eq_true, beq_iff_eq] at this; exact this.1
      have hxo : x._id ≠ oid := by
        intro hxo
        exact hx (List.mem_map.mpr ⟨t, htm, by rw [hto, hxo]⟩)
      simp [removeFirst, hp', List.filter_cons, hxo, ih hxs hfind]

/-- C16: on a store with unique trip ids, Delete of a trip `t` owned by the caller answers
200 `Trip deleted`, removes `t` and keeps every other trip, in order, and the users; Get
and a second Delete on the same id then answer 404. When the caller owns no trip with
that id, Delete answers 404 and the store is unchanged. -/
theorem delete_exactly_own_trip (E : Env) (s : Store) (U : ObjectId) (id : String)
    (oid : ObjectId)
    (hid : E.castObjectId id = some oid) (huniq : s.tripIdsUnique) :
    (∀ t : Trip, Trip.findOne s oid U = some t →
      (deleteTrip E s U id).2 = ⟨200, .obj [("message", .str "Trip deleted")]⟩ ∧
      (deleteTrip E s U id).1.trips = s.trips.filter (fun x => x._id != oid) ∧
      t ∉ (deleteTrip E s U id).1.trips ∧
      (∀ x ∈ s.trips, x ≠ t → x ∈ (deleteTrip E s U id).1.trips) ∧
      (∀ x ∈ (deleteTrip E s U id).1.trips, x ∈ s.trips) ∧
      (deleteTrip E s U id).1.users = s.users ∧
      getTrip E (deleteTrip E s U id).1 U id = ⟨404, errorBody "Trip not found"⟩ ∧
      deleteTrip E (deleteTrip E s U id).1 U id =
        ((deleteTrip E s U id).1, ⟨404, errorBody "Trip not found"⟩)) ∧
    (Trip.findOne s oid U = none →
      deleteTrip E s U id = (s, ⟨404, errorBody "Trip not found"⟩)) := by
  constructor
  · intro t ht
    obtain ⟨htm, hto, -⟩ := Trip.findOne_some s oid U t ht
    have hrem := removeFirst_eq_filter oid U s.trips t huniq ht
    have hdel : deleteTrip E s U id =
        ({ s with trips := s.trips.filter (fun x => x._id != oid) },
          ⟨200, .obj [("message", .str "Trip deleted")]⟩) := by
      simp [deleteTrip, hid, ht, hrem]
    have hgone : Trip.findOne { s with trips := s.trips.filter (fun x => x._id != oid) }
        oid U = none := by
      unfold Trip.findOne
      rw [List.find?_eq_none]
      intro x hx
      have := (List.mem_filter.mp hx).2
      simp only [bne_iff_ne, ne_eq] at this
      simp [this]
    rw [hdel]
    refine ⟨rfl, rfl, ?_, ?_, ?_, rfl, ?_, ?_⟩
    · intro hmem
      have := (List.mem_filter.mp hmem).2
      simp [hto] at this
    · intro x hx hxt
      refine List.mem_filter.mpr ⟨hx, ?_⟩
      simp only [bne_iff_ne, ne_eq]
      intro hxo
      exact hxt (List.inj_on_of_nodup_map huniq hx htm (by rw [hxo, hto]))
    · intro x hx
      exact (List.mem_filter.mp hx).1
    · simp [getTrip, hid, hgone]
    · simp [deleteTrip, hid, hgone]
  · intro hnone
    simp [deleteTrip, hid, hnone]

/-- C16 at a concrete input: user 1 deletes the Paris trip. -/
theorem delete_exactly_own_trip_witness :
    (∀ t : Trip, Trip.findOne demoStore 42 1 = some t →
      (deleteTrip demoEnv demoStore 1 "42").2 =
        ⟨200, .obj [("message", .str "Trip deleted")]⟩ ∧
      (deleteTrip demoEnv demoStore 1 "42").1.trips =
        demoStore.trips.filter (fun x => x._id != 42) ∧
      t ∉ (deleteTrip demoEnv demoStore 1 "42").1.trips ∧
      (∀ x ∈ demoStore.trips, x ≠ t → x ∈ (deleteTrip demoEnv demoStore 1 "42").1.trips) ∧
      (∀ x ∈ (deleteTrip demoEnv demoStore 1 "42").1.trips, x ∈ demoStore.trips) ∧
      (deleteTrip demoEnv demoStore 1 "42").1.users = demoStore.users ∧
      getTrip demoEnv (deleteTrip demoEnv demoStore 1 "42").1 1 "42" =
        ⟨404, errorBody "Trip not found"⟩ ∧
      deleteTrip demoEnv (deleteTrip demoEnv demoStore 1 "42").1 1 "42" =
        ((deleteTrip demoEnv demoStore 1 "42").1, ⟨404, errorBody "Trip not found"⟩)) ∧
    (Trip.findOne demoStore 42 1 = none →
      deleteTrip demoEnv demoStore 1 "42" =
        (demoStore, ⟨404, errorBody "Trip not found"⟩)) :=
  delete_exactly_own_trip demoEnv demoStore 1 "42" 42 (by decide)
    (by simp [Store.tripIdsUnique, demoStore])

/-! ## Email uniqueness -/

theorem signup_users (E : Env) (s : Store) (now salt : Nat)
    (name email password : Option String) :
    (signup E s now salt name email password).1.users = s.users ∨
    ∃ u : User, (signup E s now salt name email password).1.users = s.users ++ [u] ∧
      ∀ v ∈ s.users, v.email ≠ u.email := by
  unfold signup
  split
  · exact Or.inl rfl
  · split
    · exact Or.inl rfl
    · simp only [jwtSign_30d]
      split
      · exact Or.inl rfl
      · rename_i s' hsave
        right
        unfold User.save at hsave
        split at hsave
        · cases hsave
        · split at hsave
          · cases hsave
          · rename_i hany
            cases hsave
            refine ⟨_, rfl, ?_⟩
            intro v hv hve
            apply hany
            exact List.any_eq_true.mpr ⟨v, hv, by simpa using hve⟩

theorem withAuth_users (E : Env) (now : Nat) (authorization : Option String) (s : Store)
    (handler : ObjectId → Store × Response)
    (h : ∀ userId, (handler userId).1.users = s.users) :
    (withAuth E now authorization (fun res => (s, res)) handler).1.users = s.users := by
  unfold withAuth
  split
  · rfl
  · exact h _

theorem createTrip_users (s : Store) (now : Nat) (U : ObjectId) (body : TripPatch) :
    (createTrip s now U body).1.users = s.users := by
  rcases createTrip_cases s now U body with h | ⟨t, -, -, h⟩
  · rw [h]
  · rw [h]; rfl

theorem updateTrip_users (E : Env) (s : Store) (U : ObjectId) (id : String)
    (body : TripPatch) : (updateTrip E s U id body).1.users = s.users := by
  unfold updateTrip
  split
  · rfl
  · split <;> rfl

theorem deleteTrip_users (E : Env) (s : Store) (U : ObjectId) (id : String) :
    (deleteTrip E s U id).1.users = s.users := by
  unfold deleteTrip
  split
  · rfl
  · split <;> rfl

theorem saveHistory_users (s : Store) (now : Nat) (writeOk : Bool) (location : String)
    (data : CurrentData) : (saveHistory s now writeOk location data).users = s.users := by
  unfold saveHistory
  split <;> rfl

theorem weatherCoords_users (W : WeatherEnv) (up : Upstream) (s : Store) (now : Nat)
    (writeOk : Bool) (lat lon : Option String) :
    (weatherCoords W up s now writeOk lat lon).1.users = s.users := by
  unfold weatherCoords
  split
  · rfl
  · split
    · rfl
    · simp only []
      split
      · rfl
      · split
        · rfl
        · exact saveHistory_users _ _ _ _ _

theorem weatherLocation_users (W : WeatherEnv) (up : Upstream) (s : Store) (now : Nat)
    (writeOk : Bool) (location : Option String) :
    (weatherLocation W up s now writeOk location).1.users = s.users := by
  unfold weatherLocation
  split
  · rfl
  · split
    · rfl
    · simp only []
      split
      · rfl
      · split
        · rfl
        · exact saveHistory_users _ _ _ _ _

theorem handle_users (S : Server) (s : Store) (r : Request) :
    (handle S s r).1.users = s.users ∨
    ∃ u : User, (handle S s r).1.users = s.users ++ [u] ∧ ∀ v ∈ s.users, v.email ≠ u.email := by
  cases r with
  | signup now salt name email password => exact signup_users S.env s now salt name email password
  | weatherCoords now writeOk lat lon => exact Or.inl (weatherCoords_users _ _ _ _ _ _ _)
  | weatherLocation now writeOk location => exact Or.inl (weatherLocation_users _ _ _ _ _ _)
  | createTrip now authorization body =>
    exact Or.inl (withAuth_users _ _ _ _ _ (fun _ => createTrip_users _ _ _ _))
  | listTrips now authorization => exact Or.inl (withAuth_users _ _ _ _ _ (fun _ => rfl))
  | getTrip now authorization id => exact Or.inl (withAuth_users _ _ _ _ _ (fun _ => rfl))
  | updateTrip now authorization id body =>
    exact Or.inl (withAuth_users _ _ _ _ _ (fun _ => updateTrip_users _ _ _ _ _))
  | deleteTrip now authorization id =>
    exact Or.inl (withAuth_users _ _ _ _ _ (fun _ => deleteTrip_users _ _ _ _))
  | _ => exact Or.inl rfl

theorem handle_emails_nodup (S : Server) (s : Store) (r : Request)
    (h : (s.users.map fun u => u.email).Nodup) :
    ((handle S s r).1.users.map fun u => u.email).Nodup := by
  rcases handle_users S s r with hu | ⟨u, hu, hfresh⟩
  · rw [hu]; exact h
  · rw [hu, List.map_append, List.nodup_append]
    refine ⟨h, by simp, ?_⟩
    intro a ha hb
    simp only [List.map_cons, List.map_nil, List.mem_singleton] at hb
    obtain ⟨v, hv, hve⟩ := List.mem_map.mp ha
    exact hfresh v hv (by rw [hve, hb])

theorem run_emails_nodup (S : Server) (requests : List Request) (s : Store)
    (h : (s.users.map fun u => u.email).Nodup) :
    ((run S s requests).users.map fun u => u.email).Nodup := by
  induction requests generalizing s with
  | nil => exact h
  | cons r rs ih => exact ih _ (handle_emails_nodup S s r h)

/-- C17: starting from a store without users, after any sequence of requests to the
routes of the server (signup, login, me, the trip routes and all others), the emails of
the stored users are pairwise distinct: two stored users with the same email are the same
document. -/
theorem email_unique_invariant (S : Server) (s0 : Store) (requests : List Request)
    (hempty : s0.users = []) :
    ((run S s0 requests).users.map fun u => u.email).Nodup ∧
    ∀ u ∈ (run S s0 requests).users, ∀ v ∈ (run S s0 requests).users,
      u.email = v.email → u = v := by
  have h := run_emails_nodup S requests s0 (by rw [hempty]; exact List.nodup_nil)
  exact ⟨h, fun u hu v hv he => List.inj_on_of_nodup_map h hu hv he⟩

/-- C17 at a concrete input: Ann signs up twice and logs in. -/
theorem email_unique_invariant_witness :
    ((run demoServer emptyStore
        [.signup 5000 7 (some "Ann") (some "ann@x.com") (some "pw123456"),
          .signup 6000 8 (some "Ann B") (some "ann@x.com") (some "other"),
          .login 7000 (some "ann@x.com") (some "pw123456")]).users.map
      fun u => u.email).Nodup ∧
    ∀ u ∈ (run demoServer emptyStore
        [.signup 5000 7 (some "Ann") (some "ann@x.com") (some "pw123456"),
          .signup 6000 8 (some "Ann B") (some "ann@x.com") (some "other"),
          .login 7000 (some "ann@x.com") (some "pw123456")]).users,
      ∀ v ∈ (run demoServer emptyStore
        [.signup 5000 7 (some "Ann") (some "ann@x.com") (some "pw123456"),
          .signup 6000 8 (some "Ann B") (some "ann@x.com") (some "other"),
          .login 7000 (some "ann@x.com") (some "pw123456")]).users,
      u.email = v.email → u = v :=
  email_unique_invariant demoServer emptyStore _ rfl

/-! ## Best-effort history write -/

theorem weatherCoords_response_indep (W : WeatherEnv) (up : Upstream) (s : Store) (now : Nat)
    (writeOk : Bool) (lat lon : Option String) :
    (weatherCoords W up s now writeOk lat lon).2 =
      (weatherCoords W up s now false lat lon).2 := by
  unfold weatherCoords
  split
  · rfl
  · split
    · rfl
    · simp only []
      split
      · rfl
      · split <;> rfl

theorem weatherLocation_response_indep (W : WeatherEnv) (up : Upstream) (s : Store)
    (now : Nat) (writeOk : Bool) (location : Option String) :
    (weatherLocation W up s now writeOk location).2 =
      (weatherLocation W up s now false location).2 := by
  unfold weatherLocation
  split
  · rfl
  · split
    · rfl
    · simp only []
      split
      · rfl
      · split <;> rfl

/-- C18: for both weather lookups the response does not depend on whether the history
write succeeds or throws; when the query parameters and the API key are set and the
weather and forecast calls succeed, it is the 200 body with `current`, `forecast` and
`coords` in either case, and a failed write leaves the store as it was. -/
theorem history_write_best_effort (W : WeatherEnv) (up : Upstream) (s : Store) (now : Nat)
    (lat lon location key : String) (data geo : CurrentData) (list list' : List ForecastItem)
    (hlat : lat ≠ "") (hlon : lon ≠ "") (hloc : location ≠ "")
    (hkey : W.WEATHER_API_KEY = some key) (hk : key ≠ "")
    (hw : up.getWeather (.obj [("lat", .str lat), ("lon", .str lon), ("appid", .str key),
      ("units", .str "metric")]) = some data)
    (hf : up.getForecast (.obj [("lat", .str lat), ("lon", .str lon), ("appid", .str key),
      ("units", .str "metric")]) = some list)
    (hg : up.getWeather (.obj [("q", .str location), ("appid", .str key),
      ("units", .str "metric")]) = some geo)
    (hf' : up.getForecast (.obj [("lat", .dec geo.lat), ("lon", .dec geo.lon),
      ("appid", .str key), ("units", .str "metric")]) = some list') :
    (∀ writeOk : Bool, (weatherCoords W up s now writeOk (some lat) (some lon)).2 =
      ⟨200, .obj [("current", buildCurrent data "Unknown"
          (up.getAirPollution (.obj [("lat", .str lat), ("lon", .str lon),
            ("appid", .str key)]))),
        ("forecast", .arr (buildForecast W list)),
        ("coords", .obj [("lat", .str lat), ("lon", .str lon)])]⟩) ∧
    (∀ writeOk : Bool, (weatherLocation W up s now writeOk (some location)).2 =
      ⟨200, .obj [("current", buildCurrent geo location
          (up.getAirPollution (.obj [("lat", .dec geo.lat), ("lon", .dec geo.lon),
            ("appid", .str key)]))),
        ("forecast", .arr (buildForecast W list')),
        ("coords", .obj [("lat", .dec geo.lat), ("lon", .dec geo.lon)])]⟩) ∧
    (weatherCoords W up s now true (some lat) (some lon)).2 =
      (weatherCoords W up s now false (some lat) (some lon)).2 ∧
    (weatherLocation W up s now true (some location)).2 =
      (weatherLocation W up s now false (some location)).2 ∧
    (weatherCoords W up s now false (some lat) (some lon)).1 = s ∧
    (weatherLocation W up s now false (some location)).1 = s ∧
    (∀ (writeOk : Bool) (lat' lon' location' : Option String),
      (weatherCoords W up s now writeOk lat' lon').2 =
        (weatherCoords W up s now false lat' lon').2 ∧
      (weatherLocation W up s now writeOk location').2 =
        (weatherLocation W up s now false location').2) := by
  have hc : ∀ writeOk : Bool, (weatherCoords W up s now writeOk (some lat) (some lon)).2 =
      ⟨200, .obj [("current", buildCurrent data "Unknown"
          (up.getAirPollution (.obj [("lat", .str lat), ("lon", .str lon),
            ("appid", .str key)]))),
        ("forecast", .arr (buildForecast W list)),
        ("coords", .obj [("lat", .str lat), ("lon", .str lon)])]⟩ := by
    intro writeOk
    simp [weatherCoords, falsy_some, hlat, hlon, hkey, hk, hw, hf]
  have hl : ∀ writeOk : Bool, (weatherLocation W up s now writeOk (some location)).2 =
      ⟨200, .obj [("current", buildCurrent geo location
          (up.getAirPollution (.obj [("lat", .dec geo.lat), ("lon", .dec geo.lon),
            ("appid", .str key)]))),
        ("forecast", .arr (buildForecast W list')),
        ("coords", .obj [("lat", .dec geo.lat), ("lon", .dec geo.lon)])]⟩ := by
    intro writeOk
    simp [weatherLocation, falsy_some, hloc, hkey, hk, hg, hf']
  refine ⟨hc, hl, by rw [hc true, hc false], by rw [hl true, hl false], ?_, ?_, ?_⟩
  · simp [weatherCoords, falsy_some, hlat, hlon, hkey, hk, hw, hf, saveHistory]
  · simp [weatherLocation, falsy_some, hloc, hkey, hk, hg, hf', saveHistory]
  · intro writeOk lat' lon' location'
    exact ⟨weatherCoords_response_indep W up s now writeOk lat' lon',
      weatherLocation_response_indep W up s now writeOk location'⟩

/-- C18 at a concrete input: the lookups for Paris, with the provider answering. -/
theorem history_write_best_effort_witness :
    (∀ writeOk : Bool,
      (weatherCoords demoWeatherEnv demoUpstream demoStore 5000 writeOk (some "48.85")
        (some "2.35")).2 =
      ⟨200, .obj [("current", buildCurrent parisWeather "Unknown"
          (demoUpstream.getAirPollution (.obj [("lat", .str "48.85"), ("lon", .str "2.35"),
            ("appid", .str "weather-key")]))),
        ("forecast", .arr (buildForecast demoWeatherEnv parisForecast)),
        ("coords", .obj [("lat", .str "48.85"), ("lon", .str "2.35")])]⟩) ∧
    (∀ writeOk : Bool,
      (weatherLocation demoWeatherEnv demoUpstream demoStore 5000 writeOk (some "Paris")).2 =
      ⟨200, .obj [("current", buildCurrent parisWeather "Paris"
          (demoUpstream.getAirPollution (.obj [("lat", .dec parisWeather.lat),
            ("lon", .dec parisWeather.lon), ("appid", .str "weather-key")]))),
        ("forecast", .arr (buildForecast demoWeatherEnv parisForecast)),
        ("coords", .obj [("lat", .dec parisWeather.lat), ("lon", .dec parisWeather.lon)])]⟩) ∧
    (weatherCoords demoWeatherEnv demoUpstream demoStore 5000 true (some "48.85")
        (some "2.35")).2 =
      (weatherCoords demoWeatherEnv demoUpstream demoStore 5000 false (some "48.85")
        (some "2.35")).2 ∧
    (weatherLocation demoWeatherEnv demoUpstream demoStore 5000 true (some "Paris")).2 =
      (weatherLocation demoWeatherEnv demoUpstream demoStore 5000 false (some "Paris")).2 ∧
    (weatherCoords demoWeatherEnv demoUpstream demoStore 5000 false (some "48.85")
        (some "2.35")).1 = demoStore ∧
    (weatherLocation demoWeatherEnv demoUpstream demoStore 5000 false (some "Paris")).1 =
      demoStore ∧
    (∀ (writeOk : Bool) (lat' lon' location' : Option String),
      (weatherCoords demoWeatherEnv demoUpstream demoStore 5000 writeOk lat' lon').2 =
        (weatherCoords demoWeatherEnv demoUpstream demoStore 5000 false lat' lon').2 ∧
      (weatherLocation demoWeatherEnv demoUpstream demoStore 5000 writeOk location').2 =
        (weatherLocation demoWeatherEnv demoUpstream demoStore 5000 false location').2) :=
  history_write_best_effort demoWeatherEnv demoUpstream demoStore 5000 "48.85" "2.35" "Paris"
    "weather-key" parisWeather parisWeather parisForecast parisForecast
    (by decide) (by decide) (by decide) rfl (by decide) rfl rfl rfl rfl

/-! ## Shape of the failure responses -/

theorem isErrorShaped_mk (status : Nat) (msg : String)
    (hs : status ∈ [400, 401, 404, 500]) (hm : msg ∈ errorMessages) :
    Response.isErrorShaped ⟨status, errorBody msg⟩ :=
  ⟨hs, msg, hm, rfl⟩

theorem authMiddleware_shape (E : Env) (now : Nat) (authorization : Option String)
    (res : Response) (h : authMiddleware E now authorization = .respond res) :
    res.isErrorShaped := by
  rcases authMiddleware_cases E now authorization with h1 | h1 | ⟨uid, h1⟩ <;>
    rw [h1] at h <;> cases h
  · exact isErrorShaped_mk _ _ (by decide) (by decide)
  · exact isErrorShaped_mk _ _ (by decide) (by decide)

theorem withAuth_shape (E : Env) (now : Nat) (authorization : Option String) (s : Store)
    (handler : ObjectId → Store × Response)
    (h : ∀ userId, (handler userId).2.status = 200 ∨ (handler userId).2.isErrorShaped) :
    (withAuth E now authorization (fun res => (s, res)) handler).2.status = 200 ∨
    (withAuth E now authorization (fun res => (s, res)) handler).2.isErrorShaped := by
  unfold withAuth
  split
  · rename_i res hres
    exact Or.inr (authMiddleware_shape E now authorization res hres)
  · exact h _

theorem signup_shape (E : Env) (s : Store) (now salt : Nat)
    (name email password : Option String) :
    (signup E s now salt name email password).2.status = 200 ∨
    (signup E s now salt name email password).2.isErrorShaped := by
  rcases signup_cases E s now salt name email password with h | h | h | h <;> rw [h]
  · exact Or.inr (isErrorShaped_mk _ _ (by decide) (by decide))
  · exact Or.inr (isErrorShaped_mk _ _ (by decide) (by decide))
  · exact Or.inr (isErrorShaped_mk _ _ (by decide) (by decide))
  · exact Or.inl rfl

theorem login_shape (E : Env) (s : Store) (now : Nat) (email password : Option String) :
    (login E s now email password).status = 200 ∨
    (login E s now email password).isErrorShaped := by
  rcases login_cases E s now email password with h | h | ⟨user, -, h⟩ <;> rw [h]
  · exact Or.inr (isErrorShaped_mk _ _ (by decide) (by decide))
  · exact Or.inr (isErrorShaped_mk _ _ (by decide) (by decide))
  · exact Or.inl rfl

theorem me_shape (E : Env) (s : Store) (now : Nat) (authorization : Option String) :
    (me E s now authorization).status = 200 ∨ (me E s now authorization).isErrorShaped := by
  unfold me
  split
  · rename_i res hres
    exact Or.inr (authMiddleware_shape E now authorization res hres)
  · unfold meHandler
    split
    · exact Or.inr (isErrorShaped_mk _ _ (by decide) (by decide))
    · exact Or.inl rfl

theorem weatherCoords_shape (W : WeatherEnv) (up : Upstream) (s : Store) (now : Nat)
    (writeOk : Bool) (lat lon : Option String) :
    (weatherCoords W up s now writeOk lat lon).2.status = 200 ∨
    (weatherCoords W up s now writeOk lat lon).2.isErrorShaped := by
  unfold weatherCoords
  split
  · exact Or.inr (isErrorShaped_mk _ _ (by decide) (by decide))
  · split
    · exact Or.inr (isErrorShaped_mk _ _ (by decide) (by decide))
    · simp only []
      split
      · exact Or.inr (isErrorShaped_mk _ _ (by decide) (by decide))
      · split
        · exact Or.inr (isErrorShaped_mk _ _ (by decide) (by decide))
        · exact Or.inl rfl

theorem weatherLocation_shape (W : WeatherEnv) (up : Upstream) (s : Store) (now : Nat)
    (writeOk : Bool) (location : Option String) :
    (weatherLocation W up s now writeOk location).2.status = 200 ∨
    (weatherLocation W up s now writeOk location).2.isErrorShaped := by
  unfold weatherLocation
  split
  · exact Or.inr (isErrorShaped_mk _ _ (by decide) (by decide))
  · split
    · exact Or.inr (isErrorShaped_mk _ _ (by decide) (by decide))
    · simp only []
      split
      · exact Or.inr (isErrorShaped_mk _ _ (by decide) (by decide))
      · split
        · exact Or.inr (isErrorShaped_mk _ _ (by decide) (by decide))
        · exact Or.inl rfl

theorem weatherHistory_shape (J : JsRuntime) (s : Store) (now : Nat)
    (location days : Option String) :
    (weatherHistory J s now location days).status = 200 ∨
    (weatherHistory J s now location days).isErrorShaped := by
  unfold weatherHistory
  simp only []
  split
  · exact Or.inr (isErrorShaped_mk _ _ (by decide) (by decide))
  · split
    · exact Or.inr (isErrorShaped_mk _ _ (by decide) (by decide))
    · exact Or.inl rfl

theorem route_shape (W : WeatherEnv) (J : JsRuntime) (up : Upstream)
    (source destination sourceLat sourceLon : Option String) :
    (route W J up source destination sourceLat sourceLon).status = 200 ∨
    (route W J up source destination sourceLat sourceLon).isErrorShaped := by
  unfold route
  split
  · exact Or.inr (isErrorShaped_mk _ _ (by decide) (by decide))
  · split
    · exact Or.inr (isErrorShaped_mk _ _ (by decide) (by decide))
    · split
      · exact Or.inr (isErrorShaped_mk _ _ (by decide) (by decide))
      · simp only []
        split
        · rename_i res hres
          split at hres
          · cases hres
          · split at hres
            · split at hres
              · cases hres
                exact Or.inr (isErrorShaped_mk _ _ (by decide) (by decide))
              · cases hres
            · cases hres
              exact Or.inr (isErrorShaped_mk _ _ (by decide) (by decide))
        · split
          · exact Or.inr (isErrorShaped_mk _ _ (by decide) (by decide))
          · split
            · exact Or.inr (isErrorShaped_mk _ _ (by decide) (by decide))
            · split
              · exact Or.inr (isErrorShaped_mk _ _ (by decide) (by decide))
              · exact Or.inl rfl

theorem packingList_shape (J : JsRuntime) (destination startDate endDate : Option String)
    (weather : Option PackingWeather) :
    (packingList J destination startDate endDate weather).status = 200 ∨
    (packingList J destination startDate endDate weather).isErrorShaped := by
  unfold packingList
  split
  · exact Or.inr (isErrorShaped_mk _ _ (by decide) (by decide))
  · exact Or.inl rfl

theorem chat_shape (E : Env) (J : JsRuntime) (now : Nat) (authorization : Option String)
    (message : Option String) (weather : Option ChatWeather) :
    (chat E J now authorization message weather).status = 200 ∨
    (chat E J now authorization message weather).isErrorShaped := by
  unfold chat
  simp only []
  split
  · exact Or.inr (isErrorShaped_mk _ _ (by decide) (by decide))
  · exact Or.inl rfl

theorem createTrip_shape (s : Store) (now : Nat) (U : ObjectId) (body : TripPatch) :
    (createTrip s now U body).2.status = 200 ∨ (createTrip s now U body).2.isErrorShaped := by
  rcases createTrip_cases s now U body with h | ⟨t, -, -, h⟩ <;> rw [h]
  · exact Or.inr (isErrorShaped_mk _ _ (by decide) (by decide))
  · exact Or.inl rfl

theorem getTrip_shape (E : Env) (s : Store) (U : ObjectId) (id : String) :
    (getTrip E s U id).status = 200 ∨ (getTrip E s U id).isErrorShaped := by
  unfold getTrip
  split
  · exact Or.inr (isErrorShaped_mk _ _ (by decide) (by decide))
  · split
    · exact Or.inr (isErrorShaped_mk _ _ (by decide) (by decide))
    · exact Or.inl rfl

theorem updateTrip_shape (E : Env) (s : Store) (U : ObjectId) (id : String)
    (body : TripPatch) :
    (updateTrip E s U id body).2.status = 200 ∨ (updateTrip E s U id body).2.isErrorShaped := by
  unfold updateTrip
  split
  · exact Or.inr (isErrorShaped_mk _ _ (by decide) (by decide))
  · split
    · exact Or.inr (isErrorShaped_mk _ _ (by decide) (by decide))
    · exact Or.inl rfl

theorem deleteTrip_shape (E : Env) (s : Store) (U : ObjectId) (id : String) :
    (deleteTrip E s U id).2.status = 200 ∨ (deleteTrip E s U id).2.isErrorShaped := by
  unfold deleteTrip
  split
  · exact Or.inr (isErrorShaped_mk _ _ (by decide) (by decide))
  · split
    · exact Or.inr (isErrorShaped_mk _ _ (by decide) (by decide))
    · exact Or.inl rfl

/-- C19: every response of every route of the server either has status 200 or is a
failure in the shape of the wire contract: its status is one of 400, 401, 404 and 500
and its body is the JSON object with the single member `error`, whose value is one of the
fixed messages written in the source, whatever exception was caught. -/
theorem failure_responses_shape (S : Server) (s : Store) (r : Request) :
    (handle S s r).2.status = 200 ∨
    ((handle S s r).2.status ∈ [400, 401, 404, 500] ∧
      (handle S s r).2.body.keys = ["error"] ∧
      ∃ msg ∈ errorMessages, (handle S s r).2.body = .obj [("error", .str msg)]) := by
  have key : (handle S s r).2.status = 200 ∨ (handle S s r).2.isErrorShaped := by
    cases r with
    | signup now salt name email password => exact signup_shape _ _ _ _ _ _ _
    | login now email password => exact login_shape _ _ _ _ _
    | me now authorization => exact me_shape _ _ _ _
    | weatherCoords now writeOk lat lon => exact weatherCoords_shape _ _ _ _ _ _ _
    | weatherLocation now writeOk location => exact weatherLocation_shape _ _ _ _ _ _
    | weatherHistory now location days => exact weatherHistory_shape _ _ _ _ _
    | route source destination sourceLat sourceLon => exact route_shape _ _ _ _ _ _ _
    | packingList destination startDate endDate weather => exact packingList_shape _ _ _ _ _
    | suggest destination weather => exact Or.inl rfl
    | chat now authorization message weather => exact chat_shape _ _ _ _ _ _
    | createTrip now authorization body =>
      exact withAuth_shape _ _ _ _ _ (fun _ => createTrip_shape _ _ _ _)
    | listTrips now authorization => exact withAuth_shape _ _ _ _ _ (fun _ => Or.inl rfl)
    | getTrip now authorization id =>
      exact withAuth_shape _ _ _ _ _ (fun _ => getTrip_shape _ _ _ _)
    | updateTrip now authorization id body =>
      exact withAuth_shape _ _ _ _ _ (fun _ => updateTrip_shape _ _ _ _ _)
    | deleteTrip now authorization id =>
      exact withAuth_shape _ _ _ _ _ (fun _ => deleteTrip_shape _ _ _ _)
    | placesAccommodation location => exact Or.inl rfl
    | placesRestaurants location => exact Or.inl rfl
    | placesEvents location => exact Or.inl rfl
    | health readyState => exact Or.inl rfl
  rcases key with h | ⟨hs, msg, hm, hb⟩
  · exact Or.inl h
  · exact Or.inr ⟨hs, by rw [hb]; rfl, msg, hm, hb⟩

/-! ## Create without a required field -/

/-- C20 on the code: Create under user 1 with a body that has a start and an end date
but no destination answers 500 `Failed to create trip`, not 400; no trip is stored. -/
theorem create_missing_destination_500 :
    createTrip demoStore 5000 1 noDestinationBody =
      (demoStore, ⟨500, errorBody "Failed to create trip"⟩) ∧
    (createTrip demoStore 5000 1 noDestinationBody).2.status ≠ 400 := by
  refine ⟨rfl, by decide⟩

/-! ## Update and the owner of a trip -/

/-- C21 on the code: user 1 sends a patch that names user 2 in `userId` for the own Paris
trip; after the update the stored trip is owned by user 2, Get under user 2 answers 200
and Get under user 1 answers 404. -/
theorem update_changes_owner :
    parisTrip.userId = 1 ∧
    (updateTrip demoEnv demoStore 1 "42" transferPatch).1.trips.map
      (fun t => (t._id, t.userId)) = [(42, 2)] ∧
    (getTrip demoEnv (updateTrip demoEnv demoStore 1 "42" transferPatch).1 2 "42").status
      = 200 ∧
    (getTrip demoEnv (updateTrip demoEnv demoStore 1 "42" transferPatch).1 1 "42").status
      = 404 := by
  decide

/-! ## Weather icons -/

theorem getWeatherIcon_of_code (s : String) :
    getWeatherIcon s =
      (let code := String.mk (s.data.take 2)
       if code = "01" then "sun"
       else if code = "02" then "cloud-sun"
       else if code = "03" then "cloud"
       else if code = "04" then "cloud"
       else if code = "09" then "cloud-rain"
       else if code = "10" then "cloud-rain"
       else if code = "11" then "cloud-lightning"
       else if code = "13" then "cloud-snow"
       else if code = "50" then "cloud-fog"
       else "cloud") := by
  simp [getWeatherIcon]

/-- C29: the icon name depends only on the first two characters of the code: two codes
with the same first two characters get the same name; the name is one of the seven icon
names; each of the nine known prefixes gets the name of the table (`01d` and `01n` give
`sun`, `10n` gives `cloud-rain`); and an unknown prefix, a code shorter than two
characters and the empty code give `cloud`. -/
theorem getWeatherIcon_by_prefix (s t : String) (h : s.data.take 2 = t.data.take 2) :
    getWeatherIcon s = getWeatherIcon t ∧
    getWeatherIcon s ∈ ["sun", "cloud-sun", "cloud", "cloud-rain", "cloud-lightning",
      "cloud-snow", "cloud-fog"] ∧
    (∀ code name, (code, name) ∈ [("01", "sun"), ("02", "cloud-sun"), ("03", "cloud"),
        ("04", "cloud"), ("09", "cloud-rain"), ("10", "cloud-rain"),
        ("11", "cloud-lightning"), ("13", "cloud-snow"), ("50", "cloud-fog")] →
      String.mk (s.data.take 2) = code → getWeatherIcon s = name) ∧
    getWeatherIcon "01d" = "sun" ∧ getWeatherIcon "01n" = "sun" ∧
    getWeatherIcon "10n" = "cloud-rain" ∧ getWeatherIcon "" = "cloud" ∧
    (String.mk (s.data.take 2) ∉ ["01", "02", "03", "04", "09", "10", "11", "13", "50"] →
      getWeatherIcon s = "cloud") ∧
    (s.length < 2 → getWeatherIcon s = "cloud") := by
  have hunknown : String.mk (s.data.take 2) ∉
      ["01", "02", "03", "04", "09", "10", "11", "13", "50"] → getWeatherIcon s = "cloud" := by
    intro hn
    simp only [List.mem_cons, List.mem_singleton, List.not_mem_nil, or_false, not_or] at hn
    obtain ⟨h1, h2, h3, h4, h5, h6, h7, h8, h9⟩ := hn
    rw [getWeatherIcon_of_code]
    simp [h1, h2, h3, h4, h5, h6, h7, h8, h9]
  refine ⟨?_, ?_, ?_, by decide, by decide, by decide, by decide, hunknown, ?_⟩
  · rw [getWeatherIcon_of_code, getWeatherIcon_of_code, h]
  · rw [getWeatherIcon_of_code]
    simp only []
    split_ifs <;> decide
  · intro code name hmem hcode
    rw [getWeatherIcon_of_code, hcode]
    simp only [List.mem_cons, List.mem_singleton, List.not_mem_nil, or_false,
      Prod.mk.injEq] at hmem
    rcases hmem with ⟨rfl, rfl⟩ | ⟨rfl, rfl⟩ | ⟨rfl, rfl⟩ | ⟨rfl, rfl⟩ | ⟨rfl, rfl⟩ |
      ⟨rfl, rfl⟩ | ⟨rfl, rfl⟩ | ⟨rfl, rfl⟩ | ⟨rfl, rfl⟩ <;> decide
  · intro hlen
    apply hunknown
    have hshort : (String.mk (s.data.take 2)).length < 2 := by
      simp only [String.length, List.length_take]
      have : s.data.length < 2 := hlen
      omega
    intro hmem
    simp only [List.mem_cons, List.mem_singleton, List.not_mem_nil, or_false] at hmem
    rcases hmem with h' | h' | h' | h' | h' | h' | h' | h' | h' <;>
      (rw [h'] at hshort; revert hshort; decide)

/-- C29 at a concrete input: the day and the night variant of the clear-sky icon. -/
theorem getWeatherIcon_by_prefix_witness :
    getWeatherIcon "01d" = getWeatherIcon "01n" ∧
    getWeatherIcon "01d" ∈ ["sun", "cloud-sun", "cloud", "cloud-rain", "cloud-lightning",
      "cloud-snow", "cloud-fog"] ∧
    (∀ code name, (code, name) ∈ [("01", "sun"), ("02", "cloud-sun"), ("03", "cloud"),
        ("04", "cloud"), ("09", "cloud-rain"), ("10", "cloud-rain"),
        ("11", "cloud-lightning"), ("13", "cloud-snow"), ("50", "cloud-fog")] →
      String.mk ("01d".data.take 2) = code → getWeatherIcon "01d" = name) ∧
    getWeatherIcon "01d" = "sun" ∧ getWeatherIcon "01n" = "sun" ∧
    getWeatherIcon "10n" = "cloud-rain" ∧ getWeatherIcon "" = "cloud" ∧
    (String.mk ("01d".data.take 2) ∉
        ["01", "02", "03", "04", "09", "10", "11", "13", "50"] →
      getWeatherIcon "01d" = "cloud") ∧
    ("01d".length < 2 → getWeatherIcon "01d" = "cloud") :=
  getWeatherIcon_by_prefix "01d" "01n" (by decide)

/-! ## Frontend: toggling a checklist entry -/

/-- C28: for an index with an entry, `togglePackingItem` yields a list of the same length
whose entry at the index has the `packed` flag negated and the same item text and
category, and whose other entries are those of the old list at the same places; toggling
the same index again yields the original list. -/
theorem togglePackingItem_spec (packingList : List ChecklistItem) (i : Nat)
    (hi : i < packingList.length) :
    ∃ updated : List ChecklistItem, togglePackingItem packingList i = some updated ∧
      updated.length = packingList.length ∧
      (∃ old new : ChecklistItem, packingList[i]? = some old ∧ updated[i]? = some new ∧
        new.packed = !old.packed ∧ new.item = old.item ∧ new.category = old.category) ∧
      (∀ j, j ≠ i → updated[j]? = packingList[j]?) ∧
      togglePackingItem updated i = some packingList := by
  have hget : packingList[i]? = some packingList[i] := List.getElem?_eq_getElem hi
  refine ⟨packingList.set i { packingList[i] with packed := !packingList[i].packed }, ?_, ?_,
    ?_, ?_, ?_⟩
  · simp [togglePackingItem, hget]
  · simp
  · exact ⟨packingList[i], _, hget, List.getElem?_set_self hi, rfl, rfl, rfl⟩
  · intro j hj
    exact List.getElem?_set_ne (Ne.symm hj)
  · have hget2 : (packingList.set i
        { packingList[i] with packed := !packingList[i].packed })[i]? =
        some { packingList[i] with packed := !packingList[i].packed } :=
      List.getElem?_set_self hi
    simp only [togglePackingItem, hget2, List.set_set, Bool.not_not]
    congr 1
    apply List.ext_getElem?
    intro j
    by_cases hj : i = j
    · subst hj
      rw [List.getElem?_set_self hi, hget]
    · rw [List.getElem?_set_ne hj]

/-- C28 at a concrete input: the second entry of a checklist of three. -/
theorem togglePackingItem_spec_witness :
    ∃ updated : List ChecklistItem, togglePackingItem demoChecklist 1 = some updated ∧
      updated.length = demoChecklist.length ∧
      (∃ old new : ChecklistItem, demoChecklist[1]? = some old ∧ updated[1]? = some new ∧
        new.packed = !old.packed ∧ new.item = old.item ∧ new.category = old.category) ∧
      (∀ j, j ≠ 1 → updated[j]? = demoChecklist[j]?) ∧
      togglePackingItem updated 1 = some demoChecklist :=
  togglePackingItem_spec demoChecklist 1 (by decide)

/-! ## Weather history -/

/-- C22: when the bound `daysAgo` (the instant `days` days before now, 30 when the query
names no `days`) is a date and the location compiles, under the flag `i` that makes the
match ignore case, to the regular expression `test`, the route answers 200 with the first
100 entries of `sorted`, a rearrangement by date descending of exactly the stored entries
that are dated at or after `daysAgo` and match the expression. So every returned entry is
stored, recent and matching; the answer is ordered newest first and has `min 100 k`
entries, where `k` is the number of stored entries that are recent and match; when
`k ≤ 100` every such entry is returned; an entry that is recent and matches but is left out
is not newer than any returned one, and then the answer is 100 entries long. The store
after the request is the store before it. -/
theorem weather_history_query (S : Server) (s : Store) (now : Nat)
    (location days : Option String) (n daysAgo : Int) (test : String → Bool)
    (hn : (days = none ∧ n = 30) ∨ ∃ d, days = some d ∧ S.js.parseInt d = some n)
    (hd : S.js.daysBefore now n = some daysAgo)
    (hr : S.js.regExp (location.getD "") "i" = some test) :
    ∃ history sorted : List WeatherHistory,
      (handle S s (.weatherHistory now location days)).2 =
        ⟨200, .obj [("history", .arr (history.map WeatherHistory.toJson))]⟩ ∧
      sorted.Perm (s.history.filter
        (fun h => test h.location && decide (daysAgo ≤ h.date))) ∧
      sorted.Sorted (fun a b => b.date ≤ a.date) ∧
      history = sorted.take 100 ∧
      (∀ h ∈ history, h ∈ s.history ∧ daysAgo ≤ h.date ∧ test h.location = true) ∧
      history.Sorted (fun a b => b.date ≤ a.date) ∧
      history.length ≤ 100 ∧
      history.length = min 100 (s.history.filter
        (fun h => test h.location && decide (daysAgo ≤ h.date))).length ∧
      ((s.history.filter (fun h => test h.location && decide (daysAgo ≤ h.date))).length
          ≤ 100 →
        ∀ h ∈ s.history, daysAgo ≤ h.date → test h.location = true → h ∈ history) ∧
      (∀ h ∈ s.history, daysAgo ≤ h.date → test h.location = true → h ∉ history →
        history.length = 100 ∧ ∀ r ∈ history, h.date ≤ r.date) ∧
      (handle S s (.weatherHistory now location days)).1 = s := by
  have hbound : (match days with
      | none => some (30 : Int)
      | some d => S.js.parseInt d).bind (S.js.daysBefore now) = some daysAgo := by
    rcases hn with ⟨h1, h2⟩ | ⟨d, h1, h2⟩
    · subst h1; subst h2; simpa using hd
    · subst h1; simp [h2, hd]
  haveI : IsTotal WeatherHistory (fun a b => b.date ≤ a.date) :=
    ⟨fun a b => le_total b.date a.date⟩
  haveI : IsTrans WeatherHistory (fun a b => b.date ≤ a.date) :=
    ⟨fun _ _ _ hab hbc => le_trans hbc hab⟩
  have hperm : ((s.history.filter
      (fun h => test h.location && decide (daysAgo ≤ h.date))).insertionSort
        (fun a b => b.date ≤ a.date)).Perm
      (s.history.filter (fun h => test h.location && decide (daysAgo ≤ h.date))) :=
    List.perm_insertionSort _ _
  have hsorted : ((s.history.filter
      (fun h => test h.location && decide (daysAgo ≤ h.date))).insertionSort
        (fun a b => b.date ≤ a.date)).Sorted (fun a b => b.date ≤ a.date) :=
    List.sorted_insertionSort _ _
  generalize hsd : (s.history.filter
      (fun h => test h.location && decide (daysAgo ≤ h.date))).insertionSort
        (fun a b => b.date ≤ a.date) = sorted at hperm hsorted
  have hmemf : ∀ h, h ∈ sorted ↔ h ∈ s.history ∧ daysAgo ≤ h.date ∧ test h.location = true := by
    intro h
    rw [hperm.mem_iff, List.mem_filter]
    simp only [Bool.and_eq_true, decide_eq_true_eq]
    tauto
  refine ⟨sorted.take 100, sorted, ?_, hperm, hsorted, rfl, ?_, ?_, ?_, ?_, ?_, ?_, rfl⟩
  · simp only [handle, weatherHistory, hbound, hr, hsd]
  · intro h hh
    exact (hmemf h).mp (List.mem_of_mem_take hh)
  · exact List.Pairwise.sublist (List.take_sublist _ _) hsorted
  · simp only [List.length_take]
    exact Nat.min_le_left _ _
  · rw [List.length_take, hperm.length_eq]
  · intro hlen h hh hdate htest
    have hlen' : sorted.length ≤ 100 := by rw [hperm.length_eq]; exact hlen
    rw [List.take_of_length_le hlen']
    exact (hmemf h).mpr ⟨hh, hdate, htest⟩
  · intro h hh hdate htest hnot
    have hmem : h ∈ sorted := (hmemf h).mpr ⟨hh, hdate, htest⟩
    have hsplit : sorted.take 100 ++ sorted.drop 100 = sorted := List.take_append_drop 100 sorted
    have hdrop : h ∈ sorted.drop 100 := by
      rw [← hsplit] at hmem
      rcases List.mem_append.mp hmem with h1 | h1
      · exact absurd h1 hnot
      · exact h1
    constructor
    · rw [List.length_take]
      have hpos : 0 < (sorted.drop 100).length := List.length_pos_of_mem hdrop
      rw [List.length_drop] at hpos
      omega
    · intro r hr'
      have hpw : (sorted.take 100 ++ sorted.drop 100).Pairwise
          (fun a b => b.date ≤ a.date) := by rw [hsplit]; exact hsorted
      exact (List.pairwise_append.mp hpw).2.2 r hr' h hdrop

/-- C22 at a concrete input: the observations for `paris` of the last 40 days, asked at
instant 3600000000 of a store that holds Paris (1000000000), Rome (2000000000) and Paris
(3000000000): the answer is the newer Paris entry followed by the older one, Rome is left
out. Asked without `days`, the bound is 30 days and only the newer entry is returned. -/
theorem weather_history_query_witness :
    (handle demoServer historyStore (.weatherHistory 3600000000 (some "paris") (some "40"))).2 =
      ⟨200, .obj [("history", .arr [parisNew.toJson, parisOld.toJson])]⟩ ∧
    (handle demoServer historyStore (.weatherHistory 3600000000 (some "paris") none)).2 =
      ⟨200, .obj [("history", .arr [parisNew.toJson])]⟩ ∧
    ∃ history sorted : List WeatherHistory,
      (handle demoServer historyStore
          (.weatherHistory 3600000000 (some "paris") (some "40"))).2 =
        ⟨200, .obj [("history", .arr (history.map WeatherHistory.toJson))]⟩ ∧
      sorted.Perm (historyStore.history.filter
        (fun h => jsIncludes (String.mk (h.location.data.map Char.toLower))
            (String.mk ("paris".data.map Char.toLower)) &&
          decide ((3600000000 : Int) - 40 * 86400000 ≤ h.date))) ∧
      sorted.Sorted (fun a b => b.date ≤ a.date) ∧
      history = sorted.take 100 ∧
      (∀ h ∈ history, h ∈ historyStore.history ∧
        (3600000000 : Int) - 40 * 86400000 ≤ h.date ∧
        jsIncludes (String.mk (h.location.data.map Char.toLower))
          (String.mk ("paris".data.map Char.toLower)) = true) ∧
      history.Sorted (fun a b => b.date ≤ a.date) ∧
      history.length ≤ 100 ∧
      history.length = min 100 (historyStore.history.filter
        (fun h => jsIncludes (String.mk (h.location.data.map Char.toLower))
            (String.mk ("paris".data.map Char.toLower)) &&
          decide ((3600000000 : Int) - 40 * 86400000 ≤ h.date))).length ∧
      ((historyStore.history.filter
        (fun h => jsIncludes (String.mk (h.location.data.map Char.toLower))
            (String.mk ("paris".data.map Char.toLower)) &&
          decide ((3600000000 : Int) - 40 * 86400000 ≤ h.date))).length ≤ 100 →
        ∀ h ∈ historyStore.history, (3600000000 : Int) - 40 * 86400000 ≤ h.date →
          jsIncludes (String.mk (h.location.data.map Char.toLower))
            (String.mk ("paris".data.map Char.toLower)) = true → h ∈ history) ∧
      (∀ h ∈ historyStore.history, (3600000000 : Int) - 40 * 86400000 ≤ h.date →
        jsIncludes (String.mk (h.location.data.map Char.toLower))
          (String.mk ("paris".data.map Char.toLower)) = true → h ∉ history →
        history.length = 100 ∧ ∀ r ∈ history, h.date ≤ r.date) ∧
      (handle demoServer historyStore
          (.weatherHistory 3600000000 (some "paris") (some "40"))).1 = historyStore :=
  ⟨by rfl, by rfl,
    weather_history_query demoServer historyStore 3600000000 (some "paris") (some "40") 40
      ((3600000000 : Int) - 40 * 86400000)
      (fun text => jsIncludes (String.mk (text.data.map Char.toLower))
        (String.mk ("paris".data.map Char.toLower)))
      (Or.inr ⟨"40", rfl, by rfl⟩) rfl rfl⟩

/-! ## Chat -/

theorem append_ne_of_not_prefix (p x t : String) (h : ¬ p.data <+: t.data) : p ++ x ≠ t := by
  intro he
  apply h
  rw [← he, String.data_append]
  exact List.prefix_append _ _

theorem weatherReply_ne (J : JsRuntime) (weather : Option ChatWeather) (t : String)
    (h : ¬ ("I can help you check the weather! Go to the Weather tab and enter your " ++
      "destination. ").data <+: t.data) : weatherReply J weather ≠ t :=
  append_ne_of_not_prefix _ _ t h

theorem chatReply_chain (J : JsRuntime) (lower : String) (weather : Option ChatWeather) :
    chatReply J lower weather =
      if jsIncludes lower "weather" || jsIncludes lower "temperature" then
        weatherReply J weather
      else if jsIncludes lower "pack" || jsIncludes lower "bring" then packReply
      else if jsIncludes lower "route" || jsIncludes lower "how to get" then routeReply
      else if jsIncludes lower "activity" || jsIncludes lower "things to do" ||
          jsIncludes lower "do" then activityReply
      else if jsIncludes lower "hotel" || jsIncludes lower "accommodation" then
        accommodationReply
      else if jsIncludes lower "hi" || jsIncludes lower "hello" || jsIncludes lower "hey" then
        greetingReply
      else helpReply := rfl

theorem chatReply_ne_empty (J : JsRuntime) (lower : String) (weather : Option ChatWeather) :
    chatReply J lower weather ≠ "" := by
  rw [chatReply_chain]
  split_ifs
  · exact weatherReply_ne J weather "" (by decide)
  all_goals decide

theorem chatUserId_eq (E : Env) (now : Nat) (authorization : Option String)
    (hguest : E.jwtDecode E.JWT_SECRET "guest" = none)
    (hempty : E.jwtDecode E.JWT_SECRET "" = none) :
    chatUserId E now authorization =
      (jwtVerify E ((extractToken authorization).getD "") E.JWT_SECRET now).map
        (fun decoded => decoded.userId) := by
  unfold chatUserId
  simp only []
  cases ht : extractToken authorization with
  | none => simp [falsy, jwtVerify, hempty]
  | some t =>
    by_cases h1 : t = ""
    · subst h1; simp [falsy, jwtVerify, hempty]
    · by_cases h2 : t = "guest"
      · subst h2; simp [falsy, jwtVerify, hguest]
      · simp [falsy, h1, h2]

/-- C23: for every Authorization header and every non-empty message the chat route answers
200, never 401, with a non-empty reply; `userId` is the user id of the extracted token
when it verifies and `null` otherwise (the library verifies neither the empty string nor
the word `guest`); an absent header and `Bearer guest` give `null` without any
verification; and a missing or empty message gives 400. -/
theorem chat_optional_auth (E : Env) (J : JsRuntime) (now : Nat)
    (authorization : Option String) (m : String) (weather : Option ChatWeather)
    (hm : m ≠ "")
    (hguest : E.jwtDecode E.JWT_SECRET "guest" = none)
    (hempty : E.jwtDecode E.JWT_SECRET "" = none) :
    (chat E J now authorization (some m) weather).status = 200 ∧
    (chat E J now authorization (some m) weather).status ≠ 401 ∧
    (∃ reply, (chat E J now authorization (some m) weather).body.get? "response" =
      some (.str reply) ∧ reply ≠ "") ∧
    (chat E J now authorization (some m) weather).body.get? "userId" =
      some (match jwtVerify E ((extractToken authorization).getD "") E.JWT_SECRET now with
        | some decoded => .oid decoded.userId
        | none => .null) ∧
    chatUserId E now none = none ∧ chatUserId E now (some "Bearer guest") = none ∧
    chat E J now authorization none weather = ⟨400, errorBody "message is required"⟩ ∧
    chat E J now authorization (some "") weather = ⟨400, errorBody "message is required"⟩ := by
  have hstatus : (chat E J now authorization (some m) weather).status = 200 := by
    simp [chat, falsy_some, hm]
  have hnone : extractToken none = some "" := by decide
  have hbearer : extractToken (some "Bearer guest") = some "guest" := by decide
  refine ⟨hstatus, by rw [hstatus]; decide, ?_, ?_, ?_, ?_, ?_, ?_⟩
  · refine ⟨chatReply J (J.toLowerCase m) weather, ?_, chatReply_ne_empty _ _ _⟩
    simp [chat, falsy_some, hm, Json.get?]
  · have hu := chatUserId_eq E now authorization hguest hempty
    cases hv : jwtVerify E ((extractToken authorization).getD "") E.JWT_SECRET now <;>
      rw [hv] at hu <;> simp [chat, falsy_some, hm, Json.get?, hu]
  · simp [chatUserId, hnone, falsy]
  · simp [chatUserId, hbearer, falsy]
  · simp [chat, falsy]
  · simp [chat, falsy]

/-- C23 at a concrete input: a guest, and the help text for `thanks`. -/
theorem chat_optional_auth_witness :
    (chat demoEnv demoJs 5000 (some "Bearer guest") (some "thanks") none).status = 200 ∧
    (chat demoEnv demoJs 5000 (some "Bearer guest") (some "thanks") none).status ≠ 401 ∧
    (∃ reply, (chat demoEnv demoJs 5000 (some "Bearer guest") (some "thanks")
        none).body.get? "response" = some (.str reply) ∧ reply ≠ "") ∧
    (chat demoEnv demoJs 5000 (some "Bearer guest") (some "thanks") none).body.get? "userId" =
      some (match jwtVerify demoEnv ((extractToken (some "Bearer guest")).getD "")
          demoEnv.JWT_SECRET 5000 with
        | some decoded => .oid decoded.userId
        | none => .null) ∧
    chatUserId demoEnv 5000 none = none ∧
    chatUserId demoEnv 5000 (some "Bearer guest") = none ∧
    chat demoEnv demoJs 5000 (some "Bearer guest") none none =
      ⟨400, errorBody "message is required"⟩ ∧
    chat demoEnv demoJs 5000 (some "Bearer guest") (some "") none =
      ⟨400, errorBody "message is required"⟩ :=
  chat_optional_auth demoEnv demoJs 5000 (some "Bearer guest") "thanks" none
    (by decide) (by decide) (by decide)

/-- C27: the reply of the chat route is chosen from the lower-cased message by a fixed
chain: weather or temperature, then pack or bring, then route or `how to get`, then
activity, `things to do` or `do`, then hotel or accommodation, then hi, hello or hey, else
the help text. A message with `weather` or `temperature` gets the weather reply whatever
else it contains, and the accommodation reply is returned exactly when the message has
`hotel` or `accommodation` and none of the nine earlier keywords. -/
theorem chat_keyword_priority (E : Env) (J : JsRuntime) (now : Nat)
    (authorization : Option String) (m : String) (weather : Option ChatWeather)
    (hm : m ≠ "") :
    (chat E J now authorization (some m) weather).body.get? "response" =
      some (.str (chatReply J (J.toLowerCase m) weather)) ∧
    ∀ lower : String,
      chatReply J lower weather =
        (if jsIncludes lower "weather" || jsIncludes lower "temperature" then
          weatherReply J weather
        else if jsIncludes lower "pack" || jsIncludes lower "bring" then packReply
        else if jsIncludes lower "route" || jsIncludes lower "how to get" then routeReply
        else if jsIncludes lower "activity" || jsIncludes lower "things to do" ||
            jsIncludes lower "do" then activityReply
        else if jsIncludes lower "hotel" || jsIncludes lower "accommodation" then
          accommodationReply
        else if jsIncludes lower "hi" || jsIncludes lower "hello" ||
            jsIncludes lower "hey" then greetingReply
        else helpReply) ∧
      ((jsIncludes lower "weather" = true ∨ jsIncludes lower "temperature" = true) →
        chatReply J lower weather = weatherReply J weather) ∧
      (chatReply J lower weather = accommodationReply ↔
        (jsIncludes lower "hotel" = true ∨ jsIncludes lower "accommodation" = true) ∧
        jsIncludes lower "weather" = false ∧ jsIncludes lower "temperature" = false ∧
        jsIncludes lower "pack" = false ∧ jsIncludes lower "bring" = false ∧
        jsIncludes lower "route" = false ∧ jsIncludes lower "how to get" = false ∧
        jsIncludes lower "activity" = false ∧ jsIncludes lower "things to do" = false ∧
        jsIncludes lower "do" = false) := by
  refine ⟨by simp [chat, falsy_some, hm, Json.get?], ?_⟩
  intro lower
  refine ⟨chatReply_chain J lower weather, ?_, ?_⟩
  · intro h
    rw [chatReply_chain]
    rcases h with h | h <;> simp [h]
  · constructor
    · intro h
      rw [chatReply_chain] at h
      split_ifs at h with h1 h2 h3 h4 h5 h6
      · exact absurd h (weatherReply_ne J weather _ (by decide))
      · exact absurd h (by decide)
      · exact absurd h (by decide)
      · exact absurd h (by decide)
      · simp only [Bool.or_eq_true, not_or, Bool.not_eq_true] at h1 h2 h3 h4 h5
        exact ⟨h5, h1.1, h1.2, h2.1, h2.2, h3.1, h3.2, h4.1.1, h4.1.2, h4.2⟩
      · exact absurd h (by decide)
      · exact absurd h (by decide)
    · rintro ⟨hh, n1, n2, n3, n4, n5, n6, n7, n8, n9⟩
      rw [chatReply_chain]
      rcases hh with hh | hh <;> simp [n1, n2, n3, n4, n5, n6, n7, n8, n9, hh]

/-- C27 at a concrete input: a message about a hotel and the weather. -/
theorem chat_keyword_priority_witness :
    (chat demoEnv demoJs 5000 none (some "Hotel weather?") none).body.get? "response" =
      some (.str (chatReply demoJs (demoJs.toLowerCase "Hotel weather?") none)) ∧
    ∀ lower : String,
      chatReply demoJs lower none =
        (if jsIncludes lower "weather" || jsIncludes lower "temperature" then
          weatherReply demoJs none
        else if jsIncludes lower "pack" || jsIncludes lower "bring" then packReply
        else if jsIncludes lower "route" || jsIncludes lower "how to get" then routeReply
        else if jsIncludes lower "activity" || jsIncludes lower "things to do" ||
            jsIncludes lower "do" then activityReply
        else if jsIncludes lower "hotel" || jsIncludes lower "accommodation" then
          accommodationReply
        else if jsIncludes lower "hi" || jsIncludes lower "hello" ||
            jsIncludes lower "hey" then greetingReply
        else helpReply) ∧
      ((jsIncludes lower "weather" = true ∨ jsIncludes lower "temperature" = true) →
        chatReply demoJs lower none = weatherReply demoJs none) ∧
      (chatReply demoJs lower none = accommodationReply ↔
        (jsIncludes lower "hotel" = true ∨ jsIncludes lower "accommodation" = true) ∧
        jsIncludes lower "weather" = false ∧ jsIncludes lower "temperature" = false ∧
        jsIncludes lower "pack" = false ∧ jsIncludes lower "bring" = false ∧
        jsIncludes lower "route" = false ∧ jsIncludes lower "how to get" = false ∧
        jsIncludes lower "activity" = false ∧ jsIncludes lower "things to do" = false ∧
        jsIncludes lower "do" = false) :=
  chat_keyword_priority demoEnv demoJs 5000 none "Hotel weather?" none (by decide)

/-! ## Packing list -/

theorem packingList_ok (J : JsRuntime) (destination startDate endDate : String)
    (weather : Option PackingWeather)
    (hd : destination ≠ "") (hs : startDate ≠ "") (he : endDate ≠ "") :
    packingList J (some destination) (some startDate) (some endDate) weather =
      ⟨200, .obj [("packingList", .arr (packingItems (tripDays J startDate endDate)
          (decide (packingTemp weather > 30)) (decide (packingTemp weather < 15))
          (packingIsRainy J weather))),
        ("weatherInfo", .obj [("temp", .dec (packingTemp weather)),
          ("isRainy", .bool (packingIsRainy J weather)),
          ("isCold", .bool (decide (packingTemp weather < 15))),
          ("isHot", .bool (decide (packingTemp weather > 30)))])]⟩ := by
  unfold packingList
  rw [if_neg (by simp [falsy_some, hd, hs, he])]
  rfl

theorem packingList_missing (J : JsRuntime) (destination startDate endDate : Option String)
    (weather : Option PackingWeather)
    (h : falsy destination = true ∨ falsy startDate = true ∨ falsy endDate = true) :
    packingList J destination startDate endDate weather =
      ⟨400, errorBody "destination, startDate and endDate are required"⟩ := by
  have hf : (falsy destination || falsy startDate || falsy endDate) = true := by
    rcases h with h | h | h <;> simp [h]
  simp [packingList, hf]

theorem packingItems_packed (days : Option Int) (isHot isCold isRainy : Bool) :
    ∀ entry ∈ packingItems days isHot isCold isRainy,
      entry.get? "packed" = some (.bool false) := by
  intro entry hmem
  have hentry : ∃ category item, entry = packingEntry category item := by
    cases isHot <;> cases isCold <;> cases isRainy <;>
      simp only [packingItems, List.mem_append, List.mem_cons, List.mem_singleton,
        List.not_mem_nil, or_false, false_or, ↓reduceIte, Bool.false_eq_true] at hmem <;>
      aesop
  obtain ⟨category, item, rfl⟩ := hentry
  simp [packingEntry, Json.get?]

theorem packingItems_length (days : Option Int) (isHot isCold isRainy : Bool) :
    (packingItems days isHot isCold isRainy).length =
      23 + 2 * (if isHot then 1 else 0) + 2 * (if isCold then 1 else 0) +
        2 * (if isRainy then 1 else 0) := by
  cases isHot <;> cases isCold <;> cases isRainy <;> rfl

/-- C24: with destination, start date and end date present, the packing-list route answers
200 with a list whose entries all have `packed = false` and whose length is
23 + 2·[isHot] + 2·[isCold] + 2·[isRainy], where `temp` is the weather's temperature or 25,
isHot is `temp > 30`, isCold is `temp < 15` and isRainy is that the lower-cased description
contains `rain`; isHot and isCold exclude each other, the length is between 23 and 27, the
third entry is the one jacket (warm when cold, light when hot, medium otherwise), and
without a weather neither flag holds. A request without one of the three fields gets 400. -/
theorem packing_list_shape (J : JsRuntime) (destination startDate endDate : String)
    (weather : Option PackingWeather)
    (hd : destination ≠ "") (hs : startDate ≠ "") (he : endDate ≠ "") :
    ∃ items : List Json,
      (packingList J (some destination) (some startDate) (some endDate) weather).status
        = 200 ∧
      (packingList J (some destination) (some startDate) (some endDate) weather).body.get?
        "packingList" = some (.arr items) ∧
      (∀ entry ∈ items, entry.get? "packed" = some (.bool false)) ∧
      items.length = 23 + 2 * (if packingTemp weather > 30 then 1 else 0) +
        2 * (if packingTemp weather < 15 then 1 else 0) +
        2 * (if packingIsRainy J weather then 1 else 0) ∧
      ¬ (packingTemp weather > 30 ∧ packingTemp weather < 15) ∧
      23 ≤ items.length ∧ items.length ≤ 27 ∧
      items[2]? = some (packingEntry "Clothing"
        (if packingTemp weather < 15 then "Warm jacket"
         else if packingTemp weather > 30 then "Light jacket" else "Medium jacket")) ∧
      packingTemp weather = (weather.bind (fun w => w.temp)).getD 25 ∧
      packingIsRainy J weather =
        jsIncludes (J.toLowerCase ((weather.bind (fun w => w.description)).getD "")) "rain" ∧
      (weather = none → packingTemp weather = 25 ∧ ¬ packingTemp weather > 30 ∧
        ¬ packingTemp weather < 15) ∧
      (∀ d b e : Option String,
        falsy d = true ∨ falsy b = true ∨ falsy e = true →
        packingList J d b e weather =
          ⟨400, errorBody "destination, startDate and endDate are required"⟩) := by
  have hok := packingList_ok J destination startDate endDate weather hd hs he
  have hlen := packingItems_length (tripDays J startDate endDate)
    (decide (packingTemp weather > 30)) (decide (packingTemp weather < 15))
    (packingIsRainy J weather)
  simp only [decide_eq_true_eq] at hlen
  have hexcl : ¬ (packingTemp weather > 30 ∧ packingTemp weather < 15) := by
    rintro ⟨h1, h2⟩
    linarith
  refine ⟨_, by rw [hok], by rw [hok]; simp [Json.get?], packingItems_packed _ _ _ _, hlen,
    hexcl, ?_, ?_, ?_, rfl, rfl, ?_, ?_⟩
  · rw [hlen]; omega
  · rw [hlen]
    by_cases h1 : packingTemp weather > 30
    · have h2 : ¬ packingTemp weather < 15 := fun h2 => hexcl ⟨h1, h2⟩
      simp only [h1, h2, ↓reduceIte]
      split_ifs <;> omega
    · simp only [h1, ↓reduceIte]
      split_ifs <;> omega
  · by_cases h2 : packingTemp weather < 15
    · simp [packingItems, h2]
    · by_cases h1 : packingTemp weather > 30
      · simp [packingItems, h1, h2]
      · simp [packingItems, h1, h2]
  · intro hw
    subst hw
    have h25 : packingTemp none = 25 := rfl
    rw [h25]
    refine ⟨rfl, by norm_num, by norm_num⟩
  · intro d b e hmiss
    exact packingList_missing J d b e weather hmiss

/-- C24 at a concrete input: a hot and rainy week in Paris gives 27 entries. -/
theorem packing_list_shape_witness :
    ∃ items : List Json,
      (packingList demoJs (some "Paris") (some "1748736000000") (some "1749081600000")
        (some hotRain)).status = 200 ∧
      (packingList demoJs (some "Paris") (some "1748736000000") (some "1749081600000")
        (some hotRain)).body.get? "packingList" = some (.arr items) ∧
      (∀ entry ∈ items, entry.get? "packed" = some (.bool false)) ∧
      items.length = 23 + 2 * (if packingTemp (some hotRain) > 30 then 1 else 0) +
        2 * (if packingTemp (some hotRain) < 15 then 1 else 0) +
        2 * (if packingIsRainy demoJs (some hotRain) then 1 else 0) ∧
      ¬ (packingTemp (some hotRain) > 30 ∧ packingTemp (some hotRain) < 15) ∧
      23 ≤ items.length ∧ items.length ≤ 27 ∧
      items[2]? = some (packingEntry "Clothing"
        (if packingTemp (some hotRain) < 15 then "Warm jacket"
         else if packingTemp (some hotRain) > 30 then "Light jacket" else "Medium jacket")) ∧
      packingTemp (some hotRain) = ((some hotRain).bind (fun w => w.temp)).getD 25 ∧
      packingIsRainy demoJs (some hotRain) =
        jsIncludes (demoJs.toLowerCase (((some hotRain).bind (fun w => w.description)).getD ""))
          "rain" ∧
      (some hotRain = none → packingTemp (some hotRain) = 25 ∧
        ¬ packingTemp (some hotRain) > 30 ∧ ¬ packingTemp (some hotRain) < 15) ∧
      (∀ d b e : Option String,
        falsy d = true ∨ falsy b = true ∨ falsy e = true →
        packingList demoJs d b e (some hotRain) =
          ⟨400, errorBody "destination, startDate and endDate are required"⟩) :=
  packing_list_shape demoJs "Paris" "1748736000000" "1749081600000" (some hotRain)
    (by decide) (by decide) (by decide)

theorem mem_packingItems_counts (days : Option Int) (isHot isCold isRainy : Bool) :
    packingEntry "Clothing" (countText (days.map (· + 2)) ++ " Underwear") ∈
      packingItems days isHot isCold isRainy ∧
    packingEntry "Clothing" (countText days ++ " Pairs of socks") ∈
      packingItems days isHot isCold isRainy ∧
    packingEntry "Clothing"
        (countText (days.map (fun d => ⌈(d : ℚ) / 2⌉)) ++ " Pants/jeans") ∈
      packingItems days isHot isCold isRainy ∧
    packingEntry "Clothing" (countText days ++ " Shirts/tops") ∈
      packingItems days isHot isCold isRainy := by
  simp [packingItems]

/-- C25: for a start and an end date that parse, to `b` and `e` milliseconds, the `days` of
the packing list is `max(1, ceil((e - b) / 86400000))`: it is at least 1, and exactly 1 when
the end is not after the start; the list contains `days+2 Underwear`, `days Pairs of socks`,
`ceil(days/2) Pants/jeans` and `days Shirts/tops`, and the three quantities are positive
integers. -/
theorem packing_quantities (J : JsRuntime) (destination startDate endDate : String)
    (weather : Option PackingWeather) (b e : Int)
    (hd : destination ≠ "") (hs : startDate ≠ "") (he : endDate ≠ "")
    (hb : J.parseDate startDate = some b) (hend : J.parseDate endDate = some e) :
    ∃ (items : List Json) (days : Int),
      (packingList J (some destination) (some startDate) (some endDate) weather).body.get?
        "packingList" = some (.arr items) ∧
      tripDays J startDate endDate = some days ∧
      days = max 1 ⌈((e - b : Int) : ℚ) / 86400000⌉ ∧
      1 ≤ days ∧ (e ≤ b → days = 1) ∧
      packingEntry "Clothing" (toString (days + 2) ++ " Underwear") ∈ items ∧
      packingEntry "Clothing" (toString days ++ " Pairs of socks") ∈ items ∧
      packingEntry "Clothing" (toString ⌈(days : ℚ) / 2⌉ ++ " Pants/jeans") ∈ items ∧
      packingEntry "Clothing" (toString days ++ " Shirts/tops") ∈ items ∧
      0 < days + 2 ∧ 0 < ⌈(days : ℚ) / 2⌉ := by
  have hok := packingList_ok J destination startDate endDate weather hd hs he
  have hdays : tripDays J startDate endDate =
      some (max 1 ⌈((e - b : Int) : ℚ) / 86400000⌉) := by
    simp [tripDays, hb, hend]
  have hge : (1 : Int) ≤ max 1 ⌈((e - b : Int) : ℚ) / 86400000⌉ := le_max_left _ _
  obtain ⟨m1, m2, m3, m4⟩ := mem_packingItems_counts
    (some (max 1 ⌈((e - b : Int) : ℚ) / 86400000⌉))
    (decide (packingTemp weather > 30)) (decide (packingTemp weather < 15))
    (packingIsRainy J weather)
  refine ⟨_, max 1 ⌈((e - b : Int) : ℚ) / 86400000⌉, by rw [hok, hdays]; simp [Json.get?],
    hdays, rfl, hge, ?_, m1, m2, ?_, m4, by omega, ?_⟩
  · intro hle
    apply max_eq_left
    have h0 : ((e - b : Int) : ℚ) / 86400000 ≤ 0 := by
      apply div_nonpos_of_nonpos_of_nonneg
      · exact_mod_cast sub_nonpos.mpr hle
      · norm_num
    have := Int.ceil_le.mpr (show ((e - b : Int) : ℚ) / 86400000 ≤ ((0 : Int) : ℚ) by
      simpa using h0)
    omega
  · simpa using m3
  · rw [Int.ceil_pos]
    have : (0 : ℚ) < ((max 1 ⌈((e - b : Int) : ℚ) / 86400000⌉ : Int) : ℚ) := by
      exact_mod_cast lt_of_lt_of_le zero_lt_one hge
    positivity

/-- C25 at a concrete input: four days in Paris. -/
theorem packing_quantities_witness :
    ∃ (items : List Json) (days : Int),
      (packingList demoJs (some "Paris") (some "1748736000000") (some "1749081600000")
        none).body.get? "packingList" = some (.arr items) ∧
      tripDays demoJs "1748736000000" "1749081600000" = some days ∧
      days = max 1 ⌈(((1749081600000 : Int) - 1748736000000 : Int) : ℚ) / 86400000⌉ ∧
      1 ≤ days ∧ ((1749081600000 : Int) ≤ 1748736000000 → days = 1) ∧
      packingEntry "Clothing" (toString (days + 2) ++ " Underwear") ∈ items ∧
      packingEntry "Clothing" (toString days ++ " Pairs of socks") ∈ items ∧
      packingEntry "Clothing" (toString ⌈(days : ℚ) / 2⌉ ++ " Pants/jeans") ∈ items ∧
      packingEntry "Clothing" (toString days ++ " Shirts/tops") ∈ items ∧
      0 < days + 2 ∧ 0 < ⌈(days : ℚ) / 2⌉ :=
  packing_quantities demoJs "Paris" "1748736000000" "1749081600000" none
    1748736000000 1749081600000 (by decide) (by decide) (by decide) (by decide) (by decide)

/-! ## Forecast grouping -/

theorem mem_firstAppearances (ks : List String) (x : String) :
    x ∈ firstAppearances ks ↔ x ∈ ks := by
  induction ks with
  | nil => simp [firstAppearances]
  | cons k ks ih =>
    simp only [firstAppearances, List.mem_cons, List.mem_filter, ih, bne_iff_ne, ne_eq]
    constructor
    · rintro (h | ⟨h, -⟩)
      · exact Or.inl h
      · exact Or.inr h
    · rintro (h | h)
      · exact Or.inl h
      · by_cases hx : x = k
        · exact Or.inl hx
        · exact Or.inr ⟨h, hx⟩

theorem nodup_firstAppearances (ks : List String) : (firstAppearances ks).Nodup := by
  induction ks with
  | nil => simp [firstAppearances]
  | cons k ks ih =>
    simp only [firstAppearances, List.nodup_cons, List.mem_filter, bne_iff_ne, ne_eq,
      not_true_eq_false, and_false, not_false_eq_true, true_and]
    exact ih.filter _

theorem firstAppearances_snoc (ks : List String) (k : String) :
    firstAppearances (ks ++ [k]) =
      if k ∈ ks then firstAppearances ks else firstAppearances ks ++ [k] := by
  induction ks with
  | nil => simp [firstAppearances]
  | cons a ks ih =>
    simp only [List.cons_append, firstAppearances, List.mem_cons, List.append_eq]
    rw [ih]
    by_cases hka : k = a
    · subst hka
      by_cases hk : k ∈ ks
      · simp [hk]
      · simp [hk, List.filter_append]
    · by_cases hk : k ∈ ks
      · simp [hk, hka]
      · simp [hk, hka, List.filter_append]

theorem daySamples_snoc (W : WeatherEnv) (l : List ForecastItem) (x : ForecastItem)
    (k : String) :
    daySamples W (l ++ [x]) k =
      daySamples W l k ++ (if sampleKey W x = k then [x] else []) := by
  by_cases h : sampleKey W x = k <;> simp [daySamples, List.filter_append, h]

theorem daySamples_ne_nil (W : WeatherEnv) (l : List ForecastItem) (k : String)
    (h : k ∈ l.map (sampleKey W)) : daySamples W l k ≠ [] := by
  obtain ⟨item, hitem, hk⟩ := List.mem_map.mp h
  intro hnil
  have : item ∈ daySamples W l k := List.mem_filter.mpr ⟨hitem, by simp [hk]⟩
  rw [hnil] at this
  simp at this

theorem daySamples_eq_nil (W : WeatherEnv) (l : List ForecastItem) (k : String)
    (h : k ∉ l.map (sampleKey W)) : daySamples W l k = [] := by
  rw [daySamples, List.filter_eq_nil_iff]
  intro item hitem hk
  apply h
  exact List.mem_map.mpr ⟨item, hitem, by simpa using hk⟩

theorem dayGroup_snoc_ne (W : WeatherEnv) (l : List ForecastItem) (x : ForecastItem)
    (k : String) (h : sampleKey W x ≠ k) : dayGroup W (l ++ [x]) k = dayGroup W l k := by
  simp [dayGroup, daySamples_snoc, h]

theorem dayGroup_snoc_old (W : WeatherEnv) (l : List ForecastItem) (x : ForecastItem)
    (h : sampleKey W x ∈ l.map (sampleKey W)) :
    dayGroup W (l ++ [x]) (sampleKey W x) =
      { dayGroup W l (sampleKey W x) with
        temps := (dayGroup W l (sampleKey W x)).temps ++ [x.temp]
        humidity := (dayGroup W l (sampleKey W x)).humidity ++ [x.humidity] } := by
  have hne := daySamples_ne_nil W l _ h
  cases hs : daySamples W l (sampleKey W x) with
  | nil => exact absurd hs hne
  | cons a as => simp [dayGroup, daySamples_snoc, hs]

theorem dayGroup_snoc_new (W : WeatherEnv) (l : List ForecastItem) (x : ForecastItem)
    (h : sampleKey W x ∉ l.map (sampleKey W)) :
    dayGroup W (l ++ [x]) (sampleKey W x) =
      { temps := [x.temp], humidity := [x.humidity],
        description := firstDescription x.weather, icon := firstIcon x.weather } := by
  simp [dayGroup, daySamples_snoc, daySamples_eq_nil W l _ h]

theorem addSample_groups (W : WeatherEnv) (l : List ForecastItem) (x : ForecastItem) :
    addSample W ((firstAppearances (l.map (sampleKey W))).map
        (fun k => (k, dayGroup W l k))) x =
      (firstAppearances ((l ++ [x]).map (sampleKey W))).map
        (fun k => (k, dayGroup W (l ++ [x]) k)) := by
  have hkey : W.toDateString (x.dt * 1000) = sampleKey W x := rfl
  rw [List.map_append, List.map_singleton, firstAppearances_snoc]
  unfold addSample
  simp only [hkey]
  by_cases hk : sampleKey W x ∈ l.map (sampleKey W)
  · have hany : ((firstAppearances (l.map (sampleKey W))).map
        (fun k => (k, dayGroup W l k))).any (fun kv => kv.1 == sampleKey W x) = true := by
      rw [List.any_eq_true]
      exact ⟨(sampleKey W x, dayGroup W l (sampleKey W x)),
        List.mem_map.mpr ⟨_, (mem_firstAppearances _ _).mpr hk, rfl⟩, by simp⟩
    rw [if_pos hany, if_pos hk, List.map_map]
    apply List.map_congr_left
    intro k _
    by_cases hkx : k = sampleKey W x
    · subst hkx
      simp [dayGroup_snoc_old W l x hk]
    · have hkx' : sampleKey W x ≠ k := fun h => hkx h.symm
      simp [hkx, dayGroup_snoc_ne W l x k hkx']
  · have hany : ((firstAppearances (l.map (sampleKey W))).map
        (fun k => (k, dayGroup W l k))).any (fun kv => kv.1 == sampleKey W x) = false := by
      rw [Bool.eq_false_iff]
      intro h
      obtain ⟨kv, hkv, hkvx⟩ := List.any_eq_true.mp h
      obtain ⟨k, hkm, rfl⟩ := List.mem_map.mp hkv
      apply hk
      have : k = sampleKey W x := by simpa using hkvx
      rw [← this]
      exact (mem_firstAppearances _ _).mp hkm
    rw [hany, if_neg hk]
    simp only [Bool.false_eq_true, ↓reduceIte, List.map_append, List.map_map, List.map_cons,
      List.map_nil]
    congr 1
    · apply List.map_congr_left
      intro k hkm
      have hkx : k ≠ sampleKey W x := by
        intro h
        apply hk
        rw [← h]
        exact (mem_firstAppearances _ _).mp hkm
      have hkx' : sampleKey W x ≠ k := fun h => hkx h.symm
      simp [hkx, dayGroup_snoc_ne W l x k hkx']
    · simp [dayGroup_snoc_new W l x hk]

theorem foldl_addSample (W : WeatherEnv) (list : List ForecastItem) :
    list.foldl (addSample W) [] =
      (firstAppearances (list.map (sampleKey W))).map (fun k => (k, dayGroup W list k)) := by
  induction list using List.reverseRecOn with
  | nil => rfl
  | append_singleton l x ih =>
    rw [List.foldl_append, List.foldl_cons, List.foldl_nil, ih, addSample_groups]

theorem head?_filter_eq_find? (p : ForecastItem → Bool) (l : List ForecastItem) :
    (l.filter p).head? = l.find? p := by
  induction l with
  | nil => rfl
  | cons a as ih =>
    by_cases h : p a = true
    · simp [List.filter_cons, List.find?_cons, h]
    · have h' : p a = false := by simpa using h
      simp [List.filter_cons, List.find?_cons, h', ih]

theorem foldl_min_le (xs : List ℚ) (x : ℚ) : xs.foldl min x ≤ x := by
  induction xs generalizing x with
  | nil => exact le_refl x
  | cons a as ih => exact le_trans (ih (min x a)) (min_le_left x a)

theorem le_foldl_max (xs : List ℚ) (x : ℚ) : x ≤ xs.foldl max x := by
  induction xs generalizing x with
  | nil => exact le_refl x
  | cons a as ih => exact le_trans (le_max_left x a) (ih (max x a))

theorem jsMin_le_jsMax (xs : List ℚ) (h : xs ≠ []) :
    ∃ lo hi, jsMin xs = some lo ∧ jsMax xs = some hi ∧ lo ≤ hi ∧
      mathRound lo ≤ mathRound hi := by
  cases xs with
  | nil => exact absurd rfl h
  | cons x xs =>
    have hle : xs.foldl min x ≤ xs.foldl max x :=
      le_trans (foldl_min_le xs x) (le_foldl_max xs x)
    refine ⟨_, _, rfl, rfl, hle, ?_⟩
    unfold mathRound
    exact Int.floor_mono (by linarith)

/-- C26: the day groups the handler builds are, in the order of first appearance, the
distinct calendar dates of the samples, each with the temperatures and humidities of its
samples and the description and icon of its first sample; the forecast is the first seven
of them (at most seven entries). For a date `k` of the list the group is not empty, so
minimum, maximum and the humidity average are taken over at least one sample, and the
entry has `temp_min ≤ temp_max`. -/
theorem forecast_grouping (W : WeatherEnv) (list : List ForecastItem) (k : String)
    (hk : k ∈ list.map (sampleKey W)) :
    list.foldl (addSample W) [] =
      (firstAppearances (list.map (sampleKey W))).map (fun d => (d, dayGroup W list d)) ∧
    buildForecast W list =
      ((firstAppearances (list.map (sampleKey W))).take 7).map
        (fun d => forecastEntry W (d, dayGroup W list d)) ∧
    (firstAppearances (list.map (sampleKey W))).Nodup ∧
    (∀ d, d ∈ firstAppearances (list.map (sampleKey W)) ↔ d ∈ list.map (sampleKey W)) ∧
    (buildForecast W list).length = min 7 (firstAppearances (list.map (sampleKey W))).length ∧
    (buildForecast W list).length ≤ 7 ∧
    (dayGroup W list k).temps ≠ [] ∧
    0 < (dayGroup W list k).humidity.length ∧
    (∃ first, list.find? (fun item => sampleKey W item == k) = some first ∧
      (dayGroup W list k).description = firstDescription first.weather ∧
      (dayGroup W list k).icon = firstIcon first.weather) ∧
    ∃ lo hi, jsMin (dayGroup W list k).temps = some lo ∧
      jsMax (dayGroup W list k).temps = some hi ∧ lo ≤ hi ∧
      mathRound lo ≤ mathRound hi ∧
      forecastEntry W (k, dayGroup W list k) =
        .obj [("date", .str (W.toLocaleDateString k)),
          ("temp_max", .num (mathRound hi)), ("temp_min", .num (mathRound lo)),
          ("description", .str (dayGroup W list k).description),
          ("icon", .str (dayGroup W list k).icon),
          ("humidity", .num (mathRound ((dayGroup W list k).humidity.sum /
            (dayGroup W list k).humidity.length)))] := by
  have hgroups := foldl_addSample W list
  have hne := daySamples_ne_nil W list k hk
  have htemps : (dayGroup W list k).temps ≠ [] := by
    simpa [dayGroup] using hne
  have hhum : 0 < (dayGroup W list k).humidity.length := by
    have : 0 < (daySamples W list k).length := List.length_pos.mpr hne
    simpa [dayGroup] using this
  have hbuild : buildForecast W list =
      ((firstAppearances (list.map (sampleKey W))).take 7).map
        (fun d => forecastEntry W (d, dayGroup W list d)) := by
    rw [buildForecast, hgroups, ← List.map_take, List.map_map]
    rfl
  refine ⟨hgroups, hbuild, nodup_firstAppearances _, mem_firstAppearances _, ?_, ?_, htemps,
    hhum, ?_, ?_⟩
  · rw [hbuild]; simp
  · rw [hbuild]; simp
  · cases hs : daySamples W list k with
    | nil => exact absurd hs hne
    | cons first rest =>
      have hfind : list.find? (fun item => sampleKey W item == k) = some first := by
        rw [← head?_filter_eq_find?]
        have : List.filter (fun item => sampleKey W item == k) list = first :: rest := hs
        rw [this]
        rfl
      exact ⟨first, hfind, by simp [dayGroup, hs], by simp [dayGroup, hs]⟩
  · obtain ⟨lo, hi, hlo, hhi, hle, hround⟩ := jsMin_le_jsMax _ htemps
    refine ⟨lo, hi, hlo, hhi, hle, hround, ?_⟩
    have hlen : (dayGroup W list k).humidity.length ≠ 0 := Nat.pos_iff_ne_zero.mp hhum
    simp [forecastEntry, hlo, hhi, roundedJson, hlen]

/-- C26 at a concrete input: five samples of three days, the first day seen three times. -/
theorem forecast_grouping_witness :
    threeDays.foldl (addSample demoWeatherEnv) [] =
      (firstAppearances (threeDays.map (sampleKey demoWeatherEnv))).map
        (fun d => (d, dayGroup demoWeatherEnv threeDays d)) ∧
    buildForecast demoWeatherEnv threeDays =
      ((firstAppearances (threeDays.map (sampleKey demoWeatherEnv))).take 7).map
        (fun d => forecastEntry demoWeatherEnv (d, dayGroup demoWeatherEnv threeDays d)) ∧
    (firstAppearances (threeDays.map (sampleKey demoWeatherEnv))).Nodup ∧
    (∀ d, d ∈ firstAppearances (threeDays.map (sampleKey demoWeatherEnv)) ↔
      d ∈ threeDays.map (sampleKey demoWeatherEnv)) ∧
    (buildForecast demoWeatherEnv threeDays).length =
      min 7 (firstAppearances (threeDays.map (sampleKey demoWeatherEnv))).length ∧
    (buildForecast demoWeatherEnv threeDays).length ≤ 7 ∧
    (dayGroup demoWeatherEnv threeDays "day 20240").temps ≠ [] ∧
    0 < (dayGroup demoWeatherEnv threeDays "day 20240").humidity.length ∧
    (∃ first, threeDays.find? (fun item => sampleKey demoWeatherEnv item == "day 20240") =
        some first ∧
      (dayGroup demoWeatherEnv threeDays "day 20240").description =
        firstDescription first.weather ∧
      (dayGroup demoWeatherEnv threeDays "day 20240").icon = firstIcon first.weather) ∧
    ∃ lo hi, jsMin (dayGroup demoWeatherEnv threeDays "day 20240").temps = some lo ∧
      jsMax (dayGroup demoWeatherEnv threeDays "day 20240").temps = some hi ∧ lo ≤ hi ∧
      mathRound lo ≤ mathRound hi ∧
      forecastEntry demoWeatherEnv ("day 20240", dayGroup demoWeatherEnv threeDays "day 20240") =
        .obj [("date", .str (demoWeatherEnv.toLocaleDateString "day 20240")),
          ("temp_max", .num (mathRound hi)), ("temp_min", .num (mathRound lo)),
          ("description", .str (dayGroup demoWeatherEnv threeDays "day 20240").description),
          ("icon", .str (dayGroup demoWeatherEnv threeDays "day 20240").icon),
          ("humidity", .num (mathRound
            ((dayGroup demoWeatherEnv threeDays "day 20240").humidity.sum /
              (dayGroup demoWeatherEnv threeDays "day 20240").humidity.length)))] :=
  forecast_grouping demoWeatherEnv threeDays "day 20240" (by decide)

end WeatherApp
